import Mathlib

/-! # Timer labs: watchdog, adaptive sampler, pattern engine


A shallow embedding of the two timer applications
`05-timers/lab2/LEDPatternEvolution/main/LEDPatternEvolution.c` and
`05-timers/lab2/SensorAdaptiveSampling/main/SensorAdaptiveSampling.c`.

Conventions of the embedding.

* Every callback and every task iteration is a pure function from the program
  state (the globals, the function-level `static` variables and the locals a
  task keeps across iterations) and the values it obtains from its environment
  to the new state and the list of calls it made to its collaborators
  (GPIO, delays, log, timer service), in program order.
* A callback and a task iteration are atomic steps: the timer callbacks run
  one at a time in the timer task, and the interleaving of a task with a
  callback in the middle of its body is not modelled.
* `uint32_t` counters are natural numbers incremented modulo `2 ^ 32`.
* The `int` variables of the program (`feed_count`, `pattern_step`, `sos_pos`,
  `cnt`) start at 0 and are only incremented, reduced modulo a positive
  constant or reset to 0; they are natural numbers here.  Signed overflow is
  undefined behaviour in C and is not modelled.
* `float` values are rational numbers and every `float` operation rounds its
  exact result to IEEE 754 binary32, to nearest with ties to even
  (`to_float`).  Comparisons of `float` values are exact.  Infinities and NaN
  are not represented: the accumulator of the worker holds at most ten values
  between 0 and 50.
* Periods and delays are kept in milliseconds, the argument of
  `pdMS_TO_TICKS`.
* The two programs share most of their text.  Where they differ the
  definition takes the program as a parameter of type `Lab`.
-/

namespace TimerLabs

/-! ## Data model -/

/-- The two programs embedded here. -/
inductive Lab where
  | LEDPatternEvolution
  | SensorAdaptiveSampling
  deriving DecidableEq, Repr

/-- The enumeration `led_pattern_t` without its end marker `PATTERN_MAX`. -/
inductive led_pattern_t where
  | PATTERN_OFF
  | PATTERN_SLOW_BLINK
  | PATTERN_FAST_BLINK
  | PATTERN_HEARTBEAT
  | PATTERN_SOS
  | PATTERN_RAINBOW
  deriving DecidableEq, Repr

/-- The value of `PATTERN_MAX`, the number of variants. -/
def PATTERN_MAX : Nat := 6

/-- The integer value of an enumerator. -/
def led_pattern_t.val : led_pattern_t → Nat
  | .PATTERN_OFF => 0
  | .PATTERN_SLOW_BLINK => 1
  | .PATTERN_FAST_BLINK => 2
  | .PATTERN_HEARTBEAT => 3
  | .PATTERN_SOS => 4
  | .PATTERN_RAINBOW => 5

/-- The enumerator with a given integer value; values from `PATTERN_MAX` on
do not occur, since the program only converts results of `% PATTERN_MAX`. -/
def led_pattern_t.ofVal : Nat → led_pattern_t
  | 0 => .PATTERN_OFF
  | 1 => .PATTERN_SLOW_BLINK
  | 2 => .PATTERN_FAST_BLINK
  | 3 => .PATTERN_HEARTBEAT
  | 4 => .PATTERN_SOS
  | _ => .PATTERN_RAINBOW

/-- The struct `sensor_data_t`. -/
structure sensor_data_t where
  value : ℚ
  timestamp : Nat
  valid : Bool
  deriving DecidableEq, Repr

/-- The struct `system_health_t`. -/
structure system_health_t where
  watchdog_feeds : Nat
  watchdog_timeouts : Nat
  pattern_changes : Nat
  sensor_readings : Nat
  system_uptime_sec : Nat
  system_healthy : Bool
  deriving DecidableEq, Repr

/-- The struct `pattern_state_t`. -/
structure pattern_state_t where
  step : Int
  direction : Int
  intensity : Int
  state : Bool
  deriving DecidableEq, Repr

/-- The timer handles of the program: the five globals and the handle of the
recovery timer that `feed_watchdog_callback` creates. -/
inductive TimerId where
  | watchdog_timer
  | feed_timer
  | pattern_timer
  | sensor_timer
  | status_timer
  | recovery
  deriving DecidableEq, Repr

/-- The output pins. -/
inductive Pin where
  | STATUS_LED
  | WATCHDOG_LED
  | PATTERN_LED_1
  | PATTERN_LED_2
  | PATTERN_LED_3
  | SENSOR_POWER
  deriving DecidableEq, Repr

/-- The severity of a log line: `ESP_LOGE`, `ESP_LOGW`, `ESP_LOGI`. -/
inductive LogLevel where
  | E
  | W
  | I
  deriving DecidableEq, Repr

/-- The log lines of the callbacks and tasks, without their arguments. -/
inductive LogMsg where
  | watchdog_timeout
  | watchdog_stats
  | production_hint
  | recovered
  | simulate_hang
  | feed
  | pattern_change (old new : led_pattern_t)
  | heartbeat_pulse
  | sos_complete
  | rainbow_cycle
  | queue_full_drop
  | status_line (k : Nat)
  | sensor_value (v : ℚ)
  | moving_avg (avg : ℚ)
  | high_temp
  | low_temp
  | invalid_reading (v : ℚ)
  | too_many_timeouts
  | sensor_stuck
  | free_heap
  | low_memory
  | create_timer_failed
  | all_timers_created
  | starting
  | started
  deriving DecidableEq, Repr

/-- A request to the timer service. -/
inductive TimerCmd where
  | xTimerStart (t : TimerId)
  | xTimerStop (t : TimerId)
  | xTimerReset (t : TimerId)
  | xTimerChangePeriod (t : TimerId) (ms : Nat)
  | xTimerDelete (t : TimerId)
  deriving DecidableEq, Repr

/-- The outcome of a push onto the bounded channel: accepted, refused at once
because the channel is full, or the caller is suspended on the full channel. -/
inductive SendResult where
  | pdTRUE
  | errQUEUE_FULL
  | blocked
  deriving DecidableEq, Repr

/-- A call to a collaborator, as it appears in the text of a callback. -/
inductive Effect where
  | gpio_set_level (pin : Pin) (level : Bool)
  | vTaskDelay (ms : Nat)
  | log (level : LogLevel) (msg : LogMsg)
  | timer (cmd : TimerCmd)
  | xTimerCreate (t : TimerId) (ms : Nat) (autoReload : Bool) (created : Bool)
  | xQueueSend (item : sensor_data_t) (xTicksToWait : Nat) (result : SendResult)
  deriving DecidableEq, Repr

/-- The program state: the globals, the `static` locals of the callbacks and
the locals that the two tasks keep across iterations of their loops. -/
structure State where
  current_pattern : led_pattern_t
  pattern_step : Nat
  health_stats : system_health_t
  pattern_state : pattern_state_t
  /-- `static int feed_count` of `feed_watchdog_callback`. -/
  feed_count : Nat
  /-- `static uint32_t pattern_cycle` (`cycle`) of `pattern_timer_callback`. -/
  pattern_cycle : Nat
  /-- `static int sos_pos` (`pos`) of `pattern_timer_callback`. -/
  sos_pos : Nat
  /-- The contents of `sensor_queue`, oldest first. -/
  sensor_queue : List sensor_data_t
  /-- Local `sum` of `sensor_processing_task`. -/
  sum : ℚ
  /-- Local `cnt` of `sensor_processing_task`. -/
  cnt : Nat
  /-- Local `last_sensor_count` of `system_monitor_task`. -/
  last_sensor_count : Nat
  deriving DecidableEq, Repr

/-- The state given by the initialisers of the globals and statics. -/
def State.init : State where
  current_pattern := .PATTERN_OFF
  pattern_step := 0
  health_stats := ⟨0, 0, 0, 0, 0, true⟩
  pattern_state := ⟨0, 1, 0, false⟩
  feed_count := 0
  pattern_cycle := 0
  sos_pos := 0
  sensor_queue := []
  sum := 0
  cnt := 0
  last_sensor_count := 0

/-- Increment of a `uint32_t`. -/
def incr32 (x : Nat) : Nat := (x + 1) % 2 ^ 32

/-! ## Watchdog -/

/-- The loop `for (i = 0; i < 10; i++)` of `watchdog_timeout_callback`, with
`n` iterations left. -/
def watchdog_flash : Nat → List Effect
  | 0 => []
  | n + 1 =>
    [.gpio_set_level .WATCHDOG_LED true, .vTaskDelay 50,
     .gpio_set_level .WATCHDOG_LED false, .vTaskDelay 50] ++ watchdog_flash n

/-- The callback of the deadline timer. -/
def watchdog_timeout_callback (lab : Lab) (s : State) : State × List Effect :=
  let s := { s with health_stats :=
    { s.health_stats with watchdog_timeouts := incr32 s.health_stats.watchdog_timeouts } }
  let s := { s with health_stats := { s.health_stats with system_healthy := false } }
  let out := [Effect.log .E .watchdog_timeout]
  let out := out ++ (if lab = .LEDPatternEvolution then [Effect.log .E .watchdog_stats] else [])
  let out := out ++ watchdog_flash 10
  let out := out ++ [Effect.log .W .production_hint]
  let out := out ++ [Effect.timer (.xTimerReset .watchdog_timer)]
  let s := { s with health_stats := { s.health_stats with system_healthy := true } }
  (s, out)

/-- The callback of the recovery timer; `timer` is the handle it is invoked
with. -/
def recovery_callback (s : State) (timer : TimerId) : State × List Effect :=
  (s, [.log .I .recovered, .timer (.xTimerStart .feed_timer), .timer (.xTimerDelete timer)])

/-- The callback of the feed timer.  `created` tells whether `xTimerCreate`
returns a handle, should the callback ask for one. -/
def feed_watchdog_callback (lab : Lab) (s : State) (created : Bool) : State × List Effect :=
  let s := { s with feed_count := s.feed_count + 1 }
  if s.feed_count = 15 then
    let out := [Effect.log .W .simulate_hang, Effect.timer (.xTimerStop .feed_timer)]
    let out := out ++ [Effect.xTimerCreate .recovery 8000 false created]
    let out := out ++ (if created then [Effect.timer (.xTimerStart .recovery)] else [])
    (s, out)
  else
    let s := { s with health_stats :=
      { s.health_stats with watchdog_feeds := incr32 s.health_stats.watchdog_feeds } }
    let out := if lab = .LEDPatternEvolution then [Effect.log .I .feed] else []
    let out := out ++ [Effect.timer (.xTimerReset .watchdog_timer)]
    let out := out ++ [Effect.gpio_set_level .STATUS_LED true, Effect.vTaskDelay 50,
      Effect.gpio_set_level .STATUS_LED false]
    (s, out)

/-! ## Pattern engine -/

/-- The three writes of `set_pattern_leds`. -/
def set_pattern_leds (led1 led2 led3 : Bool) : List Effect :=
  [.gpio_set_level .PATTERN_LED_1 led1, .gpio_set_level .PATTERN_LED_2 led2,
   .gpio_set_level .PATTERN_LED_3 led3]

/-- The transition of the pattern engine. -/
def change_led_pattern (s : State) (new_pattern : led_pattern_t) : State × List Effect :=
  let out := [Effect.log .I (.pattern_change s.current_pattern new_pattern)]
  let s := { s with current_pattern := new_pattern }
  let s := { s with pattern_step := 0 }
  let s := { s with pattern_state := { s.pattern_state with step := 0 } }
  let s := { s with pattern_state := { s.pattern_state with state := false } }
  let s := { s with health_stats :=
    { s.health_stats with pattern_changes := incr32 s.health_stats.pattern_changes } }
  (s, out ++ [Effect.timer (.xTimerReset .pattern_timer)])

/-- The string `sos`. -/
def sos : List Char := ['.', '.', '.', '-', '-', '-', '.', '.', '.']

/-- The constant `PATTERN_BASE_MS`. -/
def PATTERN_BASE_MS : Nat := 500

/-- The `switch` of `pattern_timer_callback`.  The `default` label is not
reachable: `current_pattern` only holds enumerators below `PATTERN_MAX`. -/
def pattern_switch (lab : Lab) (s : State) (timer : TimerId) : State × List Effect :=
  match s.current_pattern with
  | .PATTERN_OFF =>
    (s, set_pattern_leds false false false ++ [.timer (.xTimerChangePeriod timer 1000)])
  | .PATTERN_SLOW_BLINK =>
    let s := { s with pattern_state := { s.pattern_state with state := !s.pattern_state.state } }
    (s, set_pattern_leds s.pattern_state.state false false
      ++ [.timer (.xTimerChangePeriod timer 1000)])
  | .PATTERN_FAST_BLINK =>
    let s := { s with pattern_state := { s.pattern_state with state := !s.pattern_state.state } }
    (s, set_pattern_leds false s.pattern_state.state false
      ++ [.timer (.xTimerChangePeriod timer 200)])
  | .PATTERN_HEARTBEAT =>
    let step := s.pattern_step % 10
    let pulse := decide (step < 2) || (decide (step ≥ 3) && decide (step < 5))
    let out := set_pattern_leds false false pulse
    let s := { s with pattern_step := s.pattern_step + 1 }
    let out := out ++ [Effect.timer (.xTimerChangePeriod timer 100)]
    let out := out ++
      (if lab = .LEDPatternEvolution ∧ step = 9 then [Effect.log .I .heartbeat_pulse] else [])
    (s, out)
  | .PATTERN_SOS =>
    let dot := sos.get? s.sos_pos == some '.'
    let duration := if dot then 200 else 600
    let out := set_pattern_leds true true true ++ [Effect.vTaskDelay duration]
      ++ set_pattern_leds false false false
    let s := { s with sos_pos := (s.sos_pos + 1) % sos.length }
    match lab with
    | .LEDPatternEvolution =>
      let out := out ++
        (if s.sos_pos = 0 then [Effect.log .I .sos_complete, Effect.vTaskDelay 1000] else [])
      (s, out ++ [Effect.timer (.xTimerChangePeriod timer PATTERN_BASE_MS)])
    | .SensorAdaptiveSampling =>
      (s, out ++ [Effect.timer (.xTimerChangePeriod timer 200)])
  | .PATTERN_RAINBOW =>
    let step := s.pattern_step % 8
    let out := set_pattern_leds (step &&& 1 != 0) (step &&& 2 != 0) (step &&& 4 != 0)
    let s := { s with pattern_step := s.pattern_step + 1 }
    let out := out ++
      (if lab = .LEDPatternEvolution ∧ step = 7 then [Effect.log .I .rainbow_cycle] else [])
    (s, out ++ [Effect.timer (.xTimerChangePeriod timer 300)])

/-- The callback of the pattern timer; `timer` is the handle it is invoked
with. -/
def pattern_timer_callback (lab : Lab) (s : State) (timer : TimerId) : State × List Effect :=
  let s := { s with pattern_cycle := incr32 s.pattern_cycle }
  let r := pattern_switch lab s timer
  if r.1.pattern_cycle % 50 = 0 then
    let next := led_pattern_t.ofVal ((r.1.current_pattern.val + 1) % PATTERN_MAX)
    let c := change_led_pattern r.1 next
    (c.1, r.2 ++ c.2)
  else r

/-! ## Sampler and averaging worker -/

/-- The length given to `xQueueCreate` for `sensor_queue` in `create_queues`. -/
def sensor_queue_length : Nat := 20

/-- Modelled from the spec: the bounded channel (FreeRTOS `xQueueSend`, which
is not part of the sources).  A fixed-capacity FIFO; a push onto a full
channel fails at once when the caller waits 0 ticks and suspends the caller
otherwise. -/
def xQueueSend (queue : List sensor_data_t) (capacity : Nat) (item : sensor_data_t)
    (xTicksToWait : Nat) : List sensor_data_t × SendResult :=
  if queue.length < capacity then (queue ++ [item], .pdTRUE)
  else if xTicksToWait = 0 then (queue, .errQUEUE_FULL)
  else (queue, .blocked)

/-- The function `read_sensor_value`.  The conversion of the ADC and the
noise added to it belong to the sensor collaborator: `reading` is the
temperature the function returns. -/
def read_sensor_value (reading : ℚ) : ℚ × List Effect :=
  (reading, [.gpio_set_level .SENSOR_POWER true, .vTaskDelay 10,
    .gpio_set_level .SENSOR_POWER false])

/-- The period, in milliseconds, that `sensor_timer_callback` computes in
`new_period`. -/
def new_period (value : ℚ) : Nat :=
  if value > 40 then 500
  else if value > 25 then 1000
  else 2000

/-- The callback of the sensor timer.  `reading` is the result of
`read_sensor_value`, `now` the tick count and `timer` the handle the callback
is invoked with. -/
def sensor_timer_callback (s : State) (reading : ℚ) (now : Nat) (timer : TimerId) :
    State × List Effect :=
  let r := read_sensor_value reading
  let d : sensor_data_t :=
    { value := r.1, timestamp := now, valid := decide (r.1 ≥ 0) && decide (r.1 ≤ 50) }
  let s := { s with health_stats :=
    { s.health_stats with sensor_readings := incr32 s.health_stats.sensor_readings } }
  let q := xQueueSend s.sensor_queue sensor_queue_length d 0
  let s := { s with sensor_queue := q.1 }
  let out := r.2 ++ [Effect.xQueueSend d 0 q.2]
  let out := out ++ (if q.2 ≠ .pdTRUE then [Effect.log .W .queue_full_drop] else [])
  (s, out ++ [Effect.timer (.xTimerChangePeriod timer (new_period d.value))])

/-- The integer nearest to a rational number, the even one of the two when
the number lies halfway between them. -/
def round_half_even (x : ℚ) : ℤ :=
  if x - ⌊x⌋ < 1 / 2 then ⌊x⌋
  else if 1 / 2 < x - ⌊x⌋ then ⌊x⌋ + 1
  else if ⌊x⌋ % 2 = 0 then ⌊x⌋ else ⌊x⌋ + 1

/-- The loop of `floor_log2`: the number of times `n` can be halved before
it drops below 2, with `fuel` bounding the number of iterations. -/
def log2_fuel : ℕ → ℕ → ℕ
  | 0, _ => 0
  | fuel + 1, n => if n < 2 then 0 else log2_fuel fuel (n / 2) + 1

/-- The position of the leading binary digit of a positive natural number. -/
def floor_log2 (n : ℕ) : ℕ := log2_fuel n n

/-- The exponent of the leading binary digit of `x`: the integer `e` with
`2 ^ e ≤ |x| < 2 ^ (e + 1)`, found from the positions of the leading digits
of the numerator and the denominator. -/
def binade (x : ℚ) : ℤ :=
  if (2 : ℚ) ^ ((floor_log2 x.num.natAbs : ℤ) - (floor_log2 x.den : ℤ)) ≤ |x| then
    (floor_log2 x.num.natAbs : ℤ) - (floor_log2 x.den : ℤ)
  else (floor_log2 x.num.natAbs : ℤ) - (floor_log2 x.den : ℤ) - 1

/-- The exponent of the unit in the last place of a binary32 number of the
magnitude of `x`: 24 significant bits, the exponent of the leading bit not
below -126. -/
def ulp_exponent (x : ℚ) : ℤ := max (binade x) (-126) - 23

/-- The C type `float` of the target, IEEE 754 binary32: the value that an
arithmetic operation or a conversion with the exact result `x` delivers,
rounded to nearest, ties to even.  Results of magnitude `2 ^ 128` and above,
which overflow to an infinity, are not represented. -/
def to_float (x : ℚ) : ℚ := round_half_even (x / 2 ^ ulp_exponent x) * 2 ^ ulp_exponent x

/-- One iteration of the loop of `sensor_processing_task`, after
`xQueueReceive` has delivered the sample `d`.  `sum` and `avg` are `float`
variables: `sum += s.value` and `sum / (float)cnt` round their results. -/
def sensor_processing_task (s : State) (d : sensor_data_t) : State × List Effect :=
  if d.valid then
    let s := { s with sum := to_float (s.sum + d.value) }
    let s := { s with cnt := s.cnt + 1 }
    let out := [Effect.log .I (.sensor_value d.value)]
    if s.cnt ≥ 10 then
      let avg := to_float (s.sum / to_float (s.cnt : ℚ))
      let out := out ++ [Effect.log .I (.moving_avg avg)]
      let c :=
        if avg > 35 then
          let c := change_led_pattern s .PATTERN_FAST_BLINK
          (c.1, Effect.log .W .high_temp :: c.2)
        else if avg < 15 then
          let c := change_led_pattern s .PATTERN_SOS
          (c.1, Effect.log .W .low_temp :: c.2)
        else (s, [])
      let s := { c.1 with sum := 0 }
      let s := { s with cnt := 0 }
      (s, out ++ c.2)
    else (s, out)
  else (s, [.log .W (.invalid_reading d.value)])

/-- The averaging worker over the samples it receives, in order. -/
def sensor_processing_loop (s : State) : List sensor_data_t → State × List Effect
  | [] => (s, [])
  | d :: ds =>
    let r := sensor_processing_task s d
    let rest := sensor_processing_loop r.1 ds
    (rest.1, r.2 ++ rest.2)

/-- The sampler over a list of firings, each with its reading and tick
count. -/
def sensor_timer_run (s : State) (timer : TimerId) : List (ℚ × Nat) → State × List Effect
  | [] => (s, [])
  | x :: xs =>
    let r := sensor_timer_callback s x.1 x.2 timer
    let rest := sensor_timer_run r.1 timer xs
    (rest.1, r.2 ++ rest.2)

/-- The sample that the sampler builds from a reading and a tick count. -/
def sample_of (x : ℚ × Nat) : sensor_data_t :=
  { value := x.1, timestamp := x.2, valid := decide (x.1 ≥ 0) && decide (x.1 ≤ 50) }

/-- The feed callback over a list of firings, each with the outcome that a
timer creation would have. -/
def feed_run (lab : Lab) (s : State) : List Bool → State
  | [] => s
  | created :: rest => feed_run lab (feed_watchdog_callback lab s created).1 rest

/-! ## Status report and monitor -/

/-- The lines of the report of `status_timer_callback`. -/
def status_lines : Nat → List Effect
  | 0 => []
  | n + 1 => status_lines n ++ [Effect.log .I (.status_line n)]

/-- The callback of the status timer.  `now_ms` is the value of
`pdTICKS_TO_MS(xTaskGetTickCount())`. -/
def status_timer_callback (lab : Lab) (s : State) (now_ms : Nat) : State × List Effect :=
  let s := { s with health_stats :=
    { s.health_stats with system_uptime_sec := (now_ms / 1000) % 2 ^ 32 } }
  match lab with
  | .LEDPatternEvolution =>
    (s, status_lines 8 ++ [.gpio_set_level .STATUS_LED true, .vTaskDelay 120,
      .gpio_set_level .STATUS_LED false])
  | .SensorAdaptiveSampling =>
    (s, status_lines 4 ++ [.gpio_set_level .STATUS_LED true, .vTaskDelay 150,
      .gpio_set_level .STATUS_LED false])

/-- One iteration of the loop of `system_monitor_task`; `heap` is the result
of `esp_get_free_heap_size`. -/
def system_monitor_task (lab : Lab) (s : State) (heap : Nat) : State × List Effect :=
  let out := [Effect.vTaskDelay 60000]
  let r :=
    if s.health_stats.watchdog_timeouts > 5 then
      ({ s with health_stats := { s.health_stats with system_healthy := false } },
        out ++ [Effect.log .E .too_many_timeouts])
    else (s, out)
  match lab with
  | .LEDPatternEvolution =>
    let out := r.2 ++
      (if r.1.health_stats.sensor_readings = r.1.last_sensor_count
        then [Effect.log .W .sensor_stuck] else [])
    let s := { r.1 with last_sensor_count := r.1.health_stats.sensor_readings }
    let out := out ++ [Effect.log .I .free_heap]
    (s, out ++ (if heap < 10000 then [Effect.log .W .low_memory] else []))
  | .SensorAdaptiveSampling => (r.1, r.2 ++ [Effect.log .I .free_heap])

/-! ## Start-up -/

/-- The constant `WATCHDOG_TIMEOUT_MS`. -/
def WATCHDOG_TIMEOUT_MS : Nat := 5000

/-- The constant `WATCHDOG_FEED_MS`. -/
def WATCHDOG_FEED_MS : Nat := 2000

/-- The constant `SENSOR_SAMPLE_MS`. -/
def SENSOR_SAMPLE_MS : Nat := 1000

/-- The constant `STATUS_UPDATE_MS`. -/
def STATUS_UPDATE_MS : Nat := 3000

/-- The function `create_timers`; `created t` tells whether `xTimerCreate`
returns a handle for timer `t`. -/
def create_timers (lab : Lab) (created : TimerId → Bool) : List Effect :=
  let out := [Effect.xTimerCreate .watchdog_timer WATCHDOG_TIMEOUT_MS false
      (created .watchdog_timer),
    Effect.xTimerCreate .feed_timer WATCHDOG_FEED_MS true (created .feed_timer),
    Effect.xTimerCreate .pattern_timer PATTERN_BASE_MS true (created .pattern_timer),
    Effect.xTimerCreate .sensor_timer SENSOR_SAMPLE_MS true (created .sensor_timer),
    Effect.xTimerCreate .status_timer STATUS_UPDATE_MS true (created .status_timer)]
  if !created .watchdog_timer || !created .feed_timer || !created .pattern_timer
      || !created .sensor_timer || !created .status_timer then
    out ++ [Effect.log .E .create_timer_failed]
  else
    out ++ (if lab = .LEDPatternEvolution then [Effect.log .I .all_timers_created] else [])

/-- The five calls of `xTimerStart` in `start_system`. -/
def start_timers : List Effect :=
  [.timer (.xTimerStart .watchdog_timer), .timer (.xTimerStart .feed_timer),
   .timer (.xTimerStart .pattern_timer), .timer (.xTimerStart .sensor_timer),
   .timer (.xTimerStart .status_timer)]

/-- The function `start_system`.  The creation of the two tasks has no effect
on the state. -/
def start_system (lab : Lab) (s : State) : State × List Effect :=
  match lab with
  | .LEDPatternEvolution =>
    (s, [Effect.log .I .starting] ++ start_timers ++ [Effect.log .I .started])
  | .SensorAdaptiveSampling =>
    let c := change_led_pattern s .PATTERN_SLOW_BLINK
    (c.1, start_timers ++ c.2)

/-- The function `app_main` after `init_hardware` and `create_queues`, which
only configure the pins, the ADC and the two queues. -/
def app_main (lab : Lab) (s : State) (created : TimerId → Bool) : State × List Effect :=
  let out := create_timers lab created
  let r := start_system lab s
  match lab with
  | .LEDPatternEvolution =>
    let c := change_led_pattern r.1 .PATTERN_SLOW_BLINK
    (c.1, out ++ r.2 ++ c.2)
  | .SensorAdaptiveSampling => (r.1, out ++ r.2)

/-! ## Timer service and dispatch -/

/-- The record the timer service keeps for a handle. -/
structure TimerSlot where
  created : Bool
  active : Bool
  period_ms : Nat
  autoReload : Bool
  deriving DecidableEq, Repr

/-- The table of the timer service. -/
abbrev Timers := TimerId → TimerSlot

/-- The table before any timer is created. -/
def Timers.none : Timers := fun _ => ⟨false, false, 0, false⟩

/-- Replace the record of one handle. -/
def Timers.set (ts : Timers) (t : TimerId) (v : TimerSlot) : Timers :=
  fun u => if u = t then v else ts u

/-- Modelled from the spec: the Timer Service (the FreeRTOS software timers,
which are not part of the sources), section 4.1.  A created timer is dormant;
start and reset make it active, stop makes it inactive, a change of period
installs the period and leaves the timer running, delete removes it.  A
request for a handle that was never created or was deleted is dropped. -/
def Timers.request (ts : Timers) : Effect → Timers
  | .xTimerCreate t ms autoReload true => ts.set t ⟨true, false, ms, autoReload⟩
  | .timer (.xTimerStart t) =>
    if (ts t).created then ts.set t { ts t with active := true } else ts
  | .timer (.xTimerStop t) =>
    if (ts t).created then ts.set t { ts t with active := false } else ts
  | .timer (.xTimerReset t) =>
    if (ts t).created then ts.set t { ts t with active := true } else ts
  | .timer (.xTimerChangePeriod t ms) =>
    if (ts t).created then ts.set t { ts t with active := true, period_ms := ms } else ts
  | .timer (.xTimerDelete t) => ts.set t ⟨false, false, 0, false⟩
  | _ => ts

/-- The requests of a callback, applied in program order. -/
def Timers.requests (ts : Timers) (out : List Effect) : Timers :=
  out.foldl Timers.request ts

/-- The program together with the timer service. -/
structure System where
  prog : State
  timers : Timers

/-- The system after `app_main`. -/
def System.boot (lab : Lab) (created : TimerId → Bool) : System :=
  let r := app_main lab State.init created
  ⟨r.1, Timers.none.requests r.2⟩

/-- What can happen next: a timer expires, the averaging worker takes a
sample from the channel, or the monitor task wakes up.  Each event carries
the values the code obtains from its environment. -/
inductive Event where
  | watchdog_expired
  | feed_expired (created : Bool)
  | recovery_expired
  | pattern_expired
  | sensor_expired (reading : ℚ) (now : Nat)
  | status_expired (now_ms : Nat)
  | worker
  | monitor (heap : Nat)

/-- Modelled from the spec: the expiry of a timer (section 4.1).  A dormant
timer does not fire; a one-shot timer disarms when it fires, a periodic one
stays armed; the requests of the callback take effect when it returns. -/
def System.fire (sys : System) (t : TimerId) (callback : State → State × List Effect) :
    System :=
  if (sys.timers t).active then
    let ts := if (sys.timers t).autoReload then sys.timers
      else sys.timers.set t { sys.timers t with active := false }
    let r := callback sys.prog
    ⟨r.1, ts.requests r.2⟩
  else sys

/-- One step of the system. -/
def System.step (lab : Lab) (sys : System) : Event → System
  | .watchdog_expired => sys.fire .watchdog_timer (watchdog_timeout_callback lab)
  | .feed_expired created =>
    sys.fire .feed_timer (fun s => feed_watchdog_callback lab s created)
  | .recovery_expired => sys.fire .recovery (fun s => recovery_callback s .recovery)
  | .pattern_expired =>
    sys.fire .pattern_timer (fun s => pattern_timer_callback lab s .pattern_timer)
  | .sensor_expired reading now =>
    sys.fire .sensor_timer (fun s => sensor_timer_callback s reading now .sensor_timer)
  | .status_expired now_ms => sys.fire .status_timer (fun s => status_timer_callback lab s now_ms)
  | .worker =>
    match sys.prog.sensor_queue with
    | [] => sys
    | d :: rest =>
      let r := sensor_processing_task { sys.prog with sensor_queue := rest } d
      ⟨r.1, sys.timers.requests r.2⟩
  | .monitor heap =>
    let r := system_monitor_task lab sys.prog heap
    ⟨r.1, sys.timers.requests r.2⟩

/-- A run of the system over a list of events. -/
def System.run (lab : Lab) (sys : System) (es : List Event) : System :=
  es.foldl (System.step lab) sys

/-- Whether an event is an expiry of the feed timer. -/
def Event.isFeed : Event → Bool
  | .feed_expired _ => true
  | _ => false

/-- Whether an event is the expiry of the recovery timer. -/
def Event.isRecovery : Event → Bool
  | .recovery_expired => true
  | _ => false

/-- The timer that a request names, if the call is a request. -/
def Effect.target : Effect → Option TimerId
  | .xTimerCreate t _ _ _ => some t
  | .timer (.xTimerStart t) => some t
  | .timer (.xTimerStop t) => some t
  | .timer (.xTimerReset t) => some t
  | .timer (.xTimerChangePeriod t _) => some t
  | .timer (.xTimerDelete t) => some t
  | _ => Option.none

/-- The periods that a list of calls asks the timer service to install, with
the handles they are for. -/
def requested_periods : List Effect → List (TimerId × Nat)
  | [] => []
  | .timer (.xTimerChangePeriod t ms) :: out => (t, ms) :: requested_periods out
  | _ :: out => requested_periods out

/-- The values of the valid samples of a list, in order. -/
def valid_values (ds : List sensor_data_t) : List ℚ :=
  (ds.filter (fun d => d.valid)).map (fun d => d.value)

/-! ## Scenarios -/

/-- The first nine readings of scenario 1, as the sampler delivers them. -/
def scenario1_head : List sensor_data_t :=
  [sample_of (10, 0), sample_of (12, 1), sample_of (11, 2), sample_of (9, 3),
   sample_of (13, 4), sample_of (8, 5), sample_of (10, 6), sample_of (12, 7),
   sample_of (11, 8)]

/-- The tenth reading of scenario 1. -/
def scenario1_last : sensor_data_t := sample_of (9, 9)

/-- Nine readings of scenario 2, all between 40 and 50, with two rejected
readings in between. -/
def scenario2_head : List sensor_data_t :=
  [sample_of (40, 0), sample_of (41, 1), sample_of (-3, 2), sample_of (45, 3),
   sample_of (50, 4), sample_of (42, 5), sample_of (44, 6), sample_of (51, 7),
   sample_of (40, 8), sample_of (43, 9), sample_of (47, 10)]

/-- The tenth valid reading of scenario 2. -/
def scenario2_last : sensor_data_t := sample_of (48, 11)

/-- Nine readings of a window whose mean lies between the two bounds. -/
def scenario_mid_head : List sensor_data_t :=
  [sample_of (20, 0), sample_of (22, 1), sample_of (25, 2), sample_of (30, 3),
   sample_of (18, 4), sample_of (27, 5), sample_of (24, 6), sample_of (21, 7),
   sample_of (26, 8)]

/-- The tenth reading of that window. -/
def scenario_mid_last : sensor_data_t := sample_of (23, 9)

/-- The number of drop warnings in a list of calls. -/
def dropped : List Effect → Nat
  | [] => 0
  | .log .W .queue_full_drop :: out => dropped out + 1
  | _ :: out => dropped out

/-- The pushes onto the channel in a list of calls: for each, the time the
caller is ready to wait and the outcome. -/
def send_results : List Effect → List (Nat × SendResult)
  | [] => []
  | .xQueueSend _ xTicksToWait result :: out => (xTicksToWait, result) :: send_results out
  | _ :: out => send_results out

/-- The first twenty firings of scenario 4: readings 20, 21, ..., 39 at ticks
0, 100, ..., 1900. -/
def scenario4_head : List (ℚ × Nat) :=
  (List.range 20).map (fun i : ℕ => ((i : ℚ) + 20, 100 * i))

/-- The twenty-first firing of scenario 4. -/
def scenario4_last : ℚ × Nat := (40, 2000)

/-- All requests in a list of calls are for the timer `t`. -/
def only_targets (t : TimerId) (out : List Effect) : Prop :=
  ∀ e ∈ out, e.target = Option.none ∨ e.target = some t

/-- The system after a boot in which all five timers are created, followed by
the events `es1`. -/
def before_hang (lab : Lab) (es1 : List Event) : System :=
  (System.boot lab (fun _ => true)).run lab es1

/-- The system after one more expiry of the feed timer, in which the creation
of the recovery timer succeeds. -/
def hung (lab : Lab) (es1 : List Event) : System :=
  (before_hang lab es1).step lab (.feed_expired true)

/-- The system after the further events `es2`. -/
def during_hang (lab : Lab) (es1 es2 : List Event) : System :=
  (hung lab es1).run lab es2

/-- The system after the expiry of the recovery timer that follows. -/
def recovered (lab : Lab) (es1 es2 : List Event) : System :=
  (during_hang lab es1 es2).step lab .recovery_expired

/-- The part of the program state that the feed callback owns: `feed_count`
and `watchdog_feeds`. -/
def feed_view (s : State) : Nat × Nat := (s.feed_count, s.health_stats.watchdog_feeds)

/-- A run of `n` rounds, in each of which the feed timer, the pattern timer
and the sensor timer expire and the worker takes the sample. -/
def scenario3_rounds : Nat → List Event
  | 0 => []
  | n + 1 =>
    [.feed_expired false, .pattern_expired, .sensor_expired 22 (200 * n), .worker]
      ++ scenario3_rounds n

/-- Scenario 3 up to the hang: fourteen rounds and a status report. -/
def scenario3_before : List Event := scenario3_rounds 14 ++ [.status_expired 28000]

/-- Scenario 3 during the hang: the deadline passes unfed, and the other
timers and tasks go on; an expiry of the stopped feed timer is listed to show
that it has no effect. -/
def scenario3_during : List Event :=
  [.pattern_expired, .watchdog_expired, .feed_expired true, .sensor_expired 41 3300,
   .worker, .status_expired 33000, .monitor 200000, .watchdog_expired]

/-- The pattern timer callback invoked `n` times in a row, with no other
code running in between: the final state and all calls made. -/
def pattern_run (lab : Lab) (timer : TimerId) : Nat → State → State × List Effect
  | 0, s => (s, [])
  | n + 1, s =>
    let r := pattern_timer_callback lab s timer
    let rest := pattern_run lab timer n r.1
    (rest.1, r.2 ++ rest.2)

/-- Whether a list of calls contains the request that `change_led_pattern`
sends, a reset of the pattern timer. -/
def transitions : List Effect → Nat
  | [] => 0
  | .timer (.xTimerReset .pattern_timer) :: out => transitions out + 1
  | _ :: out => transitions out

/-- The writes to the output pins in a list of calls, in order. -/
def pin_writes : List Effect → List (Pin × Bool)
  | [] => []
  | .gpio_set_level pin level :: out => (pin, level) :: pin_writes out
  | _ :: out => pin_writes out

/-- The samples pushed onto the channel in a list of calls, in order. -/
def sent_items : List Effect → List sensor_data_t
  | [] => []
  | .xQueueSend item _ _ :: out => item :: sent_items out
  | _ :: out => sent_items out

/-- The delays in a list of calls, in milliseconds and in order. -/
def delays : List Effect → List Nat
  | [] => []
  | .vTaskDelay ms :: out => ms :: delays out
  | _ :: out => delays out

/-- The state that the rendering of the variants other than SOS reads and
writes: the variant, the two step counters, the toggle and the rotation
counter. -/
def pattern_view (s : State) : led_pattern_t × Nat × Int × Bool × Nat :=
  (s.current_pattern, s.pattern_step, s.pattern_state.step, s.pattern_state.state,
    s.pattern_cycle)

/-- A history of the pattern engine: from the initial state a transition to
SOS and three invocations, which render the three dots. -/
def history_three_dots (lab : Lab) : State :=
  (pattern_run lab .pattern_timer 3 (change_led_pattern State.init .PATTERN_SOS).1).1

/-- A history of the pattern engine: 49 invocations from the initial state. -/
def history_49 (lab : Lab) : State := (pattern_run lab .pattern_timer 49 State.init).1

/-! ## The operations of the system -/

/-- The operations that write the program state, each with the values it
obtains from its environment: the six timer callbacks, the transition of the
pattern engine, one iteration of the averaging worker on a received sample
and one iteration of the monitor. -/
inductive Op where
  | feed (created : Bool)
  | watchdog_timeout
  | recovery (timer : TimerId)
  | pattern (timer : TimerId)
  | sampler (reading : ℚ) (now : Nat) (timer : TimerId)
  | status (now_ms : Nat)
  | change (new_pattern : led_pattern_t)
  | worker (d : sensor_data_t)
  | monitor (heap : Nat)

/-- The state after an operation and the calls it made. -/
def Op.run (lab : Lab) (s : State) : Op → State × List Effect
  | .feed created => feed_watchdog_callback lab s created
  | .watchdog_timeout => watchdog_timeout_callback lab s
  | .recovery timer => recovery_callback s timer
  | .pattern timer => pattern_timer_callback lab s timer
  | .sampler reading now timer => sensor_timer_callback s reading now timer
  | .status now_ms => status_timer_callback lab s now_ms
  | .change new_pattern => change_led_pattern s new_pattern
  | .worker d => sensor_processing_task s d
  | .monitor heap => system_monitor_task lab s heap

/-- A state in which the deadline timer has expired `2 ^ 32 - 1` times. -/
def timeouts_at_max : State :=
  { State.init with health_stats :=
      { State.init.health_stats with watchdog_timeouts := 2 ^ 32 - 1 } }

/-- The watchdog timeout callback `n` times in a row. -/
def timeout_run (lab : Lab) : Nat → State → State
  | 0, s => s
  | n + 1, s => timeout_run lab n (watchdog_timeout_callback lab s).1

/-! ## The program software_TimerLoad

The third program, `05-timers/lab1/software_TimerLoad/main/software_TimerLoad.c`.
It inspects the result of most of its requests to the timer service, so a
call carries the result that the service returned. -/

namespace TimerLoad

/-- The timers of the program: the four created in `app_main`, named after
the globals that hold their handles, and the dynamic timers, numbered. -/
inductive Handle where
  | xBlinkTimer
  | xHeartbeatTimer
  | xStatusTimer
  | xOneShotTimer
  | dynamic (n : Nat)
  deriving DecidableEq, Repr

/-- The output pins. -/
inductive Led where
  | LED_BLINK
  | LED_HEARTBEAT
  | LED_STATUS
  | LED_ONESHOT
  deriving DecidableEq, Repr

/-- The log lines, without their arguments other than a period. -/
inductive Msg where
  | blink_toggle
  | creating_oneshot
  | start_oneshot_failed
  | heartbeat_beat
  | adjusting_blink (ms : Nat)
  | change_blink_failed
  | status_update
  | statistics (k : Nat)
  | timer_states (k : Nat)
  | oneshot_event
  | creating_dynamic (ms : Nat)
  | start_dynamic_failed
  | dynamic_event
  | delete_dynamic_failed
  | dynamic_deleted
  | maintenance
  | stop_heartbeat
  | restart_heartbeat
  | reset_status
  | change_blink
  | new_blink_period (ms : Nat)
  | maintenance_completed
  | all_created
  | operational (k : Nat)
  | create_failed (k : Nat)
  deriving DecidableEq, Repr

/-- A call to a collaborator.  A request to the timer service carries the
time the caller is ready to wait, in ticks, and whether the service returned
`pdPASS`; a creation carries the handle returned, if any. -/
inductive Call where
  | gpio_set_level (pin : Led) (level : Bool)
  | vTaskDelay (ms : Nat)
  | log (level : LogLevel) (msg : Msg)
  | xTimerCreate (ms : Nat) (autoReload : Bool) (result : Option Handle)
  | xTimerStart (t : Handle) (xTicksToWait : Nat) (passed : Bool)
  | xTimerStop (t : Handle) (xTicksToWait : Nat) (passed : Bool)
  | xTimerReset (t : Handle) (xTicksToWait : Nat) (passed : Bool)
  | xTimerChangePeriod (t : Handle) (ms : Nat) (xTicksToWait : Nat) (passed : Bool)
  | xTimerDelete (t : Handle) (xTicksToWait : Nat) (passed : Bool)
  deriving DecidableEq, Repr

/-- The struct `timer_stats_t`. -/
structure timer_stats_t where
  blink_count : Nat
  heartbeat_count : Nat
  status_count : Nat
  oneshot_count : Nat
  dynamic_count : Nat
  deriving DecidableEq, Repr

/-- The globals that the callbacks write; `xDynamicTimer` is `none` for
`NULL`. -/
structure State where
  stats : timer_stats_t
  led_blink_state : Bool
  led_heartbeat_state : Bool
  xDynamicTimer : Option Handle
  deriving DecidableEq, Repr

/-- The state given by the initialisers. -/
def State.init : State where
  stats := ⟨0, 0, 0, 0, 0⟩
  led_blink_state := false
  led_heartbeat_state := false
  xDynamicTimer := Option.none

/-- The constant `BLINK_PERIOD`. -/
def BLINK_PERIOD : Nat := 500

/-- The constant `HEARTBEAT_PERIOD`. -/
def HEARTBEAT_PERIOD : Nat := 2000

/-- The constant `STATUS_PERIOD`. -/
def STATUS_PERIOD : Nat := 5000

/-- The constant `ONESHOT_DELAY`. -/
def ONESHOT_DELAY : Nat := 3000

/-- A loop that switches a pin on and off `n` times, with a delay after each
write. -/
def flash (pin : Led) (ms : Nat) : Nat → List Call
  | 0 => []
  | n + 1 =>
    [.gpio_set_level pin true, .vTaskDelay ms, .gpio_set_level pin false, .vTaskDelay ms]
      ++ flash pin ms n

/-- The callback of the blink timer; `passed` is the result of the request
to start the one-shot timer, should the callback send it. -/
def blink_timer_callback (s : State) (passed : Bool) : State × List Call :=
  let s := { s with stats := { s.stats with blink_count := incr32 s.stats.blink_count } }
  let s := { s with led_blink_state := !s.led_blink_state }
  let out := [Call.gpio_set_level .LED_BLINK s.led_blink_state, Call.log .I .blink_toggle]
  if s.stats.blink_count % 20 = 0 then
    let out := out ++ [Call.log .I .creating_oneshot, Call.xTimerStart .xOneShotTimer 0 passed]
    (s, out ++ (if passed then [] else [Call.log .W .start_oneshot_failed]))
  else (s, out)

/-- The callback of the heartbeat timer; `r1` and `r2` are the results of
the two calls of `esp_random` and `passed` the result of the request. -/
def heartbeat_timer_callback (s : State) (r1 r2 : Nat) (passed : Bool) : State × List Call :=
  let s := { s with stats := { s.stats with heartbeat_count := incr32 s.stats.heartbeat_count } }
  let out := [Call.log .I .heartbeat_beat] ++ flash .LED_HEARTBEAT 100 2
  if r1 % 4 = 0 then
    let new_period := (300 + r2 % 400) % 2 ^ 32
    let out := out ++ [Call.log .I (.adjusting_blink new_period),
      Call.xTimerChangePeriod .xBlinkTimer new_period 100 passed]
    (s, out ++ (if passed then [] else [Call.log .W .change_blink_failed]))
  else (s, out)

/-- The lines of a block of log output. -/
def report (level : LogLevel) (msg : Nat → Msg) : Nat → List Call
  | 0 => []
  | n + 1 => report level msg n ++ [Call.log level (msg n)]

/-- The callback of the status timer. -/
def status_timer_callback (s : State) : State × List Call :=
  let s := { s with stats := { s.stats with status_count := incr32 s.stats.status_count } }
  (s, [Call.log .I .status_update, Call.gpio_set_level .LED_STATUS true, Call.vTaskDelay 200,
    Call.gpio_set_level .LED_STATUS false] ++ report .I .statistics 7 ++ report .I .timer_states 5)

/-- The callback of the one-shot timer; `r` is the result of `esp_random`,
`handle` the result of `xTimerCreate` and `passed` the result of the request
to start the new timer. -/
def oneshot_timer_callback (s : State) (r : Nat) (handle : Option Handle) (passed : Bool) :
    State × List Call :=
  let s := { s with stats := { s.stats with oneshot_count := incr32 s.stats.oneshot_count } }
  let out := [Call.log .I .oneshot_event] ++ flash .LED_ONESHOT 50 5
  let random_period := (1000 + r % 3000) % 2 ^ 32
  let out := out ++ [Call.log .I (.creating_dynamic random_period)]
  let s := { s with xDynamicTimer := handle }
  let out := out ++ [Call.xTimerCreate random_period false handle]
  match s.xDynamicTimer with
  | some t =>
    let out := out ++ [Call.xTimerStart t 0 passed]
    (s, out ++ (if passed then [] else [Call.log .W .start_dynamic_failed]))
  | Option.none => (s, out)

/-- The callback of a dynamic timer; `xTimer` is the handle it is invoked
with and `passed` the result of the request to delete it. -/
def dynamic_timer_callback (s : State) (xTimer : Handle) (passed : Bool) : State × List Call :=
  let s := { s with stats := { s.stats with dynamic_count := incr32 s.stats.dynamic_count } }
  let out := [Call.log .I .dynamic_event, Call.gpio_set_level .LED_BLINK true,
    Call.gpio_set_level .LED_HEARTBEAT true, Call.gpio_set_level .LED_STATUS true,
    Call.gpio_set_level .LED_ONESHOT true, Call.vTaskDelay 300,
    Call.gpio_set_level .LED_BLINK s.led_blink_state, Call.gpio_set_level .LED_HEARTBEAT false,
    Call.gpio_set_level .LED_STATUS false, Call.gpio_set_level .LED_ONESHOT false]
  let out := out ++ [Call.xTimerDelete xTimer 100 passed]
  let out := out ++
    (if passed then [Call.log .I .dynamic_deleted] else [Call.log .W .delete_dynamic_failed])
  let s := { s with xDynamicTimer := Option.none }
  (s, out)

/-- One iteration of the loop of `timer_control_task`; `r` and `r2` are the
results of `esp_random`, `passed1` and `passed2` those of the requests. -/
def timer_control_task (s : State) (r r2 : Nat) (passed1 passed2 : Bool) :
    State × List Call :=
  let out := [Call.vTaskDelay 15000, Call.log .I .maintenance]
  let action := r % 3
  let out := out ++
    (if action = 0 then
      [Call.log .I .stop_heartbeat, Call.xTimerStop .xHeartbeatTimer 100 passed1,
       Call.vTaskDelay 5000, Call.log .I .restart_heartbeat,
       Call.xTimerStart .xHeartbeatTimer 100 passed2]
    else if action = 1 then
      [Call.log .I .reset_status, Call.xTimerReset .xStatusTimer 100 passed1]
    else
      [Call.log .I .change_blink,
       Call.xTimerChangePeriod .xBlinkTimer ((200 + r2 % 600) % 2 ^ 32) 100 passed1,
       Call.log .I (.new_blink_period ((200 + r2 % 600) % 2 ^ 32))])
  (s, out ++ [Call.log .I .maintenance_completed])

/-- The handle that a creation in `app_main` returns. -/
def created_handle (created : Handle → Bool) (t : Handle) : Option Handle :=
  if created t then some t else Option.none

/-- The function `app_main` after the configuration of the pins; `created t`
tells whether `xTimerCreate` returns a handle for `t` and `passed t` the
result of the request to start it. -/
def app_main (created passed : Handle → Bool) : List Call :=
  let out := [Call.xTimerCreate BLINK_PERIOD true (created_handle created .xBlinkTimer),
    Call.xTimerCreate HEARTBEAT_PERIOD true (created_handle created .xHeartbeatTimer),
    Call.xTimerCreate STATUS_PERIOD true (created_handle created .xStatusTimer),
    Call.xTimerCreate ONESHOT_DELAY false (created_handle created .xOneShotTimer)]
  if created .xBlinkTimer && created .xHeartbeatTimer && created .xStatusTimer
      && created .xOneShotTimer then
    out ++ [Call.log .I .all_created,
      Call.xTimerStart .xBlinkTimer 0 (passed .xBlinkTimer),
      Call.xTimerStart .xHeartbeatTimer 0 (passed .xHeartbeatTimer),
      Call.xTimerStart .xStatusTimer 0 (passed .xStatusTimer)] ++ report .I .operational 3
  else out ++ report .E .create_failed 2

/-- The operations of the program, each with the values it obtains from its
environment. -/
inductive Op where
  | blink (passed : Bool)
  | heartbeat (r1 r2 : Nat) (passed : Bool)
  | status
  | oneshot (r : Nat) (handle : Option Handle) (passed : Bool)
  | dynamic (xTimer : Handle) (passed : Bool)
  | control (r r2 : Nat) (passed1 passed2 : Bool)

/-- The state after an operation and the calls it made. -/
def Op.run (s : State) : Op → State × List Call
  | .blink passed => blink_timer_callback s passed
  | .heartbeat r1 r2 passed => heartbeat_timer_callback s r1 r2 passed
  | .status => status_timer_callback s
  | .oneshot r handle passed => oneshot_timer_callback s r handle passed
  | .dynamic xTimer passed => dynamic_timer_callback s xTimer passed
  | .control r r2 passed1 passed2 => timer_control_task s r r2 passed1 passed2

/-- The periods, in milliseconds, passed to `xTimerCreate` and to
`xTimerChangePeriod` in a list of calls. -/
def periods_of : List Call → List Nat
  | [] => []
  | .xTimerCreate ms _ _ :: out => ms :: periods_of out
  | .xTimerChangePeriod _ ms _ _ :: out => ms :: periods_of out
  | _ :: out => periods_of out

/-- The log lines in a list of calls. -/
def logs_of : List Call → List (LogLevel × Msg)
  | [] => []
  | .log level msg :: out => (level, msg) :: logs_of out
  | _ :: out => logs_of out

/-- Modelled from the spec: the Timer Service, section 4.1, as far as the
existence of a timer goes.  A creation that returns a handle makes the timer
exist, an accepted delete request removes it, and a request that the service
refuses has no effect. -/
def exists_after (alive : Handle → Bool) : List Call → Handle → Bool
  | [] => alive
  | .xTimerCreate _ _ (some t) :: out =>
    exists_after (fun u => if u = t then true else alive u) out
  | .xTimerDelete t _ true :: out =>
    exists_after (fun u => if u = t then false else alive u) out
  | _ :: out => exists_after alive out

end TimerLoad

/-- The periods, in milliseconds, passed to `xTimerCreate` and to
`xTimerChangePeriod` in a list of calls of the two watchdog programs. -/
def periods_of : List Effect → List Nat
  | [] => []
  | .xTimerCreate _ ms _ _ :: out => ms :: periods_of out
  | .timer (.xTimerChangePeriod _ ms) :: out => ms :: periods_of out
  | _ :: out => periods_of out

/-- The log lines in a list of calls of the two watchdog programs. -/
def logs_of : List Effect → List (LogLevel × LogMsg)
  | [] => []
  | .log level msg :: out => (level, msg) :: logs_of out
  | _ :: out => logs_of out

/-- The timers that a list of calls asks to start. -/
def started_timers : List Effect → List TimerId
  | [] => []
  | .timer (.xTimerStart t) :: out => t :: started_timers out
  | _ :: out => started_timers out
/-- A state in which the feed timer has fired fourteen times. -/
def fourteen_feeds : State := { State.init with feed_count := 14 }

/-- A start-up in which the creation of the pattern timer fails and the other
four succeed. -/
def pattern_timer_missing : TimerId → Bool
  | .pattern_timer => false
  | _ => true

/-- The calls of a list that name the timer `t`. -/
def calls_on (t : TimerId) (out : List Effect) : List Effect :=
  out.filter (fun e => e.target == some t)

/-- The handles that a list of calls asks to delete. -/
def TimerLoad.deletes_of : List TimerLoad.Call → List TimerLoad.Handle
  | [] => []
  | .xTimerDelete t _ _ :: out => t :: TimerLoad.deletes_of out
  | _ :: out => TimerLoad.deletes_of out

/-- A state of software_TimerLoad in which `xDynamicTimer` holds the handle
of the first dynamic timer. -/
def TimerLoad.dynamic_pending : TimerLoad.State :=
  { TimerLoad.State.init with xDynamicTimer := some (.dynamic 0) }

/-- The timers that exist when only the first dynamic timer does. -/
def TimerLoad.only_dynamic : TimerLoad.Handle → Bool
  | .dynamic 0 => true
  | _ => false

/-- Whether a call ends the run of the timer `t`: a request to stop or to
delete it, or a creation under its handle, which installs a dormant timer. -/
def Effect.disarms (t : TimerId) : Effect → Bool
  | .timer (.xTimerStop u) => u == t
  | .timer (.xTimerDelete u) => u == t
  | .xTimerCreate u _ _ _ => u == t
  | _ => false

/-- No call of the list ends the run of the timer `t`. -/
def quiet (t : TimerId) (out : List Effect) : Prop :=
  ∀ e ∈ out, e.disarms t = false

/-- The record of a periodic timer that is running. -/
def TimerSlot.running (v : TimerSlot) : Prop :=
  v.created = true ∧ v.active = true ∧ v.autoReload = true

/-- The periodic timers other than the feed timer. -/
def TimerId.free_running : TimerId → Bool
  | .pattern_timer => true
  | .sensor_timer => true
  | .status_timer => true
  | _ => false

/-- The system after the fifteenth expiry of the feed timer when the creation
of the recovery timer fails. -/
def stuck (lab : Lab) (es1 : List Event) : System :=
  (before_hang lab es1).step lab (.feed_expired false)

/-- The system after the further events `es2`. -/
def after_stuck (lab : Lab) (es1 es2 : List Event) : System :=
  (stuck lab es1).run lab es2

/-- Events that follow the failed creation: those of scenario 3 during the
hang, then an expiry of each watchdog timer and a turn of each task. -/
def scenario_stuck : List Event :=
  scenario3_during ++ [.recovery_expired, .feed_expired true, .watchdog_expired, .worker,
    .monitor 150000, .feed_expired false, .recovery_expired]

/-- The value of a `float` accumulator after the values `vs` are added to
`acc` one by one, each addition rounded. -/
def float_sum (acc : ℚ) : List ℚ → ℚ
  | [] => acc
  | v :: vs => float_sum (to_float (acc + v)) vs

/-- The average that the worker computes over the values of a window: they
are added in order to 0 in a `float`, and the sum is divided by their number
converted to `float`. -/
def float_mean (vs : List ℚ) : ℚ := to_float (float_sum 0 vs / to_float (vs.length : ℚ))

/-- The temperature that `read_sensor_value` computes, the `reading` above,
from the calibrated voltage `mv` of the ADC in millivolts and the word `r`
that `esp_random` returns: `(mv / 1000.0f) * 50.0f` plus the noise
`(int32_t)(r % 101 - 50) / 100.0f`, every operation in `float`. -/
def sensor_temperature (mv r : Nat) : ℚ :=
  let temp := to_float (to_float (to_float (mv : ℚ) / 1000) * 50)
  to_float (temp + to_float (to_float ((((r % 101 : ℕ) : ℤ) - 50 : ℤ) : ℚ) / 100))

/-- Nine samples of 12 degrees, from 250 mV and a noise of -0.5. -/
def rounding_low_head : List sensor_data_t :=
  List.replicate 9 (sample_of (sensor_temperature 250 0, 0))

/-- A tenth sample, from 848 mV and a noise of -0.4: one unit in the last
place below 42. -/
def rounding_low_last : sensor_data_t := sample_of (sensor_temperature 848 10, 0)

/-- Nine samples of 37.25 degrees, from 750 mV and a noise of -0.25. -/
def rounding_high_head : List sensor_data_t :=
  List.replicate 9 (sample_of (sensor_temperature 750 25, 0))

/-- A tenth sample, from 286 mV and a noise of 0.45: one unit in the last
place above 14.75. -/
def rounding_high_last : sensor_data_t := sample_of (sensor_temperature 286 95, 0)

/-- Nine samples whose exact sum with `rounding_mid_low_last` is 150: one
from 600 mV and a noise of 0.46, then eight of 12.25 degrees, from 250 mV and
a noise of -0.25. -/
def rounding_mid_low_head : List sensor_data_t :=
  sample_of (sensor_temperature 600 96, 0)
    :: List.replicate 8 (sample_of (sensor_temperature 250 25, 0))

/-- A tenth sample, from 421 mV and a noise of 0.49. -/
def rounding_mid_low_last : sensor_data_t := sample_of (sensor_temperature 421 99, 0)

/-- Nine samples whose exact sum with `rounding_mid_high_last` is 350: one
from 956 mV and a noise of 0.28, then eight of 31.5 degrees, from 625 mV and
a noise of 0.25. -/
def rounding_mid_high_head : List sensor_data_t :=
  sample_of (sensor_temperature 956 78, 0)
    :: List.replicate 8 (sample_of (sensor_temperature 625 75, 0))

/-- A tenth sample, from 989 mV and a noise of 0.47. -/
def rounding_mid_high_last : sensor_data_t := sample_of (sensor_temperature 989 97, 0)

/-- C1: for every state (hence every source variant, step and toggle) and
every target variant, `change_led_pattern` leaves the target as current
variant, both step counters at 0, the toggle false, and the `uint32_t`
counter `pattern_changes` incremented: one greater than before, modulo
`2 ^ 32`. -/
theorem change_led_pattern_resets (s : State) (new_pattern : led_pattern_t) :
    (change_led_pattern s new_pattern).1.current_pattern = new_pattern
    ∧ (change_led_pattern s new_pattern).1.pattern_step = 0
    ∧ (change_led_pattern s new_pattern).1.pattern_state.step = 0
    ∧ (change_led_pattern s new_pattern).1.pattern_state.state = false
    ∧ (change_led_pattern s new_pattern).1.health_stats.pattern_changes
        = (s.health_stats.pattern_changes + 1) % 2 ^ 32
    ∧ (s.health_stats.pattern_changes + 1 < 2 ^ 32 →
        (change_led_pattern s new_pattern).1.health_stats.pattern_changes
          = s.health_stats.pattern_changes + 1) := by
  refine ⟨rfl, rfl, rfl, rfl, rfl, fun h => ?_⟩
  show (s.health_stats.pattern_changes + 1) % 2 ^ 32 = _
  exact Nat.mod_eq_of_lt h

/-! ## Properties of `float` rounding -/

theorem le_round_half_even (x : ℚ) (k : ℤ) (h : (k : ℚ) ≤ x) : k ≤ round_half_even x := by
  have hf : k ≤ ⌊x⌋ := Int.le_floor.mpr h
  unfold round_half_even
  split
  · exact hf
  · split
    · omega
    · split
      · exact hf
      · omega

theorem round_half_even_le (x : ℚ) (k : ℤ) (h : x ≤ (k : ℚ)) : round_half_even x ≤ k := by
  have hf : ⌊x⌋ ≤ k := Int.floor_le_floor h |>.trans (by simp)
  have hlt : x - ⌊x⌋ ≠ 0 → ⌊x⌋ + 1 ≤ k := by
    intro hne
    have h1 : (⌊x⌋ : ℚ) < x := lt_of_le_of_ne (Int.floor_le x) (fun e => hne (by rw [e]; ring))
    have h2 : (⌊x⌋ : ℚ) < k := lt_of_lt_of_le h1 h
    have h3 : ⌊x⌋ < k := by exact_mod_cast h2
    omega
  unfold round_half_even
  split
  · exact hf
  · rename_i h1
    have hne : x - ⌊x⌋ ≠ 0 := by
      intro e
      rw [e] at h1
      norm_num at h1
    split
    · exact hlt hne
    · split
      · exact hf
      · exact hlt hne

theorem log2_fuel_bounds (fuel n : ℕ) (hf : n ≤ fuel) (hn : n ≠ 0) :
    2 ^ log2_fuel fuel n ≤ n ∧ n < 2 ^ (log2_fuel fuel n + 1) := by
  induction fuel generalizing n with
  | zero => omega
  | succ fuel ih =>
    unfold log2_fuel
    split
    · constructor <;> simp <;> omega
    · obtain ⟨h1, h2⟩ := ih (n / 2) (by omega) (by omega)
      constructor
      · rw [pow_succ]
        exact (Nat.le_div_iff_mul_le (by norm_num)).mp h1
      · rw [pow_succ]
        exact (Nat.div_lt_iff_lt_mul (by norm_num)).mp h2

theorem floor_log2_bounds (n : ℕ) (hn : n ≠ 0) :
    (2 : ℚ) ^ (floor_log2 n : ℤ) ≤ n ∧ (n : ℚ) < 2 ^ ((floor_log2 n : ℤ) + 1) := by
  obtain ⟨h1, h2⟩ := log2_fuel_bounds n n (le_refl n) hn
  constructor
  · rw [zpow_natCast]
    exact_mod_cast h1
  · have e : ((floor_log2 n : ℤ) + 1) = ((floor_log2 n + 1 : ℕ) : ℤ) := by push_cast; ring
    rw [e, zpow_natCast]
    exact_mod_cast h2

/-- The exponent `binade x` is that of the leading binary digit of `x`. -/
theorem binade_spec (x : ℚ) (hx : x ≠ 0) :
    (2 : ℚ) ^ binade x ≤ |x| ∧ |x| < 2 ^ (binade x + 1) := by
  have hn : x.num.natAbs ≠ 0 := by
    intro h
    exact hx (Rat.num_eq_zero.mp (Int.natAbs_eq_zero.mp h))
  obtain ⟨n1, n2⟩ := floor_log2_bounds x.num.natAbs hn
  obtain ⟨d1, d2⟩ := floor_log2_bounds x.den x.den_nz
  have hd : (0 : ℚ) < x.den := by exact_mod_cast x.den_pos
  have habs : |x| = (x.num.natAbs : ℚ) / x.den := by
    conv_lhs => rw [← Rat.num_div_den x]
    rw [abs_div, abs_of_pos hd, Nat.cast_natAbs, Int.cast_abs]
  have h2 : (0 : ℚ) < 2 := by norm_num
  have hupper : |x| < 2 ^ ((floor_log2 x.num.natAbs : ℤ) - (floor_log2 x.den : ℤ) + 1) := by
    rw [habs, div_lt_iff₀ hd]
    have e : (2 : ℚ) ^ ((floor_log2 x.num.natAbs : ℤ) - (floor_log2 x.den : ℤ) + 1)
        = 2 ^ ((floor_log2 x.num.natAbs : ℤ) + 1) / 2 ^ (floor_log2 x.den : ℤ) := by
      rw [← zpow_sub₀ (by norm_num)]
      congr 1
      ring
    rw [e, div_mul_eq_mul_div, lt_div_iff₀ (zpow_pos h2 _)]
    calc (x.num.natAbs : ℚ) * 2 ^ (floor_log2 x.den : ℤ)
        ≤ x.num.natAbs * x.den := mul_le_mul_of_nonneg_left d1 (Nat.cast_nonneg _)
      _ < 2 ^ ((floor_log2 x.num.natAbs : ℤ) + 1) * x.den := mul_lt_mul_of_pos_right n2 hd
  have hlower :
      (2 : ℚ) ^ ((floor_log2 x.num.natAbs : ℤ) - (floor_log2 x.den : ℤ) - 1) < |x| := by
    rw [habs, lt_div_iff₀ hd]
    have e : (2 : ℚ) ^ ((floor_log2 x.num.natAbs : ℤ) - (floor_log2 x.den : ℤ) - 1)
        = 2 ^ (floor_log2 x.num.natAbs : ℤ) / 2 ^ ((floor_log2 x.den : ℤ) + 1) := by
      rw [← zpow_sub₀ (by norm_num)]
      congr 1
      ring
    rw [e, div_mul_eq_mul_div, div_lt_iff₀ (zpow_pos h2 _)]
    calc (2 : ℚ) ^ (floor_log2 x.num.natAbs : ℤ) * x.den
        < 2 ^ (floor_log2 x.num.natAbs : ℤ) * 2 ^ ((floor_log2 x.den : ℤ) + 1) :=
          mul_lt_mul_of_pos_left d2 (zpow_pos h2 _)
      _ ≤ x.num.natAbs * 2 ^ ((floor_log2 x.den : ℤ) + 1) :=
          mul_le_mul_of_nonneg_right n1 (zpow_pos h2 _).le
  unfold binade
  split
  · rename_i h
    exact ⟨h, hupper⟩
  · rename_i h
    refine ⟨hlower.le, ?_⟩
    rw [sub_add_cancel]
    exact not_le.mp h

/-- For a number other than 0, `binade` is the integer logarithm to base 2 of
the magnitude. -/
theorem binade_eq_log (x : ℚ) (hx : x ≠ 0) : binade x = Int.log 2 |x| := by
  obtain ⟨h1, h2⟩ := binade_spec x hx
  have hpos : 0 < |x| := abs_pos.mpr hx
  have a : binade x ≤ Int.log 2 |x| :=
    (Int.zpow_le_iff_le_log (by norm_num) hpos).mp (by exact_mod_cast h1)
  have b : Int.log 2 |x| < binade x + 1 :=
    (Int.lt_zpow_iff_log_lt (by norm_num) hpos).mp (by exact_mod_cast h2)
  omega

theorem ulp_exponent_nonpos (x : ℚ) (h : |x| < 2 ^ 24) : ulp_exponent x ≤ 0 := by
  unfold ulp_exponent
  have hlog : binade x < 24 := by
    by_cases hx : x = 0
    · rw [hx]
      decide!
    · rw [binade_eq_log x hx]
      exact (Int.lt_zpow_iff_log_lt (by norm_num) (abs_pos.mpr hx)).mp (by exact_mod_cast h)
  omega

/-- Below `2 ^ 24` the unit in the last place is at most 1, so that rounding
does not cross an integer: an integer bound on the exact result is a bound on
the rounded one. -/
theorem to_float_bounds (x : ℚ) (c : ℤ) (hx : |x| < 2 ^ 24) :
    ((c : ℚ) ≤ x → (c : ℚ) ≤ to_float x) ∧ (x ≤ (c : ℚ) → to_float x ≤ (c : ℚ)) := by
  have he := ulp_exponent_nonpos x hx
  obtain ⟨n, hn⟩ : ∃ n : ℕ, ulp_exponent x = -(n : ℤ) := ⟨(-ulp_exponent x).toNat, by omega⟩
  have hu : (2 : ℚ) ^ ulp_exponent x = 1 / 2 ^ n := by
    rw [hn, zpow_neg, zpow_natCast, one_div]
  have hpos : (0 : ℚ) < 2 ^ n := by positivity
  have hk : ((c * 2 ^ n : ℤ) : ℚ) = (c : ℚ) * 2 ^ n := by push_cast; ring
  unfold to_float
  rw [hu]
  constructor
  · intro h
    have h1 : ((c * 2 ^ n : ℤ) : ℚ) ≤ x / (1 / 2 ^ n) := by
      rw [hk, div_div_eq_mul_div, div_one]
      exact mul_le_mul_of_nonneg_right h hpos.le
    have h2 := le_round_half_even _ _ h1
    have h3 : ((c * 2 ^ n : ℤ) : ℚ) ≤ (round_half_even (x / (1 / 2 ^ n)) : ℚ) := by
      exact_mod_cast h2
    rw [hk] at h3
    rw [mul_one_div, le_div_iff₀ hpos]
    exact h3
  · intro h
    have h1 : x / (1 / 2 ^ n) ≤ ((c * 2 ^ n : ℤ) : ℚ) := by
      rw [hk, div_div_eq_mul_div, div_one]
      exact mul_le_mul_of_nonneg_right h hpos.le
    have h2 := round_half_even_le _ _ h1
    have h3 : (round_half_even (x / (1 / 2 ^ n)) : ℚ) ≤ ((c * 2 ^ n : ℤ) : ℚ) := by
      exact_mod_cast h2
    rw [hk] at h3
    rw [mul_one_div, div_le_iff₀ hpos]
    exact h3

/-- The conversion `(float)cnt` at the end of a window is exact. -/
theorem to_float_ten : to_float 10 = 10 := by decide!

theorem float_sum_append (acc : ℚ) (vs : List ℚ) (v : ℚ) :
    float_sum acc (vs ++ [v]) = to_float (float_sum acc vs + v) := by
  induction vs generalizing acc with
  | nil => rfl
  | cons x xs ih => simp [float_sum, ih]

theorem float_mean_window (vs : List ℚ) (v : ℚ) (h9 : vs.length = 9) :
    float_mean (vs ++ [v]) = to_float (to_float (float_sum 0 vs + v) / 10) := by
  have e : ((vs ++ [v]).length : ℚ) = 10 := by
    rw [List.length_append, h9]
    norm_num
  rw [float_mean, e, to_float_ten, float_sum_append]

/-- Values between 40 and 50 added to an accumulator that holds between 40
and 50 times the number `k` of values added so far: the bounds carry over to
the rounded sums. -/
theorem float_sum_bounds (vs : List ℚ) (acc : ℚ) (k : ℕ)
    (hv : ∀ v ∈ vs, 40 ≤ v ∧ v ≤ 50) (hk : k + vs.length ≤ 10)
    (hlo : 40 * (k : ℚ) ≤ acc) (hhi : acc ≤ 50 * (k : ℚ)) :
    40 * ((k + vs.length : ℕ) : ℚ) ≤ float_sum acc vs
    ∧ float_sum acc vs ≤ 50 * ((k + vs.length : ℕ) : ℚ) := by
  induction vs generalizing acc k with
  | nil => simpa [float_sum] using ⟨hlo, hhi⟩
  | cons x xs ih =>
    obtain ⟨hx1, hx2⟩ := hv x (List.mem_cons_self x xs)
    simp only [List.length_cons] at hk
    have hk10 : (k : ℚ) ≤ 9 := by
      have : k ≤ 9 := by omega
      exact_mod_cast this
    have hk0 : (0 : ℚ) ≤ k := Nat.cast_nonneg k
    have habs : |acc + x| < 2 ^ 24 := by
      rw [abs_lt]
      constructor <;> norm_num <;> linarith
    have hb1 := (to_float_bounds (acc + x) (40 * ((k + 1 : ℕ) : ℤ)) habs).1
      (by push_cast; linarith)
    have hb2 := (to_float_bounds (acc + x) (50 * ((k + 1 : ℕ) : ℤ)) habs).2
      (by push_cast; linarith)
    have h := ih (to_float (acc + x)) (k + 1)
      (fun v hv2 => hv v (List.mem_cons_of_mem x hv2)) (by omega)
      (by push_cast at hb1 ⊢; exact hb1) (by push_cast at hb2 ⊢; exact hb2)
    have e : k + (x :: xs).length = k + 1 + xs.length := by
      simp only [List.length_cons]
      omega
    rw [e]
    exact h

/-- The average that the worker computes over ten values between 40 and 50
lies between 40 and 50. -/
theorem float_mean_bounds (vs : List ℚ) (h10 : vs.length = 10)
    (hv : ∀ v ∈ vs, 40 ≤ v ∧ v ≤ 50) : 40 ≤ float_mean vs ∧ float_mean vs ≤ 50 := by
  obtain ⟨h1, h2⟩ := float_sum_bounds vs 0 0 hv (by omega) (by norm_num) (by norm_num)
  rw [Nat.zero_add, h10] at h1 h2
  have e : ((vs.length : ℕ) : ℚ) = 10 := by rw [h10]; norm_num
  rw [float_mean, e, to_float_ten]
  have habs : |float_sum 0 vs / 10| < 2 ^ 24 := by
    rw [abs_lt]
    constructor
    · have : (0 : ℚ) ≤ float_sum 0 vs / 10 := by
        apply div_nonneg _ (by norm_num)
        norm_num at h1
        linarith
      linarith
    · rw [div_lt_iff₀ (by norm_num)]
      norm_num at h2 ⊢
      linarith
  constructor
  · have := (to_float_bounds (float_sum 0 vs / 10) 40 habs).1
      (by rw [le_div_iff₀ (by norm_num)]; norm_num at h1 ⊢; linarith)
    exact_mod_cast this
  · have := (to_float_bounds (float_sum 0 vs / 10) 50 habs).2
      (by rw [div_le_iff₀ (by norm_num)]; norm_num at h2 ⊢; linarith)
    exact_mod_cast this

/-! ## Properties of the averaging worker -/

theorem sensor_processing_task_invalid (a : State) (d : sensor_data_t) (h : d.valid = false) :
    sensor_processing_task a d = (a, [.log .W (.invalid_reading d.value)]) := by
  simp [sensor_processing_task, h]

theorem sensor_processing_task_accumulate (a : State) (d : sensor_data_t) (h : d.valid = true)
    (hc : a.cnt < 9) :
    sensor_processing_task a d
      = ({ a with sum := to_float (a.sum + d.value), cnt := a.cnt + 1 },
          [.log .I (.sensor_value d.value)]) := by
  have h10 : ¬ (a.cnt + 1 ≥ 10) := by omega
  simp [sensor_processing_task, h, h10]

theorem sensor_processing_loop_append (s : State) (ds : List sensor_data_t) (d : sensor_data_t) :
    sensor_processing_loop s (ds ++ [d])
      = ((sensor_processing_task (sensor_processing_loop s ds).1 d).1,
          (sensor_processing_loop s ds).2
            ++ (sensor_processing_task (sensor_processing_loop s ds).1 d).2) := by
  induction ds generalizing s with
  | nil => simp [sensor_processing_loop]
  | cons x xs ih => simp [sensor_processing_loop, ih]

theorem valid_values_append (ds : List sensor_data_t) (d : sensor_data_t) :
    valid_values (ds ++ [d]) = valid_values ds ++ (if d.valid then [d.value] else []) := by
  cases h : d.valid <;> simp [valid_values, List.filter_append, h]

/-- While fewer than ten valid samples have arrived since the accumulator
held `(sum, cnt)`, the worker only accumulates: nothing else changes. -/
theorem sensor_processing_loop_accumulate (s : State) (ds : List sensor_data_t)
    (h : s.cnt + (valid_values ds).length < 10) :
    (sensor_processing_loop s ds).1
      = { s with sum := float_sum s.sum (valid_values ds),
                 cnt := s.cnt + (valid_values ds).length } := by
  induction ds generalizing s with
  | nil => simp [sensor_processing_loop, valid_values, float_sum]
  | cons x xs ih =>
    cases hx : x.valid with
    | false =>
      have hv : valid_values (x :: xs) = valid_values xs := by simp [valid_values, hx]
      rw [hv] at h ⊢
      simp only [sensor_processing_loop, sensor_processing_task_invalid s x hx]
      exact ih s h
    | true =>
      have hv : valid_values (x :: xs) = x.value :: valid_values xs := by simp [valid_values, hx]
      rw [hv] at h ⊢
      simp only [List.length_cons] at h
      simp only [sensor_processing_loop, sensor_processing_task_accumulate s x hx (by omega)]
      rw [ih _ (by simp only []; omega)]
      simp only [float_sum, List.length_cons]
      congr 1
      omega

/-- The step that completes a window: the tenth value is added, the average
`avg` is computed, compared with the two bounds, and the accumulator is
cleared. -/
theorem sensor_processing_task_window (a : State) (d : sensor_data_t) (avg : ℚ)
    (h : d.valid = true) (hc : a.cnt = 9)
    (havg : avg = to_float (to_float (a.sum + d.value) / 10)) :
    sensor_processing_task a d
      = ({ (if avg > 35 then
              (change_led_pattern { a with sum := to_float (a.sum + d.value), cnt := 10 }
                .PATTERN_FAST_BLINK).1
            else if avg < 15 then
              (change_led_pattern { a with sum := to_float (a.sum + d.value), cnt := 10 }
                .PATTERN_SOS).1
            else { a with sum := to_float (a.sum + d.value), cnt := 10 })
           with sum := 0, cnt := 0 },
         [.log .I (.sensor_value d.value), .log .I (.moving_avg avg)]
          ++ (if avg > 35 then
                Effect.log .W .high_temp ::
                  (change_led_pattern { a with sum := to_float (a.sum + d.value), cnt := 10 }
                    .PATTERN_FAST_BLINK).2
              else if avg < 15 then
                Effect.log .W .low_temp ::
                  (change_led_pattern { a with sum := to_float (a.sum + d.value), cnt := 10 }
                    .PATTERN_SOS).2
              else [])) := by
  have e : ((9 + 1 : ℕ) : ℚ) = 10 := by norm_num
  subst havg
  simp only [sensor_processing_task, h, hc, if_true, ge_iff_le, e, to_float_ten]
  by_cases h1 : to_float (to_float (a.sum + d.value) / 10) > 35
  · simp [h1]
  · by_cases h2 : to_float (to_float (a.sum + d.value) / 10) < 15
    · simp [h1, h2]
    · simp [h1, h2]

/-- The state of the worker before the sample that completes a window that
started with an empty accumulator. -/
theorem sensor_processing_loop_nine (s : State) (ds : List sensor_data_t)
    (h0 : s.sum = 0) (hc : s.cnt = 0) (h9 : (valid_values ds).length = 9) :
    (sensor_processing_loop s ds).1
      = { s with sum := float_sum 0 (valid_values ds), cnt := 9 } := by
  rw [sensor_processing_loop_accumulate s ds (by omega), h0, hc, h9]

/-- The average of the window that the sample `d` completes, in terms of the
accumulator before it. -/
theorem window_average (s : State) (ds : List sensor_data_t) (d : sensor_data_t) (a : State)
    (h0 : s.sum = 0) (hc : s.cnt = 0) (ha : a = (sensor_processing_loop s ds).1)
    (h9 : (valid_values ds).length = 9) :
    a.cnt = 9
    ∧ a.health_stats = s.health_stats
    ∧ float_mean (valid_values ds ++ [d.value])
        = to_float (to_float (a.sum + d.value) / 10) := by
  have hs := sensor_processing_loop_nine s ds h0 hc h9
  rw [← ha] at hs
  refine ⟨by rw [hs], by rw [hs], ?_⟩
  rw [float_mean_window _ _ h9, hs]

/-- What the sample that completes a window commands, by the average that
the worker computes. -/
theorem window_outcome (s : State) (ds : List sensor_data_t) (d : sensor_data_t) (a : State)
    (h0 : s.sum = 0) (hc : s.cnt = 0) (ha : a = (sensor_processing_loop s ds).1)
    (h9 : (valid_values ds).length = 9) (hd : d.valid = true) :
    (sensor_processing_task a d).1.current_pattern
        = (if float_mean (valid_values ds ++ [d.value]) > 35 then .PATTERN_FAST_BLINK
            else if float_mean (valid_values ds ++ [d.value]) < 15 then .PATTERN_SOS
            else s.current_pattern)
    ∧ (sensor_processing_task a d).1.health_stats.pattern_changes
        = (if float_mean (valid_values ds ++ [d.value]) > 35 then
              (s.health_stats.pattern_changes + 1) % 2 ^ 32
            else if float_mean (valid_values ds ++ [d.value]) < 15 then
              (s.health_stats.pattern_changes + 1) % 2 ^ 32
            else s.health_stats.pattern_changes) := by
  obtain ⟨hcnt, hhs, havg⟩ := window_average s ds d a h0 hc ha h9
  have hs := sensor_processing_loop_nine s ds h0 hc h9
  rw [← ha] at hs
  have hcp : a.current_pattern = s.current_pattern := by rw [hs]
  rw [sensor_processing_task_window a d _ hd hcnt havg]
  by_cases h1 : float_mean (valid_values ds ++ [d.value]) > 35
  · simp only [h1, if_true]
    exact ⟨rfl, by rw [← hhs]; rfl⟩
  · by_cases h2 : float_mean (valid_values ds ++ [d.value]) < 15
    · simp only [h1, h2, if_true, if_false]
      exact ⟨rfl, by rw [← hhs]; rfl⟩
    · simp only [h1, h2, if_false]
      exact ⟨hcp, by rw [hhs]⟩

/-- C2: the accounting of the averaging worker.  Starting from an empty
accumulator and after any sequence `ds` of samples, `cnt` is the number of
valid samples modulo 10, hence below 10, and `sum` is the `float` sum of the
valid values received since the last multiple of ten.  On the next sample
`d`: an invalid one leaves `sum` and `cnt` as they are; a valid one that is
not the tenth adds its value to `sum`, in `float`, and one to `cnt`; the tenth
valid one is added, the average over ten is reported and the accumulator is
cleared; and the accumulator is cleared (the average is reported) in no other
case. -/
theorem worker_window_accounting (s : State) (ds : List sensor_data_t) (d : sensor_data_t)
    (a : State) (h0 : s.sum = 0) (hc : s.cnt = 0) (ha : a = (sensor_processing_loop s ds).1) :
    a.cnt < 10
    ∧ a.cnt = (valid_values ds).length % 10
    ∧ a.sum = float_sum 0 ((valid_values ds).drop ((valid_values ds).length / 10 * 10))
    ∧ (d.valid = false →
        (sensor_processing_task a d).1.sum = a.sum ∧ (sensor_processing_task a d).1.cnt = a.cnt)
    ∧ (d.valid = true → a.cnt ≠ 9 →
        (sensor_processing_task a d).1.sum = to_float (a.sum + d.value)
        ∧ (sensor_processing_task a d).1.cnt = a.cnt + 1)
    ∧ (d.valid = true → a.cnt = 9 →
        (sensor_processing_task a d).1.sum = 0 ∧ (sensor_processing_task a d).1.cnt = 0
        ∧ Effect.log .I (.moving_avg (to_float (to_float (a.sum + d.value) / 10)))
            ∈ (sensor_processing_task a d).2)
    ∧ ((∃ avg, Effect.log .I (.moving_avg avg) ∈ (sensor_processing_task a d).2)
        ↔ (d.valid = true ∧ a.cnt = 9)) := by
  have inv : ∀ l : List sensor_data_t,
      (sensor_processing_loop s l).1.cnt = (valid_values l).length % 10
      ∧ (sensor_processing_loop s l).1.sum
          = float_sum 0 ((valid_values l).drop ((valid_values l).length / 10 * 10)) := by
    intro l
    induction l using List.reverseRecOn with
    | nil => simp [sensor_processing_loop, valid_values, float_sum, h0, hc]
    | append_singleton l x ih =>
      obtain ⟨ihc, ihs⟩ := ih
      rw [sensor_processing_loop_append, valid_values_append]
      cases hx : x.valid with
      | false =>
        simp only [sensor_processing_task_invalid _ x hx]
        simpa using ⟨ihc, ihs⟩
      | true =>
        simp only [if_true, List.length_append, List.length_singleton]
        by_cases h9 : (sensor_processing_loop s l).1.cnt = 9
        · rw [sensor_processing_task_window _ x _ hx h9 rfl]
          have e1 : ((valid_values l).length + 1) % 10 = 0 := by omega
          have e2 : ((valid_values l).length + 1) / 10 * 10 = (valid_values l).length + 1 := by
            omega
          rw [e1, e2]
          refine ⟨rfl, ?_⟩
          rw [List.drop_eq_nil_of_le (by simp)]
          rfl
        · have hlt : (sensor_processing_loop s l).1.cnt < 9 := by omega
          rw [sensor_processing_task_accumulate _ x hx hlt]
          have e1 : ((valid_values l).length + 1) % 10 = (valid_values l).length % 10 + 1 := by
            omega
          have e2 : ((valid_values l).length + 1) / 10 * 10 = (valid_values l).length / 10 * 10 := by
            omega
          rw [e1, e2]
          refine ⟨by simp [ihc], ?_⟩
          rw [List.drop_append_of_le_length (by omega), float_sum_append, ← ihs]
  obtain ⟨ic, is⟩ := inv ds
  rw [← ha] at ic is
  have hlt : a.cnt < 10 := by omega
  refine ⟨hlt, ic, is, ?_, ?_, ?_, ?_⟩
  · intro hv
    rw [sensor_processing_task_invalid a d hv]
    exact ⟨rfl, rfl⟩
  · intro hv h9
    rw [sensor_processing_task_accumulate a d hv (by omega)]
    exact ⟨rfl, rfl⟩
  · intro hv h9
    rw [sensor_processing_task_window a d _ hv h9 rfl]
    exact ⟨rfl, rfl, by simp⟩
  · constructor
    · rintro ⟨avg, hm⟩
      cases hv : d.valid with
      | false =>
        rw [sensor_processing_task_invalid a d hv] at hm
        simp at hm
      | true =>
        by_cases h9 : a.cnt = 9
        · exact ⟨rfl, h9⟩
        · rw [sensor_processing_task_accumulate a d hv (by omega)] at hm
          simp at hm
    · rintro ⟨hv, h9⟩
      rw [sensor_processing_task_window a d _ hv h9 rfl]
      exact ⟨to_float (to_float (a.sum + d.value) / 10), by simp⟩

/-- Against C3: ten valid samples that `read_sensor_value` can deliver, nine
of 12 degrees and one just below 42, with an arithmetic mean below 15.  The
last addition rounds the `float` sum up to 150, the worker computes the
average 15, which is not below 15, and commands nothing: the variant and
`pattern_changes` are as before. -/
theorem low_mean_rounded_to_fifteen :
    (valid_values rounding_low_head).length = 9
    ∧ rounding_low_last.valid = true
    ∧ valid_values rounding_low_head = List.replicate 9 12
    ∧ rounding_low_last.value = 11010047 / 262144
    ∧ ((valid_values rounding_low_head).sum + rounding_low_last.value) / 10 < 15
    ∧ float_mean (valid_values rounding_low_head ++ [rounding_low_last.value]) = 15
    ∧ (sensor_processing_task (sensor_processing_loop State.init rounding_low_head).1
        rounding_low_last).1.current_pattern = State.init.current_pattern
    ∧ (sensor_processing_task (sensor_processing_loop State.init rounding_low_head).1
        rounding_low_last).1.current_pattern ≠ .PATTERN_SOS
    ∧ (sensor_processing_task (sensor_processing_loop State.init rounding_low_head).1
        rounding_low_last).1.health_stats.pattern_changes = 0 := by
  have ht1 : sensor_temperature 250 0 = 12 := by decide!
  have ht2 : sensor_temperature 848 10 = 11010047 / 262144 := by decide!
  have hv : valid_values rounding_low_head = List.replicate 9 12 := by
    simp only [rounding_low_head, ht1]
    decide!
  have hl : rounding_low_last = sample_of (11010047 / 262144, 0) := by
    simp only [rounding_low_last, ht2]
  have hd : rounding_low_last.valid = true := by
    rw [hl]
    decide!
  have hval : rounding_low_last.value = 11010047 / 262144 := by rw [hl]; rfl
  have h9 : (valid_values rounding_low_head).length = 9 := by rw [hv]; rfl
  have hm : float_mean (valid_values rounding_low_head ++ [rounding_low_last.value]) = 15 := by
    rw [hv, hval]
    decide!
  have hex : ((valid_values rounding_low_head).sum + rounding_low_last.value) / 10 < 15 := by
    rw [hv, hval]
    decide!
  obtain ⟨o1, o2⟩ := window_outcome State.init rounding_low_head rounding_low_last _ rfl rfl
    rfl h9 hd
  rw [hm] at o1 o2
  norm_num at o1 o2
  refine ⟨h9, hd, hv, hval, hex, hm, o1, ?_, o2⟩
  rw [o1]
  decide

/-- C3, amended: a window of ten valid samples (rejected samples may lie in
between) that starts from an empty accumulator and whose average as the
worker computes it, the `float` sum of the ten values in order divided by 10,
is below 15: processing the tenth sample commands SOS.  The first nine leave
the counter `pattern_changes` alone, the tenth makes `current_pattern`
`PATTERN_SOS`, increments the `uint32_t` counter (one greater, modulo
`2 ^ 32`) and asks for a reset of the pattern timer. -/
theorem low_mean_commands_sos (s : State) (ds : List sensor_data_t) (d : sensor_data_t)
    (a : State) (h0 : s.sum = 0) (hc : s.cnt = 0) (ha : a = (sensor_processing_loop s ds).1)
    (h9 : (valid_values ds).length = 9) (hd : d.valid = true)
    (hmean : float_mean (valid_values ds ++ [d.value]) < 15) :
    a.health_stats.pattern_changes = s.health_stats.pattern_changes
    ∧ (sensor_processing_task a d).1.current_pattern = .PATTERN_SOS
    ∧ (sensor_processing_task a d).1.health_stats.pattern_changes
        = (s.health_stats.pattern_changes + 1) % 2 ^ 32
    ∧ (s.health_stats.pattern_changes + 1 < 2 ^ 32 →
        (sensor_processing_task a d).1.health_stats.pattern_changes
          = s.health_stats.pattern_changes + 1)
    ∧ Effect.log .W .low_temp ∈ (sensor_processing_task a d).2
    ∧ Effect.timer (.xTimerReset .pattern_timer) ∈ (sensor_processing_task a d).2 := by
  obtain ⟨hcnt, hhs, havg⟩ := window_average s ds d a h0 hc ha h9
  have hpc : a.health_stats.pattern_changes = s.health_stats.pattern_changes := by rw [hhs]
  have hnot : ¬ (float_mean (valid_values ds ++ [d.value]) > 35) := by
    intro h
    linarith
  rw [sensor_processing_task_window a d _ hd hcnt havg]
  simp only [hnot, hmean, if_true, if_false]
  have hval : (change_led_pattern { a with sum := to_float (a.sum + d.value), cnt := 10 }
      .PATTERN_SOS).1.health_stats.pattern_changes
        = (s.health_stats.pattern_changes + 1) % 2 ^ 32 := by
    rw [← hpc]
    rfl
  refine ⟨hpc, rfl, hval, fun h => ?_, by simp, by simp [change_led_pattern]⟩
  exact hval.trans (Nat.mod_eq_of_lt h)

/-- The readings of scenario 1: their sums are exact in `float`, the worker
computes the average 10.5, below 15, and commands SOS on the tenth. -/
theorem low_mean_commands_sos_scenario1 :
    (valid_values scenario1_head).length = 9
    ∧ float_mean (valid_values scenario1_head ++ [scenario1_last.value]) = 21 / 2
    ∧ (sensor_processing_task (sensor_processing_loop State.init scenario1_head).1
        scenario1_last).1.current_pattern = .PATTERN_SOS
    ∧ (sensor_processing_task (sensor_processing_loop State.init scenario1_head).1
        scenario1_last).1.health_stats.pattern_changes = 1 := by
  have h9 : (valid_values scenario1_head).length = 9 := by decide!
  have hm : float_mean (valid_values scenario1_head ++ [scenario1_last.value]) = 21 / 2 := by
    decide!
  have hd : scenario1_last.valid = true := by decide!
  have h := low_mean_commands_sos State.init scenario1_head scenario1_last _ rfl rfl rfl h9 hd
    (by rw [hm]; norm_num)
  exact ⟨h9, hm, h.2.1, h.2.2.2.1 (by decide)⟩

/-- Against C4: ten valid samples that `read_sensor_value` can deliver, nine
of 37.25 degrees and one just above 14.75, with an arithmetic mean above 35.
The last addition rounds the `float` sum down to 350, the worker computes the
average 35, which is not above 35, and commands nothing. -/
theorem high_mean_rounded_to_thirty_five :
    (valid_values rounding_high_head).length = 9
    ∧ rounding_high_last.valid = true
    ∧ valid_values rounding_high_head = List.replicate 9 (149 / 4)
    ∧ rounding_high_last.value = 15466497 / 1048576
    ∧ 35 < ((valid_values rounding_high_head).sum + rounding_high_last.value) / 10
    ∧ float_mean (valid_values rounding_high_head ++ [rounding_high_last.value]) = 35
    ∧ (sensor_processing_task (sensor_processing_loop State.init rounding_high_head).1
        rounding_high_last).1.current_pattern = State.init.current_pattern
    ∧ (sensor_processing_task (sensor_processing_loop State.init rounding_high_head).1
        rounding_high_last).1.current_pattern ≠ .PATTERN_FAST_BLINK
    ∧ (sensor_processing_task (sensor_processing_loop State.init rounding_high_head).1
        rounding_high_last).1.health_stats.pattern_changes = 0 := by
  have ht1 : sensor_temperature 750 25 = 149 / 4 := by decide!
  have ht2 : sensor_temperature 286 95 = 15466497 / 1048576 := by decide!
  have hv : valid_values rounding_high_head = List.replicate 9 (149 / 4) := by
    simp only [rounding_high_head, ht1]
    decide!
  have hl : rounding_high_last = sample_of (15466497 / 1048576, 0) := by
    simp only [rounding_high_last, ht2]
  have hd : rounding_high_last.valid = true := by
    rw [hl]
    decide!
  have hval : rounding_high_last.value = 15466497 / 1048576 := by rw [hl]; rfl
  have h9 : (valid_values rounding_high_head).length = 9 := by rw [hv]; rfl
  have hm : float_mean (valid_values rounding_high_head ++ [rounding_high_last.value])
      = 35 := by
    rw [hv, hval]
    decide!
  have hex : 35 < ((valid_values rounding_high_head).sum + rounding_high_last.value) / 10 := by
    rw [hv, hval]
    decide!
  obtain ⟨o1, o2⟩ := window_outcome State.init rounding_high_head rounding_high_last _ rfl rfl
    rfl h9 hd
  rw [hm] at o1 o2
  norm_num at o1 o2
  refine ⟨h9, hd, hv, hval, hex, hm, o1, ?_, o2⟩
  rw [o1]
  decide

/-- C4, amended: a window of ten valid samples (rejected samples may lie in
between) that starts from an empty accumulator and whose average as the
worker computes it, the `float` sum of the ten values in order divided by 10,
is above 35, in particular one whose ten values all lie between 40 and 50:
processing the tenth sample commands FAST_BLINK, whatever the state before.
The first nine leave `pattern_changes` alone, the tenth makes
`current_pattern` `PATTERN_FAST_BLINK`, increments the `uint32_t` counter (one
greater, modulo `2 ^ 32`) and asks for a reset of the pattern timer. -/
theorem high_mean_commands_fast_blink (s : State) (ds : List sensor_data_t)
    (d : sensor_data_t) (a : State) (h0 : s.sum = 0) (hc : s.cnt = 0)
    (ha : a = (sensor_processing_loop s ds).1)
    (h9 : (valid_values ds).length = 9) (hd : d.valid = true)
    (hmean : 35 < float_mean (valid_values ds ++ [d.value])
      ∨ ((∀ v ∈ valid_values ds, 40 ≤ v ∧ v ≤ 50) ∧ 40 ≤ d.value ∧ d.value ≤ 50)) :
    a.health_stats.pattern_changes = s.health_stats.pattern_changes
    ∧ (sensor_processing_task a d).1.current_pattern = .PATTERN_FAST_BLINK
    ∧ (sensor_processing_task a d).1.health_stats.pattern_changes
        = (s.health_stats.pattern_changes + 1) % 2 ^ 32
    ∧ (s.health_stats.pattern_changes + 1 < 2 ^ 32 →
        (sensor_processing_task a d).1.health_stats.pattern_changes
          = s.health_stats.pattern_changes + 1)
    ∧ Effect.log .W .high_temp ∈ (sensor_processing_task a d).2
    ∧ Effect.timer (.xTimerReset .pattern_timer) ∈ (sensor_processing_task a d).2 := by
  obtain ⟨hcnt, hhs, havg⟩ := window_average s ds d a h0 hc ha h9
  have hpc : a.health_stats.pattern_changes = s.health_stats.pattern_changes := by rw [hhs]
  have hhigh : float_mean (valid_values ds ++ [d.value]) > 35 := by
    rcases hmean with h | ⟨hall, hlo, hhi⟩
    · exact h
    · have hb := float_mean_bounds (valid_values ds ++ [d.value])
        (by rw [List.length_append, h9]; rfl)
        (by
          intro v hv
          rcases List.mem_append.mp hv with h1 | h1
          · exact hall v h1
          · rw [List.mem_singleton.mp h1]
            exact ⟨hlo, hhi⟩)
      linarith [hb.1]
  rw [sensor_processing_task_window a d _ hd hcnt havg]
  simp only [hhigh, if_true]
  have hval : (change_led_pattern { a with sum := to_float (a.sum + d.value), cnt := 10 }
      .PATTERN_FAST_BLINK).1.health_stats.pattern_changes
        = (s.health_stats.pattern_changes + 1) % 2 ^ 32 := by
    rw [← hpc]
    rfl
  refine ⟨hpc, rfl, hval, fun h => ?_, by simp, by simp [change_led_pattern]⟩
  exact hval.trans (Nat.mod_eq_of_lt h)

/-- Scenario 2: ten accepted readings between 40 and 50, two rejected ones in
between, and the worker commands FAST_BLINK on the tenth. -/
theorem high_mean_commands_fast_blink_scenario2 :
    (valid_values scenario2_head).length = 9
    ∧ (sensor_processing_task (sensor_processing_loop State.init scenario2_head).1
        scenario2_last).1.current_pattern = .PATTERN_FAST_BLINK
    ∧ (sensor_processing_task (sensor_processing_loop State.init scenario2_head).1
        scenario2_last).1.health_stats.pattern_changes = 1 := by
  have h9 : (valid_values scenario2_head).length = 9 := by
    norm_num [valid_values, scenario2_head, sample_of, List.filter]
  have hall : ∀ v ∈ valid_values scenario2_head, (40 : ℚ) ≤ v ∧ v ≤ 50 := by
    norm_num [valid_values, scenario2_head, sample_of, List.filter]
  have hd : scenario2_last.valid = true := by norm_num [scenario2_last, sample_of]
  have hl : (40 : ℚ) ≤ scenario2_last.value ∧ scenario2_last.value ≤ 50 := by
    norm_num [scenario2_last, sample_of]
  have h := high_mean_commands_fast_blink State.init scenario2_head scenario2_last _ rfl rfl
    rfl h9 hd (Or.inr ⟨hall, hl⟩)
  exact ⟨h9, h.2.1, h.2.2.2.1 (by decide)⟩

/-- Against C5: two windows of ten valid samples that `read_sensor_value` can
deliver.  The arithmetic mean of the first is 15, the worker computes an
average below 15 and commands SOS; the arithmetic mean of the second is 35,
the worker computes an average above 35 and commands FAST_BLINK. -/
theorem mid_mean_rounded_out_of_range :
    (valid_values rounding_mid_low_head).length = 9
    ∧ rounding_mid_low_last.valid = true
    ∧ ((valid_values rounding_mid_low_head).sum + rounding_mid_low_last.value) / 10 = 15
    ∧ float_mean (valid_values rounding_mid_low_head ++ [rounding_mid_low_last.value])
        = 7864319 / 524288
    ∧ (sensor_processing_task (sensor_processing_loop State.init rounding_mid_low_head).1
        rounding_mid_low_last).1.current_pattern = .PATTERN_SOS
    ∧ (sensor_processing_task (sensor_processing_loop State.init rounding_mid_low_head).1
        rounding_mid_low_last).1.health_stats.pattern_changes = 1
    ∧ (valid_values rounding_mid_high_head).length = 9
    ∧ rounding_mid_high_last.valid = true
    ∧ ((valid_values rounding_mid_high_head).sum + rounding_mid_high_last.value) / 10 = 35
    ∧ float_mean (valid_values rounding_mid_high_head ++ [rounding_mid_high_last.value])
        = 9175041 / 262144
    ∧ (sensor_processing_task (sensor_processing_loop State.init rounding_mid_high_head).1
        rounding_mid_high_last).1.current_pattern = .PATTERN_FAST_BLINK
    ∧ State.init.current_pattern = .PATTERN_OFF := by
  have ta1 : sensor_temperature 600 96 = 15969813 / 524288 := by decide!
  have ta2 : sensor_temperature 250 25 = 49 / 4 := by decide!
  have ta3 : sensor_temperature 421 99 = 11293163 / 524288 := by decide!
  have tb1 : sensor_temperature 956 78 = 12603883 / 262144 := by decide!
  have tb2 : sensor_temperature 625 75 = 63 / 2 := by decide!
  have tb3 : sensor_temperature 989 97 = 13086229 / 262144 := by decide!
  have hva : valid_values rounding_mid_low_head
      = 15969813 / 524288 :: List.replicate 8 (49 / 4) := by
    simp only [rounding_mid_low_head, ta1, ta2]
    decide!
  have hla : rounding_mid_low_last = sample_of (11293163 / 524288, 0) := by
    simp only [rounding_mid_low_last, ta3]
  have hda : rounding_mid_low_last.valid = true := by
    rw [hla]
    decide!
  have hvala : rounding_mid_low_last.value = 11293163 / 524288 := by rw [hla]; rfl
  have h9a : (valid_values rounding_mid_low_head).length = 9 := by rw [hva]; rfl
  have hma : float_mean (valid_values rounding_mid_low_head ++ [rounding_mid_low_last.value])
      = 7864319 / 524288 := by
    rw [hva, hvala]
    decide!
  have hexa : ((valid_values rounding_mid_low_head).sum + rounding_mid_low_last.value) / 10
      = 15 := by
    rw [hva, hvala]
    decide!
  have hvb : valid_values rounding_mid_high_head
      = 12603883 / 262144 :: List.replicate 8 (63 / 2) := by
    simp only [rounding_mid_high_head, tb1, tb2]
    decide!
  have hlb : rounding_mid_high_last = sample_of (13086229 / 262144, 0) := by
    simp only [rounding_mid_high_last, tb3]
  have hdb : rounding_mid_high_last.valid = true := by
    rw [hlb]
    decide!
  have hvalb : rounding_mid_high_last.value = 13086229 / 262144 := by rw [hlb]; rfl
  have h9b : (valid_values rounding_mid_high_head).length = 9 := by rw [hvb]; rfl
  have hmb : float_mean (valid_values rounding_mid_high_head
      ++ [rounding_mid_high_last.value]) = 9175041 / 262144 := by
    rw [hvb, hvalb]
    decide!
  have hexb : ((valid_values rounding_mid_high_head).sum + rounding_mid_high_last.value) / 10
      = 35 := by
    rw [hvb, hvalb]
    decide!
  obtain ⟨a1, a2⟩ := window_outcome State.init rounding_mid_low_head rounding_mid_low_last _
    rfl rfl rfl h9a hda
  rw [hma] at a1 a2
  norm_num at a1 a2
  obtain ⟨b1, _⟩ := window_outcome State.init rounding_mid_high_head rounding_mid_high_last _
    rfl rfl rfl h9b hdb
  rw [hmb] at b1
  norm_num at b1
  exact ⟨h9a, hda, hexa, hma, a1, a2, h9b, hdb, hexb, hmb, b1, rfl⟩

/-- C5, amended: a window of ten valid samples that starts from an empty
accumulator and whose average `m` as the worker computes it, the `float` sum
of the ten values in order divided by 10, satisfies `15 ≤ m ≤ 35`: processing
the tenth sample only clears the accumulator.  The variant, both step
counters, the toggle state and `pattern_changes` are as before the step, and
the step sends no request to the timer service. -/
theorem mid_mean_keeps_pattern (s : State) (ds : List sensor_data_t)
    (d : sensor_data_t) (a : State) (h0 : s.sum = 0) (hc : s.cnt = 0)
    (ha : a = (sensor_processing_loop s ds).1)
    (h9 : (valid_values ds).length = 9) (hd : d.valid = true)
    (hlo : 15 ≤ float_mean (valid_values ds ++ [d.value]))
    (hhi : float_mean (valid_values ds ++ [d.value]) ≤ 35) :
    (sensor_processing_task a d).1 = { a with sum := 0, cnt := 0 }
    ∧ (sensor_processing_task a d).1.current_pattern = a.current_pattern
    ∧ (sensor_processing_task a d).1.pattern_step = a.pattern_step
    ∧ (sensor_processing_task a d).1.pattern_state = a.pattern_state
    ∧ (sensor_processing_task a d).1.health_stats.pattern_changes
        = a.health_stats.pattern_changes
    ∧ (sensor_processing_task a d).1.sum = 0
    ∧ (sensor_processing_task a d).1.cnt = 0
    ∧ (∀ e ∈ (sensor_processing_task a d).2, e.target = Option.none) := by
  obtain ⟨hcnt, _, havg⟩ := window_average s ds d a h0 hc ha h9
  have h1 : ¬ (float_mean (valid_values ds ++ [d.value]) > 35) := not_lt.mpr hhi
  have h2 : ¬ (float_mean (valid_values ds ++ [d.value]) < 15) := not_lt.mpr hlo
  rw [sensor_processing_task_window a d _ hd hcnt havg]
  simp only [h1, h2, if_false, true_and]
  intro e he
  simp only [List.append_nil, List.mem_cons, List.mem_singleton, List.not_mem_nil,
    or_false] at he
  rcases he with rfl | rfl <;> rfl

/-- A window whose sums are exact in `float` and whose average is 23.6
leaves the pattern engine as booted and clears the accumulator. -/
theorem mid_mean_keeps_pattern_scenario :
    float_mean (valid_values scenario_mid_head ++ [scenario_mid_last.value])
      = to_float (236 / 10)
    ∧ (sensor_processing_task (sensor_processing_loop State.init scenario_mid_head).1
        scenario_mid_last).1.current_pattern
        = (sensor_processing_loop State.init scenario_mid_head).1.current_pattern
    ∧ (sensor_processing_task (sensor_processing_loop State.init scenario_mid_head).1
        scenario_mid_last).1.cnt = 0 := by
  have h9 : (valid_values scenario_mid_head).length = 9 := by decide!
  have hm : float_mean (valid_values scenario_mid_head ++ [scenario_mid_last.value])
      = to_float (236 / 10) := by decide!
  have hd : scenario_mid_last.valid = true := by decide!
  have hlo : (15 : ℚ) ≤ to_float (236 / 10) := by decide!
  have hhi : to_float (236 / 10) ≤ (35 : ℚ) := by decide!
  have h := mid_mean_keeps_pattern State.init scenario_mid_head scenario_mid_last _ rfl rfl
    rfl h9 hd (by rw [hm]; exact hlo) (by rw [hm]; exact hhi)
  exact ⟨hm, h.2.1, h.2.2.2.2.2.2.1⟩

/-- The second window of a run: after scenario 2 the count stands at 9, and
the tenth valid sample clears it. -/
theorem worker_window_accounting_scenario2 :
    State.init.sum = 0 ∧ State.init.cnt = 0
    ∧ (sensor_processing_loop State.init scenario2_head).1.cnt = 9
    ∧ (sensor_processing_task (sensor_processing_loop State.init scenario2_head).1
        scenario2_last).1.cnt = 0 := by
  have h9 : (valid_values scenario2_head).length = 9 := by
    norm_num [valid_values, scenario2_head, sample_of, List.filter]
  have hd : scenario2_last.valid = true := by norm_num [scenario2_last, sample_of]
  have h := worker_window_accounting State.init scenario2_head scenario2_last _ rfl rfl rfl
  have hc : (sensor_processing_loop State.init scenario2_head).1.cnt = 9 := by
    rw [h.2.1, h9]
  exact ⟨rfl, rfl, hc, (h.2.2.2.2.2.1 hd hc).2.1⟩

/-! ## Properties of the sampler -/

theorem requested_periods_append (xs ys : List Effect) :
    requested_periods (xs ++ ys) = requested_periods xs ++ requested_periods ys := by
  induction xs with
  | nil => rfl
  | cons x xs ih =>
    cases x with
    | timer c => cases c <;> simp [requested_periods, ih]
    | _ => simp [requested_periods, ih]

/-- C6: the only period that `sensor_timer_callback` requests is for the
timer it is invoked with and is `new_period` of the reading: 500 ms above 40,
1000 ms above 25 and up to 40, 2000 ms otherwise, whatever the state and the
tick count, also for readings outside `[0, 50]`.  Two firings at the same
reading request the same period, and the period does not increase with the
reading. -/
theorem sensor_period_of_value (s1 s2 : State) (v v1 v2 : ℚ) (now1 now2 : Nat)
    (timer : TimerId) :
    requested_periods (sensor_timer_callback s1 v now1 timer).2 = [(timer, new_period v)]
    ∧ requested_periods (sensor_timer_callback s1 v now1 timer).2
        = requested_periods (sensor_timer_callback s2 v now2 timer).2
    ∧ (40 < v → new_period v = 500)
    ∧ (25 < v → v ≤ 40 → new_period v = 1000)
    ∧ (v ≤ 25 → new_period v = 2000)
    ∧ (v1 ≤ v2 → new_period v2 ≤ new_period v1) := by
  have key : ∀ (s : State) (now : Nat),
      requested_periods (sensor_timer_callback s v now timer).2 = [(timer, new_period v)] := by
    intro s now
    simp only [sensor_timer_callback, read_sensor_value]
    rw [requested_periods_append, requested_periods_append, requested_periods_append]
    by_cases hq : (xQueueSend s.sensor_queue sensor_queue_length
        { value := v, timestamp := now, valid := decide (v ≥ 0) && decide (v ≤ 50) } 0).2
          = SendResult.pdTRUE
    · simp [requested_periods, hq]
    · simp [requested_periods, hq]
  refine ⟨key s1 now1, by rw [key s1 now1, key s2 now2], ?_, ?_, ?_, ?_⟩
  · intro h
    simp [new_period, h]
  · intro h1 h2
    simp [new_period, h1, not_lt.mpr h2]
  · intro h
    have h1 : ¬ (40 < v) := by
      intro h'
      linarith
    simp [new_period, h1, not_lt.mpr h]
  · intro h
    unfold new_period
    by_cases a1 : v1 > 40
    · have a2 : v2 > 40 := lt_of_lt_of_le a1 h
      simp [a1, a2]
    · by_cases b1 : v1 > 25
      · have b2 : v2 > 25 := lt_of_lt_of_le b1 h
        by_cases a2 : v2 > 40
        · simp [a1, b1, a2]
        · simp [a1, b1, a2, b2]
      · by_cases a2 : v2 > 40
        · simp [a1, b1, a2]
        · by_cases b2 : v2 > 25
          · simp [a1, b1, a2, b2]
          · simp [a1, b1, a2, b2]

/-! ## Properties of the watchdog -/

/-- C8: for every prior state and in both programs, one execution of
`watchdog_timeout_callback` increments the `uint32_t` counter
`watchdog_timeouts` (one greater than before, modulo `2 ^ 32`), requests a
reset of the deadline timer and ends with `system_healthy` true; nothing else
of the state changes, in particular not `watchdog_feeds`, `pattern_changes`
and `sensor_readings`. -/
theorem watchdog_timeout_recovers (lab : Lab) (s : State) :
    (watchdog_timeout_callback lab s).1.health_stats.watchdog_timeouts
        = (s.health_stats.watchdog_timeouts + 1) % 2 ^ 32
    ∧ (s.health_stats.watchdog_timeouts + 1 < 2 ^ 32 →
        (watchdog_timeout_callback lab s).1.health_stats.watchdog_timeouts
          = s.health_stats.watchdog_timeouts + 1)
    ∧ Effect.timer (.xTimerReset .watchdog_timer) ∈ (watchdog_timeout_callback lab s).2
    ∧ (watchdog_timeout_callback lab s).1.health_stats.system_healthy = true
    ∧ (watchdog_timeout_callback lab s).1.health_stats.watchdog_feeds
        = s.health_stats.watchdog_feeds
    ∧ (watchdog_timeout_callback lab s).1.health_stats.pattern_changes
        = s.health_stats.pattern_changes
    ∧ (watchdog_timeout_callback lab s).1.health_stats.sensor_readings
        = s.health_stats.sensor_readings
    ∧ (watchdog_timeout_callback lab s).1
        = { s with health_stats := { s.health_stats with
              watchdog_timeouts := (s.health_stats.watchdog_timeouts + 1) % 2 ^ 32,
              system_healthy := true } } := by
  refine ⟨rfl, fun h => ?_, ?_, rfl, rfl, rfl, rfl, rfl⟩
  · show (s.health_stats.watchdog_timeouts + 1) % 2 ^ 32 = _
    exact Nat.mod_eq_of_lt h
  · simp [watchdog_timeout_callback]

theorem feed_run_append (lab : Lab) (s : State) (pre : List Bool) (created : Bool) :
    feed_run lab s (pre ++ [created])
      = (feed_watchdog_callback lab (feed_run lab s pre) created).1 := by
  induction pre generalizing s with
  | nil => rfl
  | cons x xs ih => simp [feed_run, ih]

theorem feed_watchdog_callback_hang (lab : Lab) (s : State) (created : Bool)
    (h : s.feed_count + 1 = 15) :
    feed_watchdog_callback lab s created
      = ({ s with feed_count := s.feed_count + 1 },
          [.log .W .simulate_hang, .timer (.xTimerStop .feed_timer),
            .xTimerCreate .recovery 8000 false created]
            ++ (if created then [Effect.timer (.xTimerStart .recovery)] else [])) := by
  simp [feed_watchdog_callback, h]

theorem feed_watchdog_callback_feed (lab : Lab) (s : State) (created : Bool)
    (h : s.feed_count + 1 ≠ 15) :
    feed_watchdog_callback lab s created
      = ({ s with feed_count := s.feed_count + 1,
                  health_stats := { s.health_stats with
                    watchdog_feeds := (s.health_stats.watchdog_feeds + 1) % 2 ^ 32 } },
          (if lab = .LEDPatternEvolution then [Effect.log .I .feed] else [])
            ++ [.timer (.xTimerReset .watchdog_timer), .gpio_set_level .STATUS_LED true,
                .vTaskDelay 50, .gpio_set_level .STATUS_LED false]) := by
  simp [feed_watchdog_callback, h, incr32]

/-- After any number of firings from a state with both counts at 0,
`feed_count` is the number of firings and `watchdog_feeds` is that number,
less one from the fifteenth firing on, modulo `2 ^ 32`. -/
theorem feed_run_counts (lab : Lab) (s : State) (pre : List Bool)
    (h0 : s.feed_count = 0) (hf : s.health_stats.watchdog_feeds = 0) :
    (feed_run lab s pre).feed_count = pre.length
    ∧ (feed_run lab s pre).health_stats.watchdog_feeds
        = (if pre.length < 15 then pre.length else pre.length - 1) % 2 ^ 32 := by
  induction pre using List.reverseRecOn with
  | nil => simp [feed_run, h0, hf]
  | append_singleton l x ih =>
    obtain ⟨ic, ifd⟩ := ih
    rw [feed_run_append]
    by_cases h15 : (feed_run lab s l).feed_count + 1 = 15
    · rw [feed_watchdog_callback_hang lab _ x h15]
      have hl : l.length = 14 := by omega
      simp only [List.length_append, List.length_singleton, ic, true_and]
      rw [ifd, hl]
      rfl
    · rw [feed_watchdog_callback_feed lab _ x h15]
      simp only [List.length_append, List.length_singleton, ic, true_and]
      rw [ifd]
      rw [ic] at h15
      by_cases hlt : l.length < 15
      · have hlt2 : l.length + 1 < 15 := by omega
        simp only [hlt, hlt2, if_true]
        omega
      · have hlt2 : ¬ (l.length + 1 < 15) := by omega
        simp only [hlt, hlt2, if_false]
        omega

/-- C7: feed firings counted from a state with `feed_count` and
`watchdog_feeds` at 0, in both programs; `pre` holds the firings before the
n-th one, `n = pre.length + 1`, and `n < 2 ^ 31` keeps the `int` `feed_count`
in range.  A firing with `n ≠ 15` increases `watchdog_feeds` by exactly one
and requests a reset of the deadline timer.  The 15th firing leaves
`watchdog_feeds` as it is and sends no request for the deadline timer; it is
the only firing that requests a stop of the feed timer.  After `n` firings
`watchdog_feeds` is `n` for `n < 15` and `n - 1` for `n ≥ 15`. -/
theorem feed_counting (lab : Lab) (s : State) (pre : List Bool) (created : Bool)
    (h0 : s.feed_count = 0) (hf : s.health_stats.watchdog_feeds = 0)
    (hn : pre.length + 1 < 2 ^ 31) :
    (pre.length + 1 ≠ 15 →
      (feed_watchdog_callback lab (feed_run lab s pre) created).1.health_stats.watchdog_feeds
        = (feed_run lab s pre).health_stats.watchdog_feeds + 1
      ∧ Effect.timer (.xTimerReset .watchdog_timer)
          ∈ (feed_watchdog_callback lab (feed_run lab s pre) created).2)
    ∧ (pre.length + 1 = 15 →
      (feed_watchdog_callback lab (feed_run lab s pre) created).1.health_stats.watchdog_feeds
        = (feed_run lab s pre).health_stats.watchdog_feeds
      ∧ ∀ e ∈ (feed_watchdog_callback lab (feed_run lab s pre) created).2,
          e.target ≠ some .watchdog_timer)
    ∧ (Effect.timer (.xTimerStop .feed_timer)
          ∈ (feed_watchdog_callback lab (feed_run lab s pre) created).2
        ↔ pre.length + 1 = 15)
    ∧ (feed_run lab s (pre ++ [created])).health_stats.watchdog_feeds
        = (if pre.length + 1 < 15 then pre.length + 1 else pre.length + 1 - 1) := by
  obtain ⟨ic, ifd⟩ := feed_run_counts lab s pre h0 hf
  have ifd2 := (feed_run_counts lab s (pre ++ [created]) h0 hf).2
  have hbig : (2 : ℕ) ^ 31 < 2 ^ 32 := by norm_num
  refine ⟨?_, ?_, ?_, ?_⟩
  · intro h15
    have h15b : (feed_run lab s pre).feed_count + 1 ≠ 15 := by rw [ic]; exact h15
    rw [feed_watchdog_callback_feed lab _ created h15b]
    refine ⟨?_, by simp⟩
    show ((feed_run lab s pre).health_stats.watchdog_feeds + 1) % 2 ^ 32 = _
    apply Nat.mod_eq_of_lt
    rw [ifd]
    have hle : (if pre.length < 15 then pre.length else pre.length - 1) % 2 ^ 32
        ≤ pre.length := by
      apply le_trans (Nat.mod_le _ _)
      split <;> omega
    omega
  · intro h15
    have h15b : (feed_run lab s pre).feed_count + 1 = 15 := by rw [ic]; exact h15
    rw [feed_watchdog_callback_hang lab _ created h15b]
    refine ⟨rfl, ?_⟩
    intro e he
    cases created <;> simp at he <;> rcases he with rfl | rfl | rfl | rfl <;> simp [Effect.target]
  · by_cases h15 : pre.length + 1 = 15
    · have h15b : (feed_run lab s pre).feed_count + 1 = 15 := by rw [ic]; exact h15
      rw [feed_watchdog_callback_hang lab _ created h15b]
      simp [h15]
    · have h15b : (feed_run lab s pre).feed_count + 1 ≠ 15 := by rw [ic]; exact h15
      rw [feed_watchdog_callback_feed lab _ created h15b]
      cases lab <;> simp [h15]
  · rw [ifd2]
    simp only [List.length_append, List.length_singleton]
    apply Nat.mod_eq_of_lt
    split <;> omega

/-- Fourteen feeds, the hang on the 15th firing, and the 16th firing: the
count of feeds is 14, 14 and 15. -/
theorem feed_counting_fifteenth :
    State.init.feed_count = 0 ∧ State.init.health_stats.watchdog_feeds = 0
    ∧ (feed_run .LEDPatternEvolution State.init
        (List.replicate 13 true ++ [true])).health_stats.watchdog_feeds = 14
    ∧ (feed_run .LEDPatternEvolution State.init
        (List.replicate 14 true ++ [true])).health_stats.watchdog_feeds = 14
    ∧ (feed_run .SensorAdaptiveSampling State.init
        (List.replicate 15 true ++ [false])).health_stats.watchdog_feeds = 15 := by
  have h14 := feed_counting .LEDPatternEvolution State.init (List.replicate 13 true) true
    rfl rfl (by rw [List.length_replicate]; norm_num)
  have h15 := feed_counting .LEDPatternEvolution State.init (List.replicate 14 true) true
    rfl rfl (by rw [List.length_replicate]; norm_num)
  have h16 := feed_counting .SensorAdaptiveSampling State.init (List.replicate 15 true) false
    rfl rfl (by rw [List.length_replicate]; norm_num)
  refine ⟨rfl, rfl, h14.2.2.2.trans ?_, h15.2.2.2.trans ?_, h16.2.2.2.trans ?_⟩ <;>
    rw [List.length_replicate] <;> rfl

theorem dropped_append (xs ys : List Effect) :
    dropped (xs ++ ys) = dropped xs + dropped ys := by
  induction xs with
  | nil => simp [dropped]
  | cons x xs ih =>
    cases x with
    | log l m =>
      cases l <;> cases m <;> simp [dropped, ih]
      omega
    | _ => simp [dropped, ih]

theorem send_results_append (xs ys : List Effect) :
    send_results (xs ++ ys) = send_results xs ++ send_results ys := by
  induction xs with
  | nil => rfl
  | cons x xs ih => cases x <;> simp [send_results, ih]

theorem sensor_timer_run_append (s : State) (timer : TimerId) (xs : List (ℚ × Nat))
    (x : ℚ × Nat) :
    sensor_timer_run s timer (xs ++ [x])
      = ((sensor_timer_callback (sensor_timer_run s timer xs).1 x.1 x.2 timer).1,
          (sensor_timer_run s timer xs).2
            ++ (sensor_timer_callback (sensor_timer_run s timer xs).1 x.1 x.2 timer).2) := by
  induction xs generalizing s with
  | nil => simp [sensor_timer_run]
  | cons y ys ih => simp [sensor_timer_run, ih]

/-- A firing that finds room in the channel. -/
theorem sensor_timer_callback_room (s : State) (x : ℚ × Nat) (timer : TimerId)
    (h : s.sensor_queue.length < sensor_queue_length) :
    sensor_timer_callback s x.1 x.2 timer
      = ({ s with health_stats := { s.health_stats with
                    sensor_readings := (s.health_stats.sensor_readings + 1) % 2 ^ 32 },
                  sensor_queue := s.sensor_queue ++ [sample_of x] },
          [.gpio_set_level .SENSOR_POWER true, .vTaskDelay 10,
            .gpio_set_level .SENSOR_POWER false, .xQueueSend (sample_of x) 0 .pdTRUE,
            .timer (.xTimerChangePeriod timer (new_period x.1))]) := by
  simp [sensor_timer_callback, read_sensor_value, xQueueSend, h, sample_of, incr32]

/-- A firing that finds the channel full. -/
theorem sensor_timer_callback_full (s : State) (x : ℚ × Nat) (timer : TimerId)
    (h : ¬ s.sensor_queue.length < sensor_queue_length) :
    sensor_timer_callback s x.1 x.2 timer
      = ({ s with health_stats := { s.health_stats with
                    sensor_readings := (s.health_stats.sensor_readings + 1) % 2 ^ 32 } },
          [.gpio_set_level .SENSOR_POWER true, .vTaskDelay 10,
            .gpio_set_level .SENSOR_POWER false, .xQueueSend (sample_of x) 0 .errQUEUE_FULL,
            .log .W .queue_full_drop,
            .timer (.xTimerChangePeriod timer (new_period x.1))]) := by
  simp [sensor_timer_callback, read_sensor_value, xQueueSend, h, sample_of, incr32]

/-- While the channel has room every push is accepted. -/
theorem sensor_timer_run_room (s : State) (timer : TimerId) (xs : List (ℚ × Nat))
    (hq : s.sensor_queue.length + xs.length ≤ sensor_queue_length)
    (hr : s.health_stats.sensor_readings + xs.length < 2 ^ 32) :
    (sensor_timer_run s timer xs).1.sensor_queue = s.sensor_queue ++ xs.map sample_of
    ∧ (sensor_timer_run s timer xs).1.health_stats.sensor_readings
        = s.health_stats.sensor_readings + xs.length
    ∧ dropped (sensor_timer_run s timer xs).2 = 0
    ∧ send_results (sensor_timer_run s timer xs).2
        = List.replicate xs.length (0, SendResult.pdTRUE) := by
  induction xs generalizing s with
  | nil => simp [sensor_timer_run, dropped, send_results]
  | cons y ys ih =>
    simp only [List.length_cons] at hq hr
    have hroom : s.sensor_queue.length < sensor_queue_length := by omega
    simp only [sensor_timer_run, sensor_timer_callback_room s y timer hroom]
    have hmod : (s.health_stats.sensor_readings + 1) % 2 ^ 32
        = s.health_stats.sensor_readings + 1 := Nat.mod_eq_of_lt (by omega)
    obtain ⟨i1, i2, i3, i4⟩ := ih
      { s with health_stats := { s.health_stats with
                 sensor_readings := (s.health_stats.sensor_readings + 1) % 2 ^ 32 },
               sensor_queue := s.sensor_queue ++ [sample_of y] }
      (by simp only [List.length_append, List.length_singleton]; omega)
      (by simp only [hmod]; omega)
    refine ⟨?_, ?_, ?_, ?_⟩
    · rw [i1]
      simp
    · rw [i2]
      simp only [hmod, List.length_cons]
      omega
    · rw [List.cons_append, List.cons_append, List.cons_append, List.cons_append,
        List.cons_append, List.nil_append]
      simp only [dropped]
      exact i3
    · rw [List.cons_append, List.cons_append, List.cons_append, List.cons_append,
        List.cons_append, List.nil_append]
      simp only [send_results, List.length_cons, List.replicate_succ]
      rw [i4]

/-- C10: twenty-one firings of `sensor_timer_callback` from a state with an
empty channel and `sensor_readings` at 0, the channel not being drained.
`sensor_readings` ends at 21; the channel holds the samples of the first
twenty firings, oldest first; one drop warning is issued, none within the
first twenty firings; and every push is made with a waiting time of 0, the
first twenty accepted and the last refused at once, so none suspends the
callback. -/
theorem queue_overflow_drops_one (s : State) (timer : TimerId) (xs : List (ℚ × Nat))
    (x : ℚ × Nat) (hq : s.sensor_queue = []) (hr : s.health_stats.sensor_readings = 0)
    (hlen : xs.length = 20) :
    (sensor_timer_run s timer (xs ++ [x])).1.health_stats.sensor_readings = 21
    ∧ (sensor_timer_run s timer (xs ++ [x])).1.sensor_queue = xs.map sample_of
    ∧ dropped (sensor_timer_run s timer (xs ++ [x])).2 = 1
    ∧ dropped (sensor_timer_run s timer xs).2 = 0
    ∧ send_results (sensor_timer_run s timer (xs ++ [x])).2
        = List.replicate 20 (0, SendResult.pdTRUE) ++ [(0, SendResult.errQUEUE_FULL)] := by
  obtain ⟨i1, i2, i3, i4⟩ := sensor_timer_run_room s timer xs
    (by rw [hq, hlen]; decide) (by rw [hr, hlen]; norm_num)
  rw [hq, List.nil_append] at i1
  rw [hr, hlen, Nat.zero_add] at i2
  rw [hlen] at i4
  have hfull : ¬ (sensor_timer_run s timer xs).1.sensor_queue.length < sensor_queue_length := by
    rw [i1, List.length_map, hlen]
    decide
  rw [sensor_timer_run_append, sensor_timer_callback_full _ x timer hfull]
  refine ⟨?_, i1, ?_, i3, ?_⟩
  · show ((sensor_timer_run s timer xs).1.health_stats.sensor_readings + 1) % 2 ^ 32 = 21
    rw [i2]
    norm_num
  · rw [dropped_append, i3]
    rfl
  · rw [send_results_append, i4]
    rfl

/-- Scenario 4: twenty-one samples pushed into the empty channel of the
initial state. -/
theorem queue_overflow_drops_one_scenario4 :
    State.init.sensor_queue = [] ∧ scenario4_head.length = 20
    ∧ (sensor_timer_run State.init .sensor_timer
        (scenario4_head ++ [scenario4_last])).1.health_stats.sensor_readings = 21
    ∧ (sensor_timer_run State.init .sensor_timer
        (scenario4_head ++ [scenario4_last])).1.sensor_queue.length = 20
    ∧ dropped (sensor_timer_run State.init .sensor_timer
        (scenario4_head ++ [scenario4_last])).2 = 1 := by
  have hlen : scenario4_head.length = 20 := by simp [scenario4_head]
  have h := queue_overflow_drops_one State.init .sensor_timer scenario4_head scenario4_last
    rfl rfl hlen
  refine ⟨rfl, hlen, h.1, ?_, h.2.2.1⟩
  rw [h.2.1, List.length_map, hlen]

/-! ## Properties of the timer service under the callbacks -/

theorem Timers.set_other (ts : Timers) (t : TimerId) (v : TimerSlot) (u : TimerId)
    (h : u ≠ t) : (ts.set t v) u = ts u := by
  simp [Timers.set, h]

theorem Timers.set_same (ts : Timers) (t : TimerId) (v : TimerSlot) : (ts.set t v) t = v := by
  simp [Timers.set]

theorem Timers.request_other (ts : Timers) (e : Effect) (u : TimerId)
    (h : e.target ≠ some u) : (ts.request e) u = ts u := by
  cases e with
  | timer c =>
    cases c <;> simp only [Effect.target, ne_eq, Option.some.injEq] at h <;>
      simp only [Timers.request] <;> (try split) <;>
      first | rfl | exact Timers.set_other _ _ _ _ (Ne.symm h)
  | xTimerCreate t ms ar created =>
    simp only [Effect.target, ne_eq, Option.some.injEq] at h
    cases created
    · rfl
    · exact Timers.set_other _ _ _ _ (Ne.symm h)
  | _ => rfl

theorem Timers.requests_other (ts : Timers) (out : List Effect) (u : TimerId)
    (h : ∀ e ∈ out, e.target ≠ some u) : (ts.requests out) u = ts u := by
  induction out generalizing ts with
  | nil => rfl
  | cons e es ih =>
    show (Timers.requests (ts.request e) es) u = ts u
    rw [ih (ts.request e) (fun x hx => h x (List.mem_cons_of_mem e hx))]
    exact Timers.request_other ts e u (h e (List.mem_cons_self e es))

theorem only_targets_other {t u : TimerId} {out : List Effect} (h : only_targets t out)
    (hu : u ≠ t) : ∀ e ∈ out, e.target ≠ some u := by
  intro e he
  rcases h e he with h1 | h1
  · rw [h1]
    simp
  · rw [h1]
    simpa using Ne.symm hu

theorem only_targets_append {t : TimerId} {xs ys : List Effect} (hx : only_targets t xs)
    (hy : only_targets t ys) : only_targets t (xs ++ ys) := by
  intro e he
  rcases List.mem_append.mp he with h | h
  · exact hx e h
  · exact hy e h

theorem only_targets_watchdog_flash (t : TimerId) (n : Nat) :
    only_targets t (watchdog_flash n) := by
  induction n with
  | zero => intro e he; simp [watchdog_flash] at he
  | succ n ih =>
    intro e he
    simp only [watchdog_flash, List.cons_append, List.nil_append, List.mem_cons] at he
    rcases he with rfl | rfl | rfl | rfl | he
    · exact Or.inl rfl
    · exact Or.inl rfl
    · exact Or.inl rfl
    · exact Or.inl rfl
    · exact ih e he

theorem only_targets_watchdog_timeout (lab : Lab) (s : State) :
    only_targets .watchdog_timer (watchdog_timeout_callback lab s).2 := by
  simp only [watchdog_timeout_callback]
  refine only_targets_append (only_targets_append (only_targets_append
    (only_targets_append ?_ ?_) (only_targets_watchdog_flash _ 10)) ?_) ?_
  · intro e he
    simp at he
    subst he
    exact Or.inl rfl
  · intro e he
    cases lab <;> simp at he
    subst he
    exact Or.inl rfl
  · intro e he
    simp at he
    subst he
    exact Or.inl rfl
  · intro e he
    simp at he
    subst he
    exact Or.inr rfl

theorem only_targets_change_led_pattern (s : State) (p : led_pattern_t) :
    only_targets .pattern_timer (change_led_pattern s p).2 := by
  intro e he
  simp [change_led_pattern] at he
  rcases he with rfl | rfl
  · exact Or.inl rfl
  · exact Or.inr rfl

theorem only_targets_set_pattern_leds (t : TimerId) (a b c : Bool) :
    only_targets t (set_pattern_leds a b c) := by
  intro e he
  simp [set_pattern_leds] at he
  rcases he with rfl | rfl | rfl <;> exact Or.inl rfl

theorem only_targets_nil (t : TimerId) : only_targets t [] := by
  intro e he
  simp at he

theorem only_targets_cons (t : TimerId) (e : Effect) (out : List Effect) :
    only_targets t (e :: out)
      ↔ (e.target = Option.none ∨ e.target = some t) ∧ only_targets t out := by
  simp [only_targets]

theorem only_targets_append_iff (t : TimerId) (xs ys : List Effect) :
    only_targets t (xs ++ ys) ↔ only_targets t xs ∧ only_targets t ys := by
  simp only [only_targets, List.mem_append]
  constructor
  · intro h
    exact ⟨fun e he => h e (Or.inl he), fun e he => h e (Or.inr he)⟩
  · rintro ⟨h1, h2⟩ e (he | he)
    · exact h1 e he
    · exact h2 e he

theorem only_targets_ite (t : TimerId) (c : Prop) [Decidable c] (xs ys : List Effect) :
    only_targets t (if c then xs else ys)
      ↔ (c → only_targets t xs) ∧ (¬ c → only_targets t ys) := by
  by_cases h : c <;> simp [h]

theorem only_targets_pattern_switch (lab : Lab) (s : State) (t : TimerId) :
    only_targets t (pattern_switch lab s t).2 := by
  obtain ⟨cp, ps, hs, pst, fc, pc, sp, q, sm, cn, lc⟩ := s
  cases cp <;> cases lab <;>
    simp [pattern_switch, set_pattern_leds, only_targets_cons, only_targets_append_iff,
      only_targets_ite, only_targets_nil, Effect.target]

theorem only_targets_pattern_timer (lab : Lab) (s : State) :
    only_targets .pattern_timer (pattern_timer_callback lab s .pattern_timer).2 := by
  simp only [pattern_timer_callback]
  split
  · exact only_targets_append (only_targets_pattern_switch _ _ _)
      (only_targets_change_led_pattern _ _)
  · exact only_targets_pattern_switch _ _ _

theorem only_targets_sensor_timer (s : State) (reading : ℚ) (now : Nat) (t : TimerId) :
    only_targets t (sensor_timer_callback s reading now t).2 := by
  simp [sensor_timer_callback, read_sensor_value, only_targets_cons, only_targets_append_iff,
    only_targets_ite, only_targets_nil, Effect.target]

theorem only_targets_status_lines (t : TimerId) (n : Nat) : only_targets t (status_lines n) := by
  induction n with
  | zero => exact only_targets_nil t
  | succ n ih =>
    simp only [status_lines]
    exact only_targets_append ih (by simp [only_targets_cons, only_targets_nil, Effect.target])

theorem only_targets_status_timer (lab : Lab) (s : State) (now_ms : Nat) (t : TimerId) :
    only_targets t (status_timer_callback lab s now_ms).2 := by
  cases lab <;> simp only [status_timer_callback] <;>
    exact only_targets_append (only_targets_status_lines t _)
      (by simp [only_targets_cons, only_targets_nil, Effect.target])

theorem only_targets_sensor_processing (s : State) (d : sensor_data_t) :
    only_targets .pattern_timer (sensor_processing_task s d).2 := by
  simp only [sensor_processing_task]
  split
  · split
    · split
      · simp [change_led_pattern, only_targets_cons, only_targets_append_iff,
          only_targets_nil, Effect.target]
      · split <;> simp [change_led_pattern, only_targets_cons, only_targets_append_iff,
          only_targets_nil, Effect.target]
    · simp [only_targets_cons, only_targets_nil, Effect.target]
  · simp [only_targets_cons, only_targets_nil, Effect.target]

theorem only_targets_system_monitor (lab : Lab) (s : State) (heap : Nat) (t : TimerId) :
    only_targets t (system_monitor_task lab s heap).2 := by
  cases lab <;> simp only [system_monitor_task] <;> split <;>
    simp [only_targets_cons, only_targets_append_iff, only_targets_ite, only_targets_nil,
      Effect.target]

/-! ## What the other callbacks leave alone -/

theorem feed_view_change_led_pattern (s : State) (p : led_pattern_t) :
    feed_view (change_led_pattern s p).1 = feed_view s := rfl

theorem feed_view_pattern_switch (lab : Lab) (s : State) (t : TimerId) :
    feed_view (pattern_switch lab s t).1 = feed_view s := by
  obtain ⟨cp, ps, hs, pst, fc, pc, sp, q, sm, cn, lc⟩ := s
  cases cp <;> cases lab <;> rfl

theorem feed_view_pattern_timer (lab : Lab) (s : State) (t : TimerId) :
    feed_view (pattern_timer_callback lab s t).1 = feed_view s := by
  simp only [pattern_timer_callback]
  split
  · rw [feed_view_change_led_pattern, feed_view_pattern_switch]
    rfl
  · rw [feed_view_pattern_switch]
    rfl

theorem feed_view_sensor_timer (s : State) (reading : ℚ) (now : Nat) (t : TimerId) :
    feed_view (sensor_timer_callback s reading now t).1 = feed_view s := rfl

theorem feed_view_status_timer (lab : Lab) (s : State) (now_ms : Nat) :
    feed_view (status_timer_callback lab s now_ms).1 = feed_view s := by
  cases lab <;> rfl

theorem feed_view_sensor_processing (s : State) (d : sensor_data_t) :
    feed_view (sensor_processing_task s d).1 = feed_view s := by
  simp only [sensor_processing_task]
  split
  · split
    · split
      · rfl
      · split <;> rfl
    · rfl
  · rfl

theorem feed_view_system_monitor (lab : Lab) (s : State) (heap : Nat) :
    feed_view (system_monitor_task lab s heap).1 = feed_view s := by
  cases lab <;> simp only [system_monitor_task] <;> split <;> rfl

/-- A timer that expires leaves the records of the other timers alone, unless
its callback sends a request for them. -/
theorem System.fire_timers_other (sys : System) (t t2 u : TimerId)
    (callback : State → State × List Effect)
    (h : only_targets t2 (callback sys.prog).2) (hu : u ≠ t) (hu2 : u ≠ t2) :
    (sys.fire t callback).timers u = sys.timers u := by
  unfold System.fire
  split
  · simp only
    rw [Timers.requests_other _ _ u (only_targets_other h hu2)]
    split
    · rfl
    · exact Timers.set_other _ _ _ _ hu
  · rfl

theorem System.fire_feed_view (sys : System) (t : TimerId)
    (callback : State → State × List Effect)
    (h : feed_view (callback sys.prog).1 = feed_view sys.prog) :
    feed_view (sys.fire t callback).prog = feed_view sys.prog := by
  unfold System.fire
  split
  · exact h
  · rfl

/-- An event other than an expiry of the feed or recovery timer leaves both
timers and the counts of the feed callback as they are. -/
theorem System.step_frame (lab : Lab) (sys : System) (e : Event)
    (hf : e.isFeed = false) (hr : e.isRecovery = false) :
    (sys.step lab e).timers .feed_timer = sys.timers .feed_timer
    ∧ (sys.step lab e).timers .recovery = sys.timers .recovery
    ∧ feed_view (sys.step lab e).prog = feed_view sys.prog := by
  cases e with
  | feed_expired c => simp [Event.isFeed] at hf
  | recovery_expired => simp [Event.isRecovery] at hr
  | watchdog_expired =>
    exact ⟨System.fire_timers_other _ _ _ _ _ (only_targets_watchdog_timeout lab _)
        (by decide) (by decide),
      System.fire_timers_other _ _ _ _ _ (only_targets_watchdog_timeout lab _)
        (by decide) (by decide),
      System.fire_feed_view _ _ _ rfl⟩
  | pattern_expired =>
    exact ⟨System.fire_timers_other _ _ _ _ _ (only_targets_pattern_timer lab _)
        (by decide) (by decide),
      System.fire_timers_other _ _ _ _ _ (only_targets_pattern_timer lab _)
        (by decide) (by decide),
      System.fire_feed_view _ _ _ (feed_view_pattern_timer lab _ _)⟩
  | sensor_expired reading now =>
    exact ⟨System.fire_timers_other _ _ _ _ _ (only_targets_sensor_timer _ _ _ _)
        (by decide) (by decide),
      System.fire_timers_other _ _ _ _ _ (only_targets_sensor_timer _ _ _ _)
        (by decide) (by decide),
      System.fire_feed_view _ _ _ rfl⟩
  | status_expired now_ms =>
    exact ⟨System.fire_timers_other _ _ .status_timer _ _
        (only_targets_status_timer lab _ _ _) (by decide) (by decide),
      System.fire_timers_other _ _ .status_timer _ _
        (only_targets_status_timer lab _ _ _) (by decide) (by decide),
      System.fire_feed_view _ _ _ (feed_view_status_timer lab _ _)⟩
  | worker =>
    simp only [System.step]
    split
    · exact ⟨rfl, rfl, rfl⟩
    · rename_i d rest hq
      refine ⟨?_, ?_, ?_⟩
      · exact Timers.requests_other _ _ _
          (only_targets_other (only_targets_sensor_processing _ d) (by decide))
      · exact Timers.requests_other _ _ _
          (only_targets_other (only_targets_sensor_processing _ d) (by decide))
      · exact feed_view_sensor_processing _ d
  | monitor heap =>
    refine ⟨?_, ?_, ?_⟩
    · exact Timers.requests_other _ _ _
        (only_targets_other (only_targets_system_monitor lab _ heap .status_timer) (by decide))
    · exact Timers.requests_other _ _ _
        (only_targets_other (only_targets_system_monitor lab _ heap .status_timer) (by decide))
    · exact feed_view_system_monitor lab _ heap

/-! ## The hang and the recovery of the watchdog -/

theorem boot_feed_timer (lab : Lab) :
    (System.boot lab (fun _ => true)).timers .feed_timer = ⟨true, true, 2000, true⟩
    ∧ (System.boot lab (fun _ => true)).timers .recovery = ⟨false, false, 0, false⟩
    ∧ feed_view (System.boot lab (fun _ => true)).prog = (0, 0) := by
  cases lab <;> exact ⟨rfl, rfl, rfl⟩

theorem System.run_cons (lab : Lab) (sys : System) (e : Event) (es : List Event) :
    sys.run lab (e :: es) = (sys.step lab e).run lab es := rfl

theorem System.fire_dormant (sys : System) (t : TimerId)
    (callback : State → State × List Effect) (h : (sys.timers t).active = false) :
    sys.fire t callback = sys := by
  simp [System.fire, h]

theorem only_targets_feed (lab : Lab) (s : State) (created : Bool)
    (h : s.feed_count + 1 ≠ 15) :
    only_targets .watchdog_timer (feed_watchdog_callback lab s created).2 := by
  rw [feed_watchdog_callback_feed lab s created h]
  cases lab <;> simp [only_targets_cons, only_targets_nil, Effect.target]

/-- Before the 15th firing: the feed timer stays armed, no recovery timer
exists, and both counts of the feed callback equal the number of feed
firings. -/
theorem System.run_feeding (lab : Lab) (es : List Event) (sys : System) (k : Nat)
    (hfeed : sys.timers .feed_timer = ⟨true, true, 2000, true⟩)
    (hrec : sys.timers .recovery = ⟨false, false, 0, false⟩)
    (hv : feed_view sys.prog = (k, k))
    (hk : k + (es.filter Event.isFeed).length ≤ 14) :
    (sys.run lab es).timers .feed_timer = ⟨true, true, 2000, true⟩
    ∧ (sys.run lab es).timers .recovery = ⟨false, false, 0, false⟩
    ∧ feed_view (sys.run lab es).prog
        = (k + (es.filter Event.isFeed).length, k + (es.filter Event.isFeed).length) := by
  induction es generalizing sys k with
  | nil => exact ⟨hfeed, hrec, by simpa using hv⟩
  | cons e es ih =>
    rw [System.run_cons]
    cases hf : e.isFeed with
    | true =>
      have hlen : ((e :: es).filter Event.isFeed).length
          = (es.filter Event.isFeed).length + 1 := by simp [List.filter_cons, hf]
      rw [hlen] at hk ⊢
      cases e with
      | feed_expired created =>
        have hfc : sys.prog.feed_count = k := congrArg Prod.fst hv
        have hwf : sys.prog.health_stats.watchdog_feeds = k := congrArg Prod.snd hv
        have h15 : sys.prog.feed_count + 1 ≠ 15 := by omega
        have hstep : sys.step lab (.feed_expired created)
            = ⟨(feed_watchdog_callback lab sys.prog created).1,
                sys.timers.requests (feed_watchdog_callback lab sys.prog created).2⟩ := by
          simp [System.step, System.fire, hfeed]
        have hot := only_targets_feed lab sys.prog created h15
        have h1 := ih (sys.step lab (.feed_expired created)) (k + 1)
          (by rw [hstep]
              exact (Timers.requests_other _ _ _
                (only_targets_other hot (by decide))).trans hfeed)
          (by rw [hstep]
              exact (Timers.requests_other _ _ _
                (only_targets_other hot (by decide))).trans hrec)
          (by rw [hstep, feed_watchdog_callback_feed lab sys.prog created h15]
              simp only [feed_view, hfc, hwf]
              rw [Nat.mod_eq_of_lt (by omega)])
          (by omega)
        have e1 : k + 1 + (es.filter Event.isFeed).length
            = k + ((es.filter Event.isFeed).length + 1) := by omega
        rw [e1] at h1
        exact h1
      | _ => simp [Event.isFeed] at hf
    | false =>
      have hlen : ((e :: es).filter Event.isFeed).length
          = (es.filter Event.isFeed).length := by simp [List.filter_cons, hf]
      rw [hlen] at hk ⊢
      cases hr : e.isRecovery with
      | true =>
        cases e with
        | recovery_expired =>
          have hstep : sys.step lab .recovery_expired = sys :=
            System.fire_dormant sys .recovery (fun s => recovery_callback s .recovery)
              (by rw [hrec])
          rw [hstep]
          exact ih sys k hfeed hrec hv hk
        | _ => simp [Event.isRecovery] at hr
      | false =>
        obtain ⟨f1, f2, f3⟩ := System.step_frame lab sys e hf hr
        exact ih (sys.step lab e) k (f1.trans hfeed) (f2.trans hrec) (f3.trans hv) hk

/-- While hung: as long as the recovery timer has not expired, the feed timer
stays stopped, the recovery timer stays armed and the counts of the feed
callback do not move. -/
theorem System.run_hung (lab : Lab) (es : List Event) (sys : System)
    (hfeed : sys.timers .feed_timer = ⟨true, false, 2000, true⟩)
    (hrec : sys.timers .recovery = ⟨true, true, 8000, false⟩)
    (hnr : ∀ e ∈ es, e.isRecovery = false) :
    (sys.run lab es).timers .feed_timer = ⟨true, false, 2000, true⟩
    ∧ (sys.run lab es).timers .recovery = ⟨true, true, 8000, false⟩
    ∧ feed_view (sys.run lab es).prog = feed_view sys.prog := by
  induction es generalizing sys with
  | nil => exact ⟨hfeed, hrec, rfl⟩
  | cons e es ih =>
    rw [System.run_cons]
    have hr : e.isRecovery = false := hnr e (List.mem_cons_self e es)
    have hnr2 : ∀ x ∈ es, x.isRecovery = false :=
      fun x hx => hnr x (List.mem_cons_of_mem e hx)
    cases hf : e.isFeed with
    | true =>
      cases e with
      | feed_expired created =>
        have hstep : sys.step lab (.feed_expired created) = sys :=
          System.fire_dormant sys .feed_timer
            (fun s => feed_watchdog_callback lab s created) (by rw [hfeed])
        rw [hstep]
        exact ih sys hfeed hrec hnr2
      | _ => simp [Event.isFeed] at hf
    | false =>
      obtain ⟨f1, f2, f3⟩ := System.step_frame lab sys e hf hr
      obtain ⟨g1, g2, g3⟩ := ih (sys.step lab e) (f1.trans hfeed) (f2.trans hrec) hnr2
      exact ⟨g1, g2, g3.trans f3⟩

/-- C9: the watchdog state machine in both programs, from a boot in which the
five timers are created.  `es1` is any sequence of events with 14 expiries of
the feed timer, `es2` any sequence of events without an expiry of the
recovery timer.  After `es1` the feed timer is active and `watchdog_feeds` is
14.  The 15th firing requests a stop of the feed timer, creates one one-shot
timer of 8000 ms and starts it; right after it the feed timer is inactive and
the recovery timer is armed.  After `es2`, that is at every moment before the
recovery timer fires, the feed timer is still inactive and `watchdog_feeds`
still 14.  The expiry of the recovery timer makes the feed timer active again
and removes the recovery timer. -/
theorem hang_and_recovery (lab : Lab) (es1 es2 : List Event)
    (h14 : (es1.filter Event.isFeed).length = 14)
    (hnr : ∀ e ∈ es2, e.isRecovery = false) :
    ((before_hang lab es1).timers .feed_timer).active = true
    ∧ (before_hang lab es1).prog.health_stats.watchdog_feeds = 14
    ∧ (feed_watchdog_callback lab (before_hang lab es1).prog true).2
        = [.log .W .simulate_hang, .timer (.xTimerStop .feed_timer),
            .xTimerCreate .recovery 8000 false true, .timer (.xTimerStart .recovery)]
    ∧ ((hung lab es1).timers .feed_timer).active = false
    ∧ (hung lab es1).timers .recovery = ⟨true, true, 8000, false⟩
    ∧ (hung lab es1).prog.health_stats.watchdog_feeds = 14
    ∧ ((during_hang lab es1 es2).timers .feed_timer).active = false
    ∧ (during_hang lab es1 es2).prog.health_stats.watchdog_feeds = 14
    ∧ ((recovered lab es1 es2).timers .feed_timer).active = true
    ∧ ((recovered lab es1 es2).timers .recovery).created = false := by
  obtain ⟨b1, b2, b3⟩ := boot_feed_timer lab
  obtain ⟨p1, p2, p3⟩ := System.run_feeding lab es1 (System.boot lab (fun _ => true)) 0
    b1 b2 b3 (by omega)
  rw [h14] at p3
  change (before_hang lab es1).timers .feed_timer = _ at p1
  change (before_hang lab es1).timers .recovery = _ at p2
  change feed_view (before_hang lab es1).prog = _ at p3
  have hfc : (before_hang lab es1).prog.feed_count = 14 := congrArg Prod.fst p3
  have hwf : (before_hang lab es1).prog.health_stats.watchdog_feeds = 14 :=
    congrArg Prod.snd p3
  have hcb := feed_watchdog_callback_hang lab (before_hang lab es1).prog true
    (by rw [hfc])
  have hh : hung lab es1
      = ⟨(feed_watchdog_callback lab (before_hang lab es1).prog true).1,
          (before_hang lab es1).timers.requests
            (feed_watchdog_callback lab (before_hang lab es1).prog true).2⟩ := by
    simp [hung, System.step, System.fire, p1]
  have q1 : (hung lab es1).timers .feed_timer = ⟨true, false, 2000, true⟩ := by
    rw [hh, hcb]
    simp [Timers.requests, Timers.request, Timers.set, p1, p2]
  have q2 : (hung lab es1).timers .recovery = ⟨true, true, 8000, false⟩ := by
    rw [hh, hcb]
    simp [Timers.requests, Timers.request, Timers.set, p1, p2]
  have q3 : (hung lab es1).prog.health_stats.watchdog_feeds = 14 := by
    rw [hh, hcb]
    exact hwf
  obtain ⟨r1, r2, r3⟩ := System.run_hung lab es2 (hung lab es1) q1 q2 hnr
  change (during_hang lab es1 es2).timers .feed_timer = _ at r1
  change (during_hang lab es1 es2).timers .recovery = _ at r2
  change feed_view (during_hang lab es1 es2).prog = _ at r3
  have r4 : (during_hang lab es1 es2).prog.health_stats.watchdog_feeds = 14 :=
    (congrArg Prod.snd r3).trans q3
  have hrec : recovered lab es1 es2
      = ⟨(during_hang lab es1 es2).prog,
          ((during_hang lab es1 es2).timers.set .recovery ⟨true, false, 8000, false⟩).requests
            (recovery_callback (during_hang lab es1 es2).prog .recovery).2⟩ := by
    simp [recovered, System.step, System.fire, r2, recovery_callback]
  refine ⟨by rw [p1], hwf, by rw [hcb]; rfl, by rw [q1], q2, q3, by rw [r1], r4, ?_, ?_⟩
  · rw [hrec]
    simp [recovery_callback, Timers.requests, Timers.request, Timers.set, r1]
  · rw [hrec]
    simp [recovery_callback, Timers.requests, Timers.request, Timers.set, r1]

/-- Scenario 3: fourteen feeds among other events, the 15th firing, the
events of the eight seconds that follow, and the recovery. -/
theorem hang_and_recovery_scenario3 :
    (scenario3_before.filter Event.isFeed).length = 14
    ∧ (∀ e ∈ scenario3_during, e.isRecovery = false)
    ∧ ((before_hang .LEDPatternEvolution scenario3_before).timers .feed_timer).active = true
    ∧ ((hung .LEDPatternEvolution scenario3_before).timers .feed_timer).active = false
    ∧ ((during_hang .LEDPatternEvolution scenario3_before scenario3_during).timers
        .feed_timer).active = false
    ∧ ((recovered .LEDPatternEvolution scenario3_before scenario3_during).timers
        .feed_timer).active = true := by
  have h14 : (scenario3_before.filter Event.isFeed).length = 14 := by decide
  have hnr : ∀ e ∈ scenario3_during, e.isRecovery = false := by
    simp [scenario3_during, Event.isRecovery]
  have h := hang_and_recovery .LEDPatternEvolution scenario3_before scenario3_during h14 hnr
  exact ⟨h14, hnr, h.1, h.2.2.2.1, h.2.2.2.2.2.2.1, h.2.2.2.2.2.2.2.2.1⟩

/-! ## Properties of the auto-rotation -/

theorem pattern_switch_frame (lab : Lab) (s : State) (t : TimerId) :
    (pattern_switch lab s t).1.current_pattern = s.current_pattern
    ∧ (pattern_switch lab s t).1.pattern_cycle = s.pattern_cycle
    ∧ (pattern_switch lab s t).1.health_stats = s.health_stats := by
  obtain ⟨cp, ps, hs, pst, fc, pc, sp, q, sm, cn, lc⟩ := s
  cases cp <;> cases lab <;> exact ⟨rfl, rfl, rfl⟩

/-- An invocation whose cycle count is not a multiple of 50 is the `switch`
alone. -/
theorem pattern_timer_callback_plain (lab : Lab) (s : State) (t : TimerId)
    (h : incr32 s.pattern_cycle % 50 ≠ 0) :
    pattern_timer_callback lab s t
      = pattern_switch lab { s with pattern_cycle := incr32 s.pattern_cycle } t := by
  have hc := (pattern_switch_frame lab { s with pattern_cycle := incr32 s.pattern_cycle } t).2.1
  simp only [pattern_timer_callback, hc, h, if_false]

/-- An invocation whose cycle count is a multiple of 50 ends with the
transition to the next variant. -/
theorem pattern_timer_callback_rotate (lab : Lab) (s : State) (t : TimerId)
    (h : incr32 s.pattern_cycle % 50 = 0) :
    pattern_timer_callback lab s t
      = ((change_led_pattern
            (pattern_switch lab { s with pattern_cycle := incr32 s.pattern_cycle } t).1
            (led_pattern_t.ofVal ((s.current_pattern.val + 1) % PATTERN_MAX))).1,
          (pattern_switch lab { s with pattern_cycle := incr32 s.pattern_cycle } t).2
            ++ (change_led_pattern
                (pattern_switch lab { s with pattern_cycle := incr32 s.pattern_cycle } t).1
                (led_pattern_t.ofVal ((s.current_pattern.val + 1) % PATTERN_MAX))).2) := by
  obtain ⟨h1, h2, _⟩ :=
    pattern_switch_frame lab { s with pattern_cycle := incr32 s.pattern_cycle } t
  simp only [pattern_timer_callback, h1, h2, h, if_true]

theorem pattern_timer_callback_cycle (lab : Lab) (s : State) (t : TimerId) :
    (pattern_timer_callback lab s t).1.pattern_cycle = incr32 s.pattern_cycle := by
  by_cases h : incr32 s.pattern_cycle % 50 = 0
  · rw [pattern_timer_callback_rotate lab s t h]
    exact (pattern_switch_frame lab _ t).2.1
  · rw [pattern_timer_callback_plain lab s t h]
    exact (pattern_switch_frame lab _ t).2.1

theorem pattern_run_succ (lab : Lab) (t : TimerId) (n : Nat) (s : State) :
    pattern_run lab t (n + 1) s
      = ((pattern_timer_callback lab (pattern_run lab t n s).1 t).1,
          (pattern_run lab t n s).2
            ++ (pattern_timer_callback lab (pattern_run lab t n s).1 t).2) := by
  induction n generalizing s with
  | zero => simp [pattern_run]
  | succ n ih =>
    rw [pattern_run, ih]
    simp [pattern_run]

/-- The cycle counter counts the invocations, as long as it stays below
`2 ^ 32`. -/
theorem pattern_run_cycle (lab : Lab) (t : TimerId) (n : Nat) (s : State)
    (h : s.pattern_cycle + n < 2 ^ 32) :
    (pattern_run lab t n s).1.pattern_cycle = s.pattern_cycle + n := by
  induction n with
  | zero => rfl
  | succ n ih =>
    rw [pattern_run_succ, pattern_timer_callback_cycle, ih (by omega)]
    exact Nat.mod_eq_of_lt (by omega)

theorem ofVal_next_ne (p : led_pattern_t) :
    led_pattern_t.ofVal ((p.val + 1) % PATTERN_MAX) ≠ p := by
  cases p <;> decide

/-- C11: auto-rotation in both programs.  The cycle counter starts at 0 and
nothing but `pattern_timer_callback` runs; `b` is the state before invocation
number `n + 1` and `n + 1 < 2 ^ 32`.  That invocation changes the variant iff
`n + 1` is a multiple of 50.  When it does, the new variant is the one with
value `(current + 1) mod 6`, so `PATTERN_OFF` follows `PATTERN_RAINBOW`, and
the `uint32_t` counter `pattern_changes` is incremented (one greater, modulo
`2 ^ 32`).  Otherwise `current_pattern` and `pattern_changes` keep their
values. -/
theorem auto_rotation_every_fifty (lab : Lab) (t : TimerId) (s b : State) (n : Nat)
    (h0 : s.pattern_cycle = 0) (hn : n + 1 < 2 ^ 32)
    (hb : b = (pattern_run lab t n s).1) :
    ((pattern_timer_callback lab b t).1.current_pattern ≠ b.current_pattern
        ↔ (n + 1) % 50 = 0)
    ∧ ((n + 1) % 50 = 0 →
        (pattern_timer_callback lab b t).1.current_pattern
          = led_pattern_t.ofVal ((b.current_pattern.val + 1) % PATTERN_MAX)
        ∧ (b.current_pattern = .PATTERN_RAINBOW →
            (pattern_timer_callback lab b t).1.current_pattern = .PATTERN_OFF)
        ∧ (pattern_timer_callback lab b t).1.health_stats.pattern_changes
            = (b.health_stats.pattern_changes + 1) % 2 ^ 32
        ∧ (b.health_stats.pattern_changes + 1 < 2 ^ 32 →
            (pattern_timer_callback lab b t).1.health_stats.pattern_changes
              = b.health_stats.pattern_changes + 1))
    ∧ ((n + 1) % 50 ≠ 0 →
        (pattern_timer_callback lab b t).1.current_pattern = b.current_pattern
        ∧ (pattern_timer_callback lab b t).1.health_stats.pattern_changes
            = b.health_stats.pattern_changes) := by
  have hcyc : b.pattern_cycle = n := by
    rw [hb, pattern_run_cycle lab t n s (by omega), h0, Nat.zero_add]
  have hinc : incr32 b.pattern_cycle = n + 1 := by
    rw [hcyc]
    exact Nat.mod_eq_of_lt hn
  have rot : (n + 1) % 50 = 0 →
      (pattern_timer_callback lab b t).1.current_pattern
          = led_pattern_t.ofVal ((b.current_pattern.val + 1) % PATTERN_MAX)
      ∧ (pattern_timer_callback lab b t).1.health_stats.pattern_changes
          = (b.health_stats.pattern_changes + 1) % 2 ^ 32 := by
    intro h
    rw [pattern_timer_callback_rotate lab b t (by rw [hinc]; exact h)]
    refine ⟨rfl, ?_⟩
    show incr32 (pattern_switch lab _ t).1.health_stats.pattern_changes = _
    rw [(pattern_switch_frame lab _ t).2.2]
    rfl
  have plain : (n + 1) % 50 ≠ 0 →
      (pattern_timer_callback lab b t).1.current_pattern = b.current_pattern
      ∧ (pattern_timer_callback lab b t).1.health_stats.pattern_changes
          = b.health_stats.pattern_changes := by
    intro h
    rw [pattern_timer_callback_plain lab b t (by rw [hinc]; exact h)]
    obtain ⟨f1, _, f3⟩ :=
      pattern_switch_frame lab { b with pattern_cycle := incr32 b.pattern_cycle } t
    exact ⟨f1, by rw [f3]⟩
  refine ⟨?_, ?_, plain⟩
  · constructor
    · intro hne
      by_contra h
      exact hne (plain h).1
    · intro h
      rw [(rot h).1]
      exact ofVal_next_ne _
  · intro h
    refine ⟨(rot h).1, ?_, (rot h).2, fun hlt => ?_⟩
    · intro hr
      rw [(rot h).1, hr]
      rfl
    · rw [(rot h).2]
      exact Nat.mod_eq_of_lt hlt

/-- From the initial state: invocation 50 moves from OFF to SLOW_BLINK and
invocation 49 moves nothing. -/
theorem auto_rotation_every_fifty_first :
    State.init.pattern_cycle = 0
    ∧ (pattern_timer_callback .LEDPatternEvolution
        (pattern_run .LEDPatternEvolution .pattern_timer 49 State.init).1
        .pattern_timer).1.current_pattern
        ≠ (pattern_run .LEDPatternEvolution .pattern_timer 49 State.init).1.current_pattern
    ∧ (pattern_timer_callback .SensorAdaptiveSampling
        (pattern_run .SensorAdaptiveSampling .pattern_timer 48 State.init).1
        .pattern_timer).1.current_pattern
        = (pattern_run .SensorAdaptiveSampling .pattern_timer 48 State.init).1.current_pattern := by
  have h50 := auto_rotation_every_fifty .LEDPatternEvolution .pattern_timer State.init _ 49
    rfl (by norm_num) rfl
  have h49 := auto_rotation_every_fifty .SensorAdaptiveSampling .pattern_timer State.init _ 48
    rfl (by norm_num) rfl
  exact ⟨rfl, h50.1.mpr (by norm_num), (h49.2.2 (by norm_num)).1⟩

theorem transitions_append (xs ys : List Effect) :
    transitions (xs ++ ys) = transitions xs + transitions ys := by
  induction xs with
  | nil => simp [transitions]
  | cons x xs ih =>
    cases x with
    | timer c =>
      cases c with
      | xTimerReset u =>
        cases u <;> simp [transitions, ih]
        omega
      | _ => simp [transitions, ih]
    | _ => simp [transitions, ih]

theorem transitions_pattern_switch (lab : Lab) (s : State) (t : TimerId) :
    transitions (pattern_switch lab s t).2 = 0 := by
  obtain ⟨cp, ps, hs, pst, fc, pc, sp, q, sm, cn, lc⟩ := s
  cases cp <;> cases lab <;>
    simp only [pattern_switch, set_pattern_leds, transitions_append] <;>
    simp [transitions, apply_ite transitions]

theorem transitions_change_led_pattern (s : State) (p : led_pattern_t) :
    transitions (change_led_pattern s p).2 = 1 := by
  simp [change_led_pattern, transitions]

/-- The number of transitions that one invocation performs: one when the
incremented cycle counter is a multiple of 50, none otherwise. -/
theorem transitions_pattern_timer (lab : Lab) (s : State) (t : TimerId) :
    transitions (pattern_timer_callback lab s t).2
      = if incr32 s.pattern_cycle % 50 = 0 then 1 else 0 := by
  by_cases h : incr32 s.pattern_cycle % 50 = 0
  · rw [pattern_timer_callback_rotate lab s t h, transitions_append,
      transitions_pattern_switch, transitions_change_led_pattern]
    simp [h]
  · rw [pattern_timer_callback_plain lab s t h, transitions_pattern_switch]
    simp [h]

theorem change_led_pattern_cycle (s : State) (p : led_pattern_t) :
    (change_led_pattern s p).1.pattern_cycle = s.pattern_cycle := rfl

theorem change_led_pattern_current (s : State) (p : led_pattern_t) :
    (change_led_pattern s p).1.current_pattern = p := rfl

/-- Against C12: 49 invocations after the start the rotation counter stands
at 49; a transition to SOS commanded at that moment leaves it at 49, and the
very next invocation performs the auto-rotation, to RAINBOW, one invocation
after the transition instead of 50. -/
theorem rotation_counter_not_reset_at_49 :
    (pattern_run .LEDPatternEvolution .pattern_timer 49 State.init).1.pattern_cycle = 49
    ∧ (change_led_pattern (pattern_run .LEDPatternEvolution .pattern_timer 49 State.init).1
        .PATTERN_SOS).1.pattern_cycle = 49
    ∧ transitions (pattern_timer_callback .LEDPatternEvolution
        (change_led_pattern (pattern_run .LEDPatternEvolution .pattern_timer 49 State.init).1
          .PATTERN_SOS).1 .pattern_timer).2 = 1
    ∧ (pattern_timer_callback .LEDPatternEvolution
        (change_led_pattern (pattern_run .LEDPatternEvolution .pattern_timer 49 State.init).1
          .PATTERN_SOS).1 .pattern_timer).1.current_pattern = .PATTERN_RAINBOW := by
  have h49 : (pattern_run .LEDPatternEvolution .pattern_timer 49 State.init).1.pattern_cycle
      = 49 := by
    rw [pattern_run_cycle _ _ 49 State.init (by norm_num [State.init])]
    rfl
  have hc : (change_led_pattern
      (pattern_run .LEDPatternEvolution .pattern_timer 49 State.init).1
      .PATTERN_SOS).1.pattern_cycle = 49 := by
    rw [change_led_pattern_cycle]
    exact h49
  have hrot : incr32 (change_led_pattern
      (pattern_run .LEDPatternEvolution .pattern_timer 49 State.init).1
      .PATTERN_SOS).1.pattern_cycle % 50 = 0 := by
    rw [hc]
    norm_num [incr32]
  refine ⟨h49, hc, ?_, ?_⟩
  · rw [transitions_pattern_timer, if_pos hrot]
  · rw [pattern_timer_callback_rotate _ _ _ hrot, change_led_pattern_current,
      change_led_pattern_current]
    rfl

/-- C12, amended: `change_led_pattern` leaves the rotation counter
`pattern_cycle` as it is.  With the counter at `s.pattern_cycle` when the
transition is made, and staying below `2 ^ 32`, invocation number `j + 1`
after the transition performs the auto-rotation iff
`s.pattern_cycle + j + 1` is a multiple of 50; after a transition made with
the counter at a multiple of 50, as the auto-rotation does, that is iff
`j + 1` is a multiple of 50. -/
theorem rotation_counter_survives_change (lab : Lab) (t : TimerId) (s c : State)
    (p : led_pattern_t) (j : Nat)
    (hc : c = (change_led_pattern s p).1) (hj : s.pattern_cycle + j + 1 < 2 ^ 32) :
    c.pattern_cycle = s.pattern_cycle
    ∧ transitions (pattern_timer_callback lab (pattern_run lab t j c).1 t).2
        = (if (s.pattern_cycle + j + 1) % 50 = 0 then 1 else 0)
    ∧ (s.pattern_cycle % 50 = 0 →
        transitions (pattern_timer_callback lab (pattern_run lab t j c).1 t).2
          = (if (j + 1) % 50 = 0 then 1 else 0)) := by
  have h1 : c.pattern_cycle = s.pattern_cycle := by rw [hc, change_led_pattern_cycle]
  have h2 : (pattern_run lab t j c).1.pattern_cycle = s.pattern_cycle + j := by
    rw [pattern_run_cycle lab t j c (by rw [h1]; omega), h1]
  have h3 : incr32 (pattern_run lab t j c).1.pattern_cycle = s.pattern_cycle + j + 1 := by
    rw [h2]
    exact Nat.mod_eq_of_lt hj
  have h4 : transitions (pattern_timer_callback lab (pattern_run lab t j c).1 t).2
      = (if (s.pattern_cycle + j + 1) % 50 = 0 then 1 else 0) := by
    rw [transitions_pattern_timer, h3]
  refine ⟨h1, h4, fun h50 => ?_⟩
  rw [h4]
  have e : (s.pattern_cycle + j + 1) % 50 = (j + 1) % 50 := by omega
  rw [e]

/-- After a transition commanded with the counter at 30, the rotation comes
with invocation 20. -/
theorem rotation_counter_survives_change_at_30 :
    ({ State.init with pattern_cycle := 30 } : State).pattern_cycle + 19 + 1 < 2 ^ 32
    ∧ transitions (pattern_timer_callback .SensorAdaptiveSampling
        (pattern_run .SensorAdaptiveSampling .pattern_timer 19
          (change_led_pattern { State.init with pattern_cycle := 30 }
            .PATTERN_FAST_BLINK).1).1 .pattern_timer).2 = 1 := by
  have h := rotation_counter_survives_change .SensorAdaptiveSampling .pattern_timer
    { State.init with pattern_cycle := 30 } _ .PATTERN_FAST_BLINK 19 rfl
    (by norm_num [State.init])
  exact ⟨by norm_num [State.init], h.2.1⟩

/-! ## What a transition carries over -/

theorem change_led_pattern_out (s : State) (p : led_pattern_t) :
    (change_led_pattern s p).2
      = [.log .I (.pattern_change s.current_pattern p),
          .timer (.xTimerReset .pattern_timer)] := rfl

theorem pattern_view_change (s1 s2 : State) (v : led_pattern_t)
    (h : s1.pattern_cycle = s2.pattern_cycle) :
    pattern_view (change_led_pattern s1 v).1 = pattern_view (change_led_pattern s2 v).1 := by
  simp only [pattern_view, change_led_pattern, h]

/-- The `switch` on two states that agree on the view and are not in SOS:
same calls, and the results agree on the view. -/
theorem pattern_switch_view (lab : Lab) (t : TimerId) (s1 s2 : State)
    (hv : pattern_view s1 = pattern_view s2) (hn : s1.current_pattern ≠ .PATTERN_SOS) :
    (pattern_switch lab s1 t).2 = (pattern_switch lab s2 t).2
    ∧ pattern_view (pattern_switch lab s1 t).1 = pattern_view (pattern_switch lab s2 t).1 := by
  obtain ⟨cp1, ps1, hs1, ⟨st1, d1, i1, b1⟩, fc1, pc1, sp1, q1, sm1, cn1, lc1⟩ := s1
  obtain ⟨cp2, ps2, hs2, ⟨st2, d2, i2, b2⟩, fc2, pc2, sp2, q2, sm2, cn2, lc2⟩ := s2
  simp only [pattern_view, Prod.mk.injEq] at hv
  obtain ⟨rfl, rfl, rfl, rfl, rfl⟩ := hv
  cases cp1 <;> cases lab <;> first | exact ⟨rfl, rfl⟩ | exact absurd rfl hn

/-- One invocation on two states that agree on the view and are not in SOS:
same calls, and the results agree on the view. -/
theorem pattern_timer_callback_view (lab : Lab) (t : TimerId) (s1 s2 : State)
    (hv : pattern_view s1 = pattern_view s2) (hn : s1.current_pattern ≠ .PATTERN_SOS) :
    (pattern_timer_callback lab s1 t).2 = (pattern_timer_callback lab s2 t).2
    ∧ pattern_view (pattern_timer_callback lab s1 t).1
        = pattern_view (pattern_timer_callback lab s2 t).1 := by
  have hcp : s1.current_pattern = s2.current_pattern := congrArg Prod.fst hv
  have hcy : s1.pattern_cycle = s2.pattern_cycle :=
    congrArg (fun x => x.2.2.2.2) hv
  have hv2 : pattern_view { s1 with pattern_cycle := incr32 s1.pattern_cycle }
      = pattern_view { s2 with pattern_cycle := incr32 s2.pattern_cycle } := by
    simp only [pattern_view, Prod.mk.injEq] at hv ⊢
    obtain ⟨e1, e2, e3, e4, e5⟩ := hv
    exact ⟨e1, e2, e3, e4, by rw [e5]⟩
  obtain ⟨o, w⟩ := pattern_switch_view lab t
    { s1 with pattern_cycle := incr32 s1.pattern_cycle }
    { s2 with pattern_cycle := incr32 s2.pattern_cycle } hv2 hn
  by_cases h : incr32 s1.pattern_cycle % 50 = 0
  · have h2 : incr32 s2.pattern_cycle % 50 = 0 := by rw [← hcy]; exact h
    rw [pattern_timer_callback_rotate lab s1 t h, pattern_timer_callback_rotate lab s2 t h2]
    have hcy2 : (pattern_switch lab { s1 with pattern_cycle := incr32 s1.pattern_cycle }
        t).1.pattern_cycle
        = (pattern_switch lab { s2 with pattern_cycle := incr32 s2.pattern_cycle }
        t).1.pattern_cycle := congrArg (fun x => x.2.2.2.2) w
    refine ⟨?_, ?_⟩
    · rw [o, change_led_pattern_out, change_led_pattern_out,
        (pattern_switch_frame lab _ t).1, (pattern_switch_frame lab _ t).1]
      simp only [hcp]
    · rw [show led_pattern_t.ofVal ((s1.current_pattern.val + 1) % PATTERN_MAX)
          = led_pattern_t.ofVal ((s2.current_pattern.val + 1) % PATTERN_MAX) from by rw [hcp]]
      exact pattern_view_change _ _ _ hcy2
  · have h2 : incr32 s2.pattern_cycle % 50 ≠ 0 := by rw [← hcy]; exact h
    rw [pattern_timer_callback_plain lab s1 t h, pattern_timer_callback_plain lab s2 t h2]
    exact ⟨o, w⟩

/-- Against C13, two pairs of histories.  After `change_led_pattern` to
FAST_BLINK the first invocation performs no transition when the engine has
just started and performs the auto-rotation when 49 invocations came before.
After `change_led_pattern` to SOS the first invocation renders a dot of 200 ms
when the engine has just started, and a dash of 600 ms, from position 3, when
three symbols of SOS were rendered before. -/
theorem rendering_depends_on_history :
    transitions (pattern_timer_callback .LEDPatternEvolution
        (change_led_pattern State.init .PATTERN_FAST_BLINK).1 .pattern_timer).2 = 0
    ∧ transitions (pattern_timer_callback .LEDPatternEvolution
        (change_led_pattern (history_49 .LEDPatternEvolution) .PATTERN_FAST_BLINK).1
        .pattern_timer).2 = 1
    ∧ delays (pattern_timer_callback .LEDPatternEvolution
        (change_led_pattern State.init .PATTERN_SOS).1 .pattern_timer).2 = [200]
    ∧ (change_led_pattern (history_three_dots .LEDPatternEvolution) .PATTERN_SOS).1.sos_pos = 3
    ∧ delays (pattern_timer_callback .LEDPatternEvolution
        (change_led_pattern (history_three_dots .LEDPatternEvolution) .PATTERN_SOS).1
        .pattern_timer).2 = [600] := by
  have h49 : (history_49 .LEDPatternEvolution).pattern_cycle = 49 := by
    unfold history_49
    rw [pattern_run_cycle _ _ 49 State.init (by norm_num [State.init])]
    rfl
  refine ⟨by decide, ?_, by decide, by decide, by decide⟩
  rw [transitions_pattern_timer, change_led_pattern_cycle, h49]
  decide

/-- C13, amended: two histories `s1` and `s2` with the same value of the
rotation counter, which `change_led_pattern` does not reset.  After
`change_led_pattern` to `v`, and for as many invocations `n` as the engine
stays out of the SOS variant, `pattern_timer_callback` makes the same calls
in both, and the variant, both step counters, the toggle and the rotation
counter are updated alike. -/
theorem rendering_after_change (lab : Lab) (t : TimerId) (s1 s2 : State)
    (v : led_pattern_t) (n : Nat) (hcyc : s1.pattern_cycle = s2.pattern_cycle)
    (hnos : ∀ k < n,
      (pattern_run lab t k (change_led_pattern s1 v).1).1.current_pattern ≠ .PATTERN_SOS) :
    (pattern_run lab t n (change_led_pattern s1 v).1).2
        = (pattern_run lab t n (change_led_pattern s2 v).1).2
    ∧ pattern_view (pattern_run lab t n (change_led_pattern s1 v).1).1
        = pattern_view (pattern_run lab t n (change_led_pattern s2 v).1).1 := by
  induction n with
  | zero => exact ⟨rfl, pattern_view_change s1 s2 v hcyc⟩
  | succ n ih =>
    obtain ⟨io, iv⟩ := ih (fun k hk => hnos k (Nat.lt_succ_of_lt hk))
    obtain ⟨so, sv⟩ := pattern_timer_callback_view lab t _ _ iv (hnos n (Nat.lt_succ_self n))
    rw [pattern_run_succ, pattern_run_succ]
    exact ⟨by rw [io, so], sv⟩

/-- Two histories with the rotation counter at 3, one of them with three
symbols of SOS rendered: after a change to HEARTBEAT the next five
invocations make the same calls. -/
theorem rendering_after_change_heartbeat :
    (history_three_dots .LEDPatternEvolution).pattern_cycle
        = (pattern_run .LEDPatternEvolution .pattern_timer 3 State.init).1.pattern_cycle
    ∧ (pattern_run .LEDPatternEvolution .pattern_timer 5
        (change_led_pattern (history_three_dots .LEDPatternEvolution) .PATTERN_HEARTBEAT).1).2
        = (pattern_run .LEDPatternEvolution .pattern_timer 5
            (change_led_pattern (pattern_run .LEDPatternEvolution .pattern_timer 3
              State.init).1 .PATTERN_HEARTBEAT).1).2 := by
  have hc : (history_three_dots .LEDPatternEvolution).pattern_cycle
      = (pattern_run .LEDPatternEvolution .pattern_timer 3 State.init).1.pattern_cycle := by
    decide
  have h := rendering_after_change .LEDPatternEvolution .pattern_timer
    (history_three_dots .LEDPatternEvolution)
    (pattern_run .LEDPatternEvolution .pattern_timer 3 State.init).1 .PATTERN_HEARTBEAT 5 hc
    (by decide)
  exact ⟨hc, h.1⟩

/-! ## What each variant renders -/

theorem pin_writes_append (xs ys : List Effect) :
    pin_writes (xs ++ ys) = pin_writes xs ++ pin_writes ys := by
  induction xs with
  | nil => rfl
  | cons x xs ih => cases x <;> simp [pin_writes, ih]

theorem delays_append (xs ys : List Effect) :
    delays (xs ++ ys) = delays xs ++ delays ys := by
  induction xs with
  | nil => rfl
  | cons x xs ih => cases x <;> simp [delays, ih]

/-- The periods that an invocation requests are those of its `switch`: the
transition that may follow requests none. -/
theorem requested_periods_pattern_timer (lab : Lab) (s : State) (t : TimerId) :
    requested_periods (pattern_timer_callback lab s t).2
      = requested_periods
          (pattern_switch lab { s with pattern_cycle := incr32 s.pattern_cycle } t).2 := by
  by_cases h : incr32 s.pattern_cycle % 50 = 0
  · rw [pattern_timer_callback_rotate lab s t h, requested_periods_append,
      change_led_pattern_out]
    simp [requested_periods]
  · rw [pattern_timer_callback_plain lab s t h]

/-- The pins that an invocation writes are those of its `switch`. -/
theorem pin_writes_pattern_timer (lab : Lab) (s : State) (t : TimerId) :
    pin_writes (pattern_timer_callback lab s t).2
      = pin_writes
          (pattern_switch lab { s with pattern_cycle := incr32 s.pattern_cycle } t).2 := by
  by_cases h : incr32 s.pattern_cycle % 50 = 0
  · rw [pattern_timer_callback_rotate lab s t h, pin_writes_append, change_led_pattern_out]
    simp [pin_writes]
  · rw [pattern_timer_callback_plain lab s t h]

/-- C14: in both programs and for every state, an invocation of
`pattern_timer_callback` in the variant OFF, SLOW_BLINK, FAST_BLINK,
HEARTBEAT or RAINBOW requests exactly one period, for its own timer: 1000,
1000, 200, 100 and 300 ms.  OFF writes `false` to the three outputs.
SLOW_BLINK writes the inverted toggle to output 1 and `false` to outputs 2
and 3, FAST_BLINK the inverted toggle to output 2 and `false` to outputs 1
and 3; the toggle flag is left inverted, unless the invocation ends with the
auto-rotation, whose transition clears it. -/
theorem pattern_periods_and_blinks (lab : Lab) (s : State) (t : TimerId) :
    (s.current_pattern = .PATTERN_OFF →
      requested_periods (pattern_timer_callback lab s t).2 = [(t, 1000)]
      ∧ pin_writes (pattern_timer_callback lab s t).2
          = [(.PATTERN_LED_1, false), (.PATTERN_LED_2, false), (.PATTERN_LED_3, false)])
    ∧ (s.current_pattern = .PATTERN_SLOW_BLINK →
      requested_periods (pattern_timer_callback lab s t).2 = [(t, 1000)]
      ∧ pin_writes (pattern_timer_callback lab s t).2
          = [(.PATTERN_LED_1, !s.pattern_state.state), (.PATTERN_LED_2, false),
              (.PATTERN_LED_3, false)]
      ∧ (incr32 s.pattern_cycle % 50 ≠ 0 →
          (pattern_timer_callback lab s t).1.pattern_state.state = !s.pattern_state.state))
    ∧ (s.current_pattern = .PATTERN_FAST_BLINK →
      requested_periods (pattern_timer_callback lab s t).2 = [(t, 200)]
      ∧ pin_writes (pattern_timer_callback lab s t).2
          = [(.PATTERN_LED_1, false), (.PATTERN_LED_2, !s.pattern_state.state),
              (.PATTERN_LED_3, false)]
      ∧ (incr32 s.pattern_cycle % 50 ≠ 0 →
          (pattern_timer_callback lab s t).1.pattern_state.state = !s.pattern_state.state))
    ∧ (s.current_pattern = .PATTERN_HEARTBEAT →
      requested_periods (pattern_timer_callback lab s t).2 = [(t, 100)])
    ∧ (s.current_pattern = .PATTERN_RAINBOW →
      requested_periods (pattern_timer_callback lab s t).2 = [(t, 300)]) := by
  obtain ⟨cp, ps, hs, pst, fc, pc, sp, q, sm, cn, lc⟩ := s
  refine ⟨?_, ?_, ?_, ?_, ?_⟩
  · intro h
    simp only at h
    subst h
    rw [requested_periods_pattern_timer, pin_writes_pattern_timer]
    cases lab <;> exact ⟨rfl, rfl⟩
  · intro h
    simp only at h
    subst h
    rw [requested_periods_pattern_timer, pin_writes_pattern_timer]
    refine ⟨by cases lab <;> rfl, by cases lab <;> rfl, fun hr => ?_⟩
    rw [pattern_timer_callback_plain lab _ t hr]
    cases lab <;> rfl
  · intro h
    simp only at h
    subst h
    rw [requested_periods_pattern_timer, pin_writes_pattern_timer]
    refine ⟨by cases lab <;> rfl, by cases lab <;> rfl, fun hr => ?_⟩
    rw [pattern_timer_callback_plain lab _ t hr]
    cases lab <;> rfl
  · intro h
    simp only at h
    subst h
    rw [requested_periods_pattern_timer]
    cases lab <;>
      simp [pattern_switch, set_pattern_leds, requested_periods, requested_periods_append,
        apply_ite requested_periods]
  · intro h
    simp only at h
    subst h
    rw [requested_periods_pattern_timer]
    cases lab <;>
      simp [pattern_switch, set_pattern_leds, requested_periods, requested_periods_append,
        apply_ite requested_periods]

/-- Against C15: in LEDPatternEvolution an invocation in the SOS variant
requests `PATTERN_BASE_MS`, 500 ms, not 200 ms. -/
theorem sos_period_led_pattern_evolution :
    requested_periods (pattern_timer_callback .LEDPatternEvolution
        (change_led_pattern State.init .PATTERN_SOS).1 .pattern_timer).2
      = [(.pattern_timer, 500)] := by
  decide

/-- C15, amended: on every invocation in the SOS variant
`pattern_timer_callback` requests exactly one period, for its own timer:
200 ms in SensorAdaptiveSampling and `PATTERN_BASE_MS`, 500 ms, in
LEDPatternEvolution. -/
theorem sos_period (lab : Lab) (s : State) (t : TimerId)
    (h : s.current_pattern = .PATTERN_SOS) :
    requested_periods (pattern_timer_callback lab s t).2
      = [(t, match lab with
            | .LEDPatternEvolution => 500
            | .SensorAdaptiveSampling => 200)] := by
  obtain ⟨cp, ps, hs, pst, fc, pc, sp, q, sm, cn, lc⟩ := s
  simp only at h
  subst h
  rw [requested_periods_pattern_timer]
  cases lab <;>
    simp [pattern_switch, set_pattern_leds, requested_periods, requested_periods_append,
      apply_ite requested_periods, PATTERN_BASE_MS]

/-- The fourth symbol of SOS in both programs. -/
theorem sos_period_fourth_symbol :
    (history_three_dots .SensorAdaptiveSampling).current_pattern = .PATTERN_SOS
    ∧ requested_periods (pattern_timer_callback .SensorAdaptiveSampling
        (history_three_dots .SensorAdaptiveSampling) .pattern_timer).2
        = [(.pattern_timer, 200)]
    ∧ requested_periods (pattern_timer_callback .LEDPatternEvolution
        (history_three_dots .LEDPatternEvolution) .pattern_timer).2
        = [(.pattern_timer, 500)] :=
  ⟨by decide,
    sos_period .SensorAdaptiveSampling (history_three_dots .SensorAdaptiveSampling)
      .pattern_timer (by decide),
    sos_period .LEDPatternEvolution (history_three_dots .LEDPatternEvolution)
      .pattern_timer (by decide)⟩

/-! ## A feed that arrives during the hang -/

/-- Against C17: a rejected sample leaves the whole state of the program as
it is, so that no counter kept in the state is one greater afterwards. -/
theorem invalid_sample_counted_nowhere :
    (sample_of (-3, 2)).valid = false
    ∧ (sensor_processing_task State.init (sample_of (-3, 2))).1 = State.init
    ∧ ¬ ∃ counter : State → Nat,
        counter (sensor_processing_task State.init (sample_of (-3, 2))).1
          = counter State.init + 1 := by
  have hv : (sample_of (-3, 2)).valid = false := by norm_num [sample_of]
  have hs : (sensor_processing_task State.init (sample_of (-3, 2))).1 = State.init := by
    rw [sensor_processing_task_invalid _ _ hv]
  refine ⟨hv, hs, ?_⟩
  rintro ⟨counter, hc⟩
  rw [hs] at hc
  omega

/-- C17, amended: when the averaging worker receives an invalid sample it
logs one warning with the value and changes nothing: the whole state, hence
the running sum and the window count, is as before, and no counter of
invalid readings exists. -/
theorem invalid_sample_only_logged (s : State) (d : sensor_data_t) (h : d.valid = false) :
    (sensor_processing_task s d).1 = s
    ∧ (sensor_processing_task s d).2 = [.log .W (.invalid_reading d.value)]
    ∧ (sensor_processing_task s d).1.sum = s.sum
    ∧ (sensor_processing_task s d).1.cnt = s.cnt := by
  rw [sensor_processing_task_invalid s d h]
  exact ⟨rfl, rfl, rfl, rfl⟩

/-- A reading of 51 in the middle of a window. -/
theorem invalid_sample_only_logged_51 :
    (sample_of (51, 7)).valid = false
    ∧ (sensor_processing_task (sensor_processing_loop State.init scenario1_head).1
        (sample_of (51, 7))).1
        = (sensor_processing_loop State.init scenario1_head).1 := by
  have hv : (sample_of (51, 7)).valid = false := by norm_num [sample_of]
  exact ⟨hv, (invalid_sample_only_logged _ _ hv).1⟩

/-! ## Validity of a sample, and the health aggregator -/

theorem sent_items_append (xs ys : List Effect) :
    sent_items (xs ++ ys) = sent_items xs ++ sent_items ys := by
  induction xs with
  | nil => rfl
  | cons x xs ih => cases x <;> simp [sent_items, ih]

/-- C18: for every state, reading and tick count, `sensor_timer_callback`
pushes exactly one sample, which carries the reading and the tick count and
is marked valid iff `0 ≤ value ≤ 50`.  It increments the `uint32_t` counter
`sensor_readings` (one greater, modulo `2 ^ 32`) on every firing: for a valid
and for a rejected reading, with room in the channel and without. -/
theorem sample_validity_and_count (s : State) (v : ℚ) (now : Nat) (t : TimerId) :
    (∃ d : sensor_data_t, sent_items (sensor_timer_callback s v now t).2 = [d]
        ∧ d.value = v ∧ d.timestamp = now ∧ (d.valid = true ↔ 0 ≤ v ∧ v ≤ 50))
    ∧ (sensor_timer_callback s v now t).1.health_stats.sensor_readings
        = (s.health_stats.sensor_readings + 1) % 2 ^ 32
    ∧ (s.health_stats.sensor_readings + 1 < 2 ^ 32 →
        (sensor_timer_callback s v now t).1.health_stats.sensor_readings
          = s.health_stats.sensor_readings + 1) := by
  have hv : (sample_of (v, now)).valid = true ↔ 0 ≤ v ∧ v ≤ 50 := by
    simp [sample_of]
  refine ⟨⟨sample_of (v, now), ?_, rfl, rfl, hv⟩, rfl, fun h => ?_⟩
  · by_cases hq : s.sensor_queue.length < sensor_queue_length
    · rw [sensor_timer_callback_room s (v, now) t hq]
      rfl
    · rw [sensor_timer_callback_full s (v, now) t hq]
      rfl
  · show (s.health_stats.sensor_readings + 1) % 2 ^ 32 = _
    exact Nat.mod_eq_of_lt h

/-- C19: one iteration of `system_monitor_task`, in both programs and for
every state and heap size: with `watchdog_timeouts > 5` it ends with
`system_healthy` false, with `watchdog_timeouts ≤ 5` it leaves
`system_healthy` as it is, and it never turns `system_healthy` from false to
true. -/
theorem monitor_marks_unhealthy (lab : Lab) (s : State) (heap : Nat) :
    (s.health_stats.watchdog_timeouts > 5 →
      (system_monitor_task lab s heap).1.health_stats.system_healthy = false)
    ∧ (s.health_stats.watchdog_timeouts ≤ 5 →
      (system_monitor_task lab s heap).1.health_stats.system_healthy
        = s.health_stats.system_healthy)
    ∧ ((system_monitor_task lab s heap).1.health_stats.system_healthy = true →
      s.health_stats.system_healthy = true)
    ∧ (s.health_stats.watchdog_timeouts = 5 →
      (system_monitor_task lab s heap).1.health_stats.system_healthy
        = s.health_stats.system_healthy)
    ∧ (s.health_stats.watchdog_timeouts = 6 →
      (system_monitor_task lab s heap).1.health_stats.system_healthy = false) := by
  have hi : s.health_stats.watchdog_timeouts > 5 →
      (system_monitor_task lab s heap).1.health_stats.system_healthy = false := by
    intro h
    cases lab <;> simp [system_monitor_task, h]
  have lo : s.health_stats.watchdog_timeouts ≤ 5 →
      (system_monitor_task lab s heap).1.health_stats.system_healthy
        = s.health_stats.system_healthy := by
    intro h
    have h' : ¬ s.health_stats.watchdog_timeouts > 5 := by omega
    cases lab <;> simp [system_monitor_task, h']
  refine ⟨hi, lo, ?_, fun h => lo (by omega), fun h => hi (by omega)⟩
  intro h
  by_cases c : s.health_stats.watchdog_timeouts > 5
  · rw [hi c] at h
    exact absurd h (by decide)
  · rw [lo (by omega)] at h
    exact h

/-- C20: `status_timer_callback` changes `system_uptime_sec` and nothing
else; one iteration of `system_monitor_task` changes at most
`system_healthy` and its own local `last_sensor_count`.  So both leave
`watchdog_feeds`, `watchdog_timeouts`, `pattern_changes`, `sensor_readings`,
`current_pattern`, `pattern_step` and `pattern_state` as they are, and
neither sends a request to the timer service; in both programs. -/
theorem aggregator_frame (lab : Lab) (s : State) (now_ms heap : Nat) :
    (status_timer_callback lab s now_ms).1
        = { s with health_stats := { s.health_stats with
              system_uptime_sec := (now_ms / 1000) % 2 ^ 32 } }
    ∧ (∀ e ∈ (status_timer_callback lab s now_ms).2, e.target = Option.none)
    ∧ (system_monitor_task lab s heap).1
        = { s with health_stats := { s.health_stats with
              system_healthy := (system_monitor_task lab s heap).1.health_stats.system_healthy },
                   last_sensor_count := (system_monitor_task lab s heap).1.last_sensor_count }
    ∧ (∀ e ∈ (system_monitor_task lab s heap).2, e.target = Option.none)
    ∧ ((status_timer_callback lab s now_ms).1.health_stats.watchdog_feeds
          = s.health_stats.watchdog_feeds
        ∧ (status_timer_callback lab s now_ms).1.health_stats.watchdog_timeouts
          = s.health_stats.watchdog_timeouts
        ∧ (status_timer_callback lab s now_ms).1.health_stats.pattern_changes
          = s.health_stats.pattern_changes
        ∧ (status_timer_callback lab s now_ms).1.health_stats.sensor_readings
          = s.health_stats.sensor_readings
        ∧ (status_timer_callback lab s now_ms).1.health_stats.system_healthy
          = s.health_stats.system_healthy
        ∧ (status_timer_callback lab s now_ms).1.current_pattern = s.current_pattern
        ∧ (status_timer_callback lab s now_ms).1.pattern_step = s.pattern_step
        ∧ (status_timer_callback lab s now_ms).1.pattern_state = s.pattern_state)
    ∧ ((system_monitor_task lab s heap).1.health_stats.watchdog_feeds
          = s.health_stats.watchdog_feeds
        ∧ (system_monitor_task lab s heap).1.health_stats.watchdog_timeouts
          = s.health_stats.watchdog_timeouts
        ∧ (system_monitor_task lab s heap).1.health_stats.pattern_changes
          = s.health_stats.pattern_changes
        ∧ (system_monitor_task lab s heap).1.health_stats.sensor_readings
          = s.health_stats.sensor_readings
        ∧ (system_monitor_task lab s heap).1.health_stats.system_uptime_sec
          = s.health_stats.system_uptime_sec
        ∧ (system_monitor_task lab s heap).1.current_pattern = s.current_pattern
        ∧ (system_monitor_task lab s heap).1.pattern_step = s.pattern_step
        ∧ (system_monitor_task lab s heap).1.pattern_state = s.pattern_state) := by
  have hno : ∀ (out : List Effect) (u : TimerId), only_targets u out →
      (∀ v : TimerId, only_targets v out) → ∀ e ∈ out, e.target = Option.none := by
    intro out u _ hall e he
    rcases hall .recovery e he with h | h
    · exact h
    · rcases hall .status_timer e he with h2 | h2
      · exact h2
      · rw [h] at h2
        exact absurd h2 (by decide)
  have hst : (status_timer_callback lab s now_ms).1
      = { s with health_stats := { s.health_stats with
            system_uptime_sec := (now_ms / 1000) % 2 ^ 32 } } := by
    cases lab <;> rfl
  have hmo : (system_monitor_task lab s heap).1
      = { s with health_stats := { s.health_stats with
            system_healthy := (system_monitor_task lab s heap).1.health_stats.system_healthy },
                 last_sensor_count := (system_monitor_task lab s heap).1.last_sensor_count } := by
    cases lab <;> simp only [system_monitor_task] <;> split <;> rfl
  refine ⟨hst, hno _ .status_timer (only_targets_status_timer lab s now_ms _)
      (fun v => only_targets_status_timer lab s now_ms v), hmo,
    hno _ .status_timer (only_targets_system_monitor lab s heap _)
      (fun v => only_targets_system_monitor lab s heap v), ?_, ?_⟩
  · rw [hst]
    exact ⟨rfl, rfl, rfl, rfl, rfl, rfl, rfl, rfl⟩
  · rw [hmo]
    exact ⟨rfl, rfl, rfl, rfl, rfl, rfl, rfl, rfl⟩

/-! ## The health counters under all operations -/

theorem change_led_pattern_health (s : State) (p : led_pattern_t) :
    (change_led_pattern s p).1.health_stats
      = { s.health_stats with
          pattern_changes := (s.health_stats.pattern_changes + 1) % 2 ^ 32 } := rfl

theorem health_stats_pattern_timer (lab : Lab) (s : State) (t : TimerId) :
    (pattern_timer_callback lab s t).1.health_stats = s.health_stats
    ∨ (pattern_timer_callback lab s t).1.health_stats
        = { s.health_stats with
            pattern_changes := (s.health_stats.pattern_changes + 1) % 2 ^ 32 } := by
  by_cases h : incr32 s.pattern_cycle % 50 = 0
  · right
    rw [pattern_timer_callback_rotate lab s t h]
    show (change_led_pattern _ _).1.health_stats = _
    rw [change_led_pattern_health, (pattern_switch_frame lab _ t).2.2]
  · left
    rw [pattern_timer_callback_plain lab s t h]
    exact (pattern_switch_frame lab _ t).2.2

theorem health_stats_sensor_processing (s : State) (d : sensor_data_t) :
    (sensor_processing_task s d).1.health_stats = s.health_stats
    ∨ (sensor_processing_task s d).1.health_stats
        = { s.health_stats with
            pattern_changes := (s.health_stats.pattern_changes + 1) % 2 ^ 32 } := by
  simp only [sensor_processing_task]
  split
  · split
    · split
      · exact Or.inr rfl
      · split
        · exact Or.inr rfl
        · exact Or.inl rfl
    · exact Or.inl rfl
  · exact Or.inl rfl

theorem health_stats_feed (lab : Lab) (s : State) (created : Bool) :
    (feed_watchdog_callback lab s created).1.health_stats = s.health_stats
    ∨ (feed_watchdog_callback lab s created).1.health_stats
        = { s.health_stats with
            watchdog_feeds := (s.health_stats.watchdog_feeds + 1) % 2 ^ 32 } := by
  by_cases h : s.feed_count + 1 = 15
  · rw [feed_watchdog_callback_hang lab s created h]
    exact Or.inl rfl
  · rw [feed_watchdog_callback_feed lab s created h]
    exact Or.inr rfl

theorem health_stats_system_monitor (lab : Lab) (s : State) (heap : Nat) :
    (system_monitor_task lab s heap).1.health_stats = s.health_stats
    ∨ (system_monitor_task lab s heap).1.health_stats
        = { s.health_stats with system_healthy := false } := by
  cases lab <;> simp only [system_monitor_task] <;> split
  · exact Or.inr rfl
  · exact Or.inl rfl
  · exact Or.inr rfl
  · exact Or.inl rfl

/-- What an operation does to `health_stats`: nothing, or one of seven
writes. -/
theorem health_stats_op (lab : Lab) (op : Op) (s : State) :
    (op.run lab s).1.health_stats = s.health_stats
    ∨ ((∃ c, op = .feed c) ∧ (op.run lab s).1.health_stats
        = { s.health_stats with
            watchdog_feeds := (s.health_stats.watchdog_feeds + 1) % 2 ^ 32 })
    ∨ (op = .watchdog_timeout ∧ (op.run lab s).1.health_stats
        = { s.health_stats with
            watchdog_timeouts := (s.health_stats.watchdog_timeouts + 1) % 2 ^ 32,
            system_healthy := true })
    ∨ (((∃ t, op = .pattern t) ∨ (∃ p, op = .change p) ∨ (∃ d, op = .worker d))
        ∧ (op.run lab s).1.health_stats
        = { s.health_stats with
            pattern_changes := (s.health_stats.pattern_changes + 1) % 2 ^ 32 })
    ∨ ((∃ r n t, op = .sampler r n t) ∧ (op.run lab s).1.health_stats
        = { s.health_stats with
            sensor_readings := (s.health_stats.sensor_readings + 1) % 2 ^ 32 })
    ∨ ((∃ n, op = .status n) ∧ ∃ u, (op.run lab s).1.health_stats
        = { s.health_stats with system_uptime_sec := u })
    ∨ ((∃ h, op = .monitor h) ∧ (op.run lab s).1.health_stats
        = { s.health_stats with system_healthy := false }) := by
  cases op with
  | feed c =>
    rcases health_stats_feed lab s c with h | h
    · exact Or.inl h
    · exact Or.inr (Or.inl ⟨⟨c, rfl⟩, h⟩)
  | watchdog_timeout => exact Or.inr (Or.inr (Or.inl ⟨rfl, rfl⟩))
  | recovery t => exact Or.inl rfl
  | pattern t =>
    rcases health_stats_pattern_timer lab s t with h | h
    · exact Or.inl h
    · exact Or.inr (Or.inr (Or.inr (Or.inl ⟨Or.inl ⟨t, rfl⟩, h⟩)))
  | sampler r n t =>
    exact Or.inr (Or.inr (Or.inr (Or.inr (Or.inl ⟨⟨r, n, t, rfl⟩, rfl⟩))))
  | status n =>
    refine Or.inr (Or.inr (Or.inr (Or.inr (Or.inr (Or.inl ⟨⟨n, rfl⟩, (n / 1000) % 2 ^ 32, ?_⟩)))))
    cases lab <;> rfl
  | change p =>
    exact Or.inr (Or.inr (Or.inr (Or.inl ⟨Or.inr (Or.inl ⟨p, rfl⟩), rfl⟩)))
  | worker d =>
    rcases health_stats_sensor_processing s d with h | h
    · exact Or.inl h
    · exact Or.inr (Or.inr (Or.inr (Or.inl ⟨Or.inr (Or.inr ⟨d, rfl⟩), h⟩)))
  | monitor hp =>
    rcases health_stats_system_monitor lab s hp with h | h
    · exact Or.inl h
    · exact Or.inr (Or.inr (Or.inr (Or.inr (Or.inr (Or.inr ⟨⟨hp, rfl⟩, h⟩)))))

/-- Against C21: with `watchdog_timeouts` at `2 ^ 32 - 1` the timeout callback
leaves it at 0, below its value before the step. -/
theorem counter_wraps_at_max :
    timeouts_at_max.health_stats.watchdog_timeouts = 4294967295
    ∧ (watchdog_timeout_callback .LEDPatternEvolution
        timeouts_at_max).1.health_stats.watchdog_timeouts = 0
    ∧ ¬ (timeouts_at_max.health_stats.watchdog_timeouts
        ≤ (watchdog_timeout_callback .LEDPatternEvolution
            timeouts_at_max).1.health_stats.watchdog_timeouts) := by
  decide

/-- C21, amended: after any operation (feed, watchdog-timeout, recovery,
pattern, sampler or status callback, `change_led_pattern`, one worker
iteration, one monitor iteration), in both programs, each of the 32-bit
counters `watchdog_feeds`, `watchdog_timeouts`, `pattern_changes` and
`sensor_readings` is unchanged or one greater modulo `2 ^ 32`.  It is greater
than or equal to its value before the step unless it stood at `2 ^ 32 - 1`. -/
theorem counters_never_decrease_below_max (lab : Lab) (op : Op) (s : State) :
    ((op.run lab s).1.health_stats.watchdog_feeds = s.health_stats.watchdog_feeds
      ∨ (op.run lab s).1.health_stats.watchdog_feeds
          = (s.health_stats.watchdog_feeds + 1) % 2 ^ 32)
    ∧ ((op.run lab s).1.health_stats.watchdog_timeouts = s.health_stats.watchdog_timeouts
      ∨ (op.run lab s).1.health_stats.watchdog_timeouts
          = (s.health_stats.watchdog_timeouts + 1) % 2 ^ 32)
    ∧ ((op.run lab s).1.health_stats.pattern_changes = s.health_stats.pattern_changes
      ∨ (op.run lab s).1.health_stats.pattern_changes
          = (s.health_stats.pattern_changes + 1) % 2 ^ 32)
    ∧ ((op.run lab s).1.health_stats.sensor_readings = s.health_stats.sensor_readings
      ∨ (op.run lab s).1.health_stats.sensor_readings
          = (s.health_stats.sensor_readings + 1) % 2 ^ 32)
    ∧ (s.health_stats.watchdog_feeds + 1 < 2 ^ 32 →
        s.health_stats.watchdog_feeds ≤ (op.run lab s).1.health_stats.watchdog_feeds)
    ∧ (s.health_stats.watchdog_timeouts + 1 < 2 ^ 32 →
        s.health_stats.watchdog_timeouts ≤ (op.run lab s).1.health_stats.watchdog_timeouts)
    ∧ (s.health_stats.pattern_changes + 1 < 2 ^ 32 →
        s.health_stats.pattern_changes ≤ (op.run lab s).1.health_stats.pattern_changes)
    ∧ (s.health_stats.sensor_readings + 1 < 2 ^ 32 →
        s.health_stats.sensor_readings ≤ (op.run lab s).1.health_stats.sensor_readings) := by
  have key : ∀ a b : Nat, (b = a ∨ b = (a + 1) % 2 ^ 32) → a + 1 < 2 ^ 32 → a ≤ b := by
    intro a b h hlt
    rcases h with h | h
    · omega
    · rw [h, Nat.mod_eq_of_lt hlt]
      omega
  have steps :
      ((op.run lab s).1.health_stats.watchdog_feeds = s.health_stats.watchdog_feeds
        ∨ (op.run lab s).1.health_stats.watchdog_feeds
            = (s.health_stats.watchdog_feeds + 1) % 2 ^ 32)
      ∧ ((op.run lab s).1.health_stats.watchdog_timeouts = s.health_stats.watchdog_timeouts
        ∨ (op.run lab s).1.health_stats.watchdog_timeouts
            = (s.health_stats.watchdog_timeouts + 1) % 2 ^ 32)
      ∧ ((op.run lab s).1.health_stats.pattern_changes = s.health_stats.pattern_changes
        ∨ (op.run lab s).1.health_stats.pattern_changes
            = (s.health_stats.pattern_changes + 1) % 2 ^ 32)
      ∧ ((op.run lab s).1.health_stats.sensor_readings = s.health_stats.sensor_readings
        ∨ (op.run lab s).1.health_stats.sensor_readings
            = (s.health_stats.sensor_readings + 1) % 2 ^ 32) := by
    rcases health_stats_op lab op s with h | ⟨_, h⟩ | ⟨_, h⟩ | ⟨_, h⟩ | ⟨_, h⟩ | ⟨_, u, h⟩
      | ⟨_, h⟩ <;> rw [h] <;> simp
  obtain ⟨s1, s2, s3, s4⟩ := steps
  exact ⟨s1, s2, s3, s4, key _ _ s1, key _ _ s2, key _ _ s3, key _ _ s4⟩

/-- Against C22: after six expiries of the deadline timer the monitor task,
of the health aggregator, turns `system_healthy` from true to false, and the
next expiry of the deadline timer, of the watchdog, turns it back from false
to true.  Both components modify the field. -/
theorem system_healthy_has_two_writers :
    (timeout_run .LEDPatternEvolution 6 State.init).health_stats.system_healthy = true
    ∧ (system_monitor_task .LEDPatternEvolution
        (timeout_run .LEDPatternEvolution 6 State.init) 200000).1.health_stats.system_healthy
        = false
    ∧ (watchdog_timeout_callback .LEDPatternEvolution
        (system_monitor_task .LEDPatternEvolution
          (timeout_run .LEDPatternEvolution 6 State.init) 200000).1).1.health_stats.system_healthy
        = true := by
  decide

/-- C22, amended: which operations modify which field of `health_stats`, in
both programs.  `watchdog_feeds` is modified only by the feed callback and
`watchdog_timeouts` only by the timeout callback, both of the watchdog;
`sensor_readings` only by the sampler callback; `system_uptime_sec` only by
the status callback; `pattern_changes` only by `change_led_pattern`, by
itself or inside the pattern callback and the averaging worker, whose write
is the one of `change_led_pattern`.  `system_healthy` is modified by the
timeout callback of the watchdog and by the monitor task of the aggregator,
and by no other operation. -/
theorem health_field_writers (lab : Lab) (op : Op) (s : State) :
    ((op.run lab s).1.health_stats.watchdog_feeds ≠ s.health_stats.watchdog_feeds →
      ∃ c, op = .feed c)
    ∧ ((op.run lab s).1.health_stats.watchdog_timeouts ≠ s.health_stats.watchdog_timeouts →
      op = .watchdog_timeout)
    ∧ ((op.run lab s).1.health_stats.pattern_changes ≠ s.health_stats.pattern_changes →
      ((∃ t, op = .pattern t) ∨ (∃ p, op = .change p) ∨ (∃ d, op = .worker d))
      ∧ (op.run lab s).1.health_stats
          = (change_led_pattern s .PATTERN_OFF).1.health_stats)
    ∧ ((op.run lab s).1.health_stats.sensor_readings ≠ s.health_stats.sensor_readings →
      ∃ r n t, op = .sampler r n t)
    ∧ ((op.run lab s).1.health_stats.system_uptime_sec ≠ s.health_stats.system_uptime_sec →
      ∃ n, op = .status n)
    ∧ ((op.run lab s).1.health_stats.system_healthy ≠ s.health_stats.system_healthy →
      op = .watchdog_timeout ∨ ∃ h, op = .monitor h) := by
  rcases health_stats_op lab op s with h | ⟨o, h⟩ | ⟨o, h⟩ | ⟨o, h⟩ | ⟨o, h⟩ | ⟨o, u, h⟩
    | ⟨o, h⟩ <;> rw [h]
  · simp
  · exact ⟨fun _ => o, by simp, by simp, by simp, by simp, by simp⟩
  · exact ⟨by simp, fun _ => o, by simp, by simp, by simp, fun _ => Or.inl o⟩
  · exact ⟨by simp, by simp, fun _ => ⟨o, rfl⟩, by simp, by simp, by simp⟩
  · exact ⟨by simp, by simp, by simp, fun _ => o, by simp, by simp⟩
  · exact ⟨by simp, by simp, by simp, by simp, fun _ => o, by simp⟩
  · exact ⟨by simp, by simp, by simp, by simp, by simp, fun _ => Or.inr o⟩

/-! ## Periods -/

theorem periods_of_append (xs ys : List Effect) :
    periods_of (xs ++ ys) = periods_of xs ++ periods_of ys := by
  induction xs with
  | nil => rfl
  | cons x xs ih =>
    cases x with
    | timer c => cases c <;> simp [periods_of, ih]
    | _ => simp [periods_of, ih]

theorem TimerLoad.call_periods_append (xs ys : List TimerLoad.Call) :
    TimerLoad.periods_of (xs ++ ys) = TimerLoad.periods_of xs ++ TimerLoad.periods_of ys := by
  induction xs with
  | nil => rfl
  | cons x xs ih => cases x <;> simp [TimerLoad.periods_of, ih]

theorem periods_of_watchdog_flash (n : Nat) : periods_of (watchdog_flash n) = [] := by
  induction n with
  | zero => rfl
  | succ n ih => simp [watchdog_flash, periods_of, ih]

theorem periods_of_status_lines (n : Nat) : periods_of (status_lines n) = [] := by
  induction n with
  | zero => rfl
  | succ n ih => simp [status_lines, periods_of, periods_of_append, ih]

theorem TimerLoad.periods_of_flash (pin : TimerLoad.Led) (ms n : Nat) :
    TimerLoad.periods_of (TimerLoad.flash pin ms n) = [] := by
  induction n with
  | zero => rfl
  | succ n ih => simp [TimerLoad.flash, TimerLoad.periods_of, ih]

theorem TimerLoad.periods_of_report (level : LogLevel) (msg : Nat → TimerLoad.Msg) (n : Nat) :
    TimerLoad.periods_of (TimerLoad.report level msg n) = [] := by
  induction n with
  | zero => rfl
  | succ n ih =>
    simp [TimerLoad.report, TimerLoad.periods_of, TimerLoad.call_periods_append, ih]

/-- The periods that the `switch` of the pattern callback requests. -/
theorem periods_of_pattern_switch (lab : Lab) (s : State) (t : TimerId) :
    ∀ ms ∈ periods_of (pattern_switch lab s t).2,
      ms = 1000 ∨ ms = 500 ∨ ms = 300 ∨ ms = 200 ∨ ms = 100 := by
  obtain ⟨cp, ps, hs, pst, fc, pc, sp, q, sm, cn, lc⟩ := s
  cases cp <;> cases lab <;>
    simp [pattern_switch, set_pattern_leds, periods_of, periods_of_append,
      apply_ite periods_of, PATTERN_BASE_MS]

/-- The periods that the operations of the two watchdog programs pass to the
timer service. -/
theorem periods_of_op (lab : Lab) (op : Op) (s : State) :
    ∀ ms ∈ periods_of (op.run lab s).2,
      ms = 8000 ∨ ms = 2000 ∨ ms = 1000 ∨ ms = 500 ∨ ms = 300 ∨ ms = 200 ∨ ms = 100 := by
  cases op with
  | feed c =>
    by_cases h : s.feed_count + 1 = 15
    · simp only [Op.run]
      rw [feed_watchdog_callback_hang lab s c h]
      cases c <;> simp [periods_of]
    · simp only [Op.run]
      rw [feed_watchdog_callback_feed lab s c h]
      cases lab <;> simp [periods_of]
  | watchdog_timeout =>
    cases lab <;>
      simp [Op.run, watchdog_timeout_callback, periods_of, periods_of_append,
        periods_of_watchdog_flash]
  | recovery t => simp [Op.run, recovery_callback, periods_of]
  | pattern t =>
    intro ms hms
    simp only [Op.run] at hms
    have hsw := periods_of_pattern_switch lab
      { s with pattern_cycle := incr32 s.pattern_cycle } t
    by_cases h : incr32 s.pattern_cycle % 50 = 0
    · rw [pattern_timer_callback_rotate lab s t h, periods_of_append,
        change_led_pattern_out] at hms
      simp only [periods_of, List.append_nil] at hms
      rcases hsw ms hms with h1 | h1 | h1 | h1 | h1 <;> simp [h1]
    · rw [pattern_timer_callback_plain lab s t h] at hms
      rcases hsw ms hms with h1 | h1 | h1 | h1 | h1 <;> simp [h1]
  | sampler r n t =>
    intro ms hms
    by_cases hq : s.sensor_queue.length < sensor_queue_length
    · simp only [Op.run] at hms
      rw [sensor_timer_callback_room s (r, n) t hq] at hms
      simp only [periods_of, List.mem_singleton] at hms
      rw [hms]
      unfold new_period
      split
      · simp
      · split <;> simp
    · simp only [Op.run] at hms
      rw [sensor_timer_callback_full s (r, n) t hq] at hms
      simp only [periods_of, List.mem_singleton] at hms
      rw [hms]
      unfold new_period
      split
      · simp
      · split <;> simp
  | status n =>
    cases lab <;>
      simp [Op.run, status_timer_callback, periods_of, periods_of_append,
        periods_of_status_lines]
  | change p => simp [Op.run, change_led_pattern, periods_of]
  | worker d =>
    simp only [Op.run, sensor_processing_task]
    split
    · split
      · split
        · simp [change_led_pattern, periods_of, periods_of_append]
        · split <;> simp [change_led_pattern, periods_of, periods_of_append]
      · simp [periods_of]
    · simp [periods_of]
  | monitor hp =>
    cases lab <;> simp only [Op.run, system_monitor_task] <;> split <;>
      simp [periods_of, periods_of_append, apply_ite periods_of]

theorem periods_of_app_main (lab : Lab) (s : State) (created : TimerId → Bool) :
    ∀ ms ∈ periods_of (app_main lab s created).2,
      ms = 5000 ∨ ms = 3000 ∨ ms = 2000 ∨ ms = 1000 ∨ ms = 500 := by
  cases lab <;>
    simp only [app_main, start_system, create_timers, start_timers, change_led_pattern] <;>
    split <;>
    simp [periods_of, periods_of_append, WATCHDOG_TIMEOUT_MS, WATCHDOG_FEED_MS,
      PATTERN_BASE_MS, SENSOR_SAMPLE_MS, STATUS_UPDATE_MS]

theorem TimerLoad.periods_of_heartbeat (s : TimerLoad.State) (r1 r2 : Nat) (passed : Bool) :
    TimerLoad.periods_of (TimerLoad.heartbeat_timer_callback s r1 r2 passed).2
      = if r1 % 4 = 0 then [300 + r2 % 400] else [] := by
  by_cases h : r1 % 4 = 0 <;> cases passed <;>
    simp [TimerLoad.heartbeat_timer_callback, h, TimerLoad.periods_of,
      TimerLoad.call_periods_append, TimerLoad.periods_of_flash] <;> omega

theorem TimerLoad.periods_of_oneshot (s : TimerLoad.State) (r : Nat)
    (handle : Option TimerLoad.Handle) (passed : Bool) :
    TimerLoad.periods_of (TimerLoad.oneshot_timer_callback s r handle passed).2
      = [1000 + r % 3000] := by
  cases handle <;> cases passed <;>
    simp [TimerLoad.oneshot_timer_callback, TimerLoad.periods_of,
      TimerLoad.call_periods_append, TimerLoad.periods_of_flash] <;> omega

theorem TimerLoad.periods_of_control (s : TimerLoad.State) (r r2 : Nat)
    (passed1 passed2 : Bool) :
    TimerLoad.periods_of (TimerLoad.timer_control_task s r r2 passed1 passed2).2
      = if r % 3 = 2 then [200 + r2 % 600] else [] := by
  have h3 : r % 3 = 0 ∨ r % 3 = 1 ∨ r % 3 = 2 := by omega
  rcases h3 with h | h | h
  · simp [TimerLoad.timer_control_task, h, TimerLoad.periods_of, TimerLoad.call_periods_append]
  · simp [TimerLoad.timer_control_task, h, TimerLoad.periods_of, TimerLoad.call_periods_append]
  · simp [TimerLoad.timer_control_task, h, TimerLoad.periods_of, TimerLoad.call_periods_append]
    omega

theorem TimerLoad.call_periods_app_main (created passed : TimerLoad.Handle → Bool) :
    TimerLoad.periods_of (TimerLoad.app_main created passed) = [500, 2000, 5000, 3000] := by
  simp only [TimerLoad.app_main]
  split <;>
    simp [TimerLoad.periods_of, TimerLoad.call_periods_append, TimerLoad.periods_of_report,
      TimerLoad.BLINK_PERIOD, TimerLoad.HEARTBEAT_PERIOD, TimerLoad.STATUS_PERIOD,
      TimerLoad.ONESHOT_DELAY]

theorem TimerLoad.call_periods_op (op : TimerLoad.Op) (s : TimerLoad.State) :
    ∀ ms ∈ TimerLoad.periods_of (op.run s).2, 200 ≤ ms ∧ ms ≤ 3999 := by
  cases op with
  | blink passed =>
    simp only [TimerLoad.Op.run, TimerLoad.blink_timer_callback]
    split <;> cases passed <;> simp [TimerLoad.periods_of, TimerLoad.call_periods_append]
  | heartbeat r1 r2 passed =>
    simp only [TimerLoad.Op.run, TimerLoad.periods_of_heartbeat]
    split
    · intro ms hms
      simp only [List.mem_singleton] at hms
      omega
    · simp
  | status =>
    simp [TimerLoad.Op.run, TimerLoad.status_timer_callback, TimerLoad.periods_of,
      TimerLoad.call_periods_append, TimerLoad.periods_of_report]
  | oneshot r handle passed =>
    simp only [TimerLoad.Op.run, TimerLoad.periods_of_oneshot]
    intro ms hms
    simp only [List.mem_singleton] at hms
    omega
  | dynamic xTimer passed =>
    cases passed <;>
      simp [TimerLoad.Op.run, TimerLoad.dynamic_timer_callback, TimerLoad.periods_of]
  | control r r2 passed1 passed2 =>
    simp only [TimerLoad.Op.run, TimerLoad.periods_of_control]
    split
    · intro ms hms
      simp only [List.mem_singleton] at hms
      omega
    · simp

/-- C23: every period, in milliseconds, that the three timer programs pass
to `xTimerCreate` or to `xTimerChangePeriod` is strictly positive.  The two
watchdog programs pass the constants 8000, 5000, 3000, 2000, 1000, 500, 300,
200 and 100 only.  software_TimerLoad creates its timers with 500, 2000, 5000
and 3000 and computes three periods from a random value: `300 + r2 mod 400`
in the heartbeat callback, between 300 and 699, `1000 + r mod 3000` in the
one-shot callback, between 1000 and 3999, and `200 + r2 mod 600` in the
control task, between 200 and 799; none overflows 32 bits. -/
theorem periods_are_positive (lab : Lab) (op : Op) (s : State) (created : TimerId → Bool)
    (top : TimerLoad.Op) (ts : TimerLoad.State) (tcreated tpassed : TimerLoad.Handle → Bool)
    (r r1 r2 : Nat) (handle : Option TimerLoad.Handle) (passed passed2 : Bool) :
    (∀ ms ∈ periods_of (op.run lab s).2, 0 < ms
      ∧ (ms = 8000 ∨ ms = 2000 ∨ ms = 1000 ∨ ms = 500 ∨ ms = 300 ∨ ms = 200 ∨ ms = 100))
    ∧ (∀ ms ∈ periods_of (app_main lab s created).2, 0 < ms
      ∧ (ms = 5000 ∨ ms = 3000 ∨ ms = 2000 ∨ ms = 1000 ∨ ms = 500))
    ∧ (∀ ms ∈ TimerLoad.periods_of (top.run ts).2, 0 < ms)
    ∧ (∀ ms ∈ TimerLoad.periods_of (TimerLoad.app_main tcreated tpassed), 0 < ms)
    ∧ TimerLoad.periods_of (TimerLoad.app_main tcreated tpassed) = [500, 2000, 5000, 3000]
    ∧ (r1 % 4 = 0 →
        TimerLoad.periods_of (TimerLoad.heartbeat_timer_callback ts r1 r2 passed).2
          = [300 + r2 % 400])
    ∧ (300 ≤ 300 + r2 % 400 ∧ 300 + r2 % 400 ≤ 699)
    ∧ TimerLoad.periods_of (TimerLoad.oneshot_timer_callback ts r handle passed).2
        = [1000 + r % 3000]
    ∧ (1000 ≤ 1000 + r % 3000 ∧ 1000 + r % 3000 ≤ 3999)
    ∧ (r % 3 = 2 →
        TimerLoad.periods_of (TimerLoad.timer_control_task ts r r2 passed passed2).2
          = [200 + r2 % 600])
    ∧ (200 ≤ 200 + r2 % 600 ∧ 200 + r2 % 600 ≤ 799) := by
  refine ⟨?_, ?_, ?_, ?_, TimerLoad.call_periods_app_main _ _, ?_, by omega,
    TimerLoad.periods_of_oneshot _ _ _ _, by omega, ?_, by omega⟩
  · intro ms hms
    have h := periods_of_op lab op s ms hms
    exact ⟨by omega, h⟩
  · intro ms hms
    have h := periods_of_app_main lab s created ms hms
    exact ⟨by omega, h⟩
  · intro ms hms
    have h := TimerLoad.call_periods_op top ts ms hms
    omega
  · intro ms hms
    rw [TimerLoad.call_periods_app_main] at hms
    simp only [List.mem_cons, List.mem_singleton, List.not_mem_nil, or_false] at hms
    omega
  · intro h
    rw [TimerLoad.periods_of_heartbeat, if_pos h]
  · intro h
    rw [TimerLoad.periods_of_control, if_pos h]

/-- C24, as stated, fails.  When the creation of the recovery timer fails,
`feed_watchdog_callback` logs the one line it logs when the creation
succeeds; when the creation of the dynamic timer fails,
`oneshot_timer_callback` logs the two lines it logs in any case; and after a
start-up in which the creation of the pattern timer fails, `create_timers`
followed by `start_system` asks to start the pattern timer. -/
theorem creation_failure_silent_or_unchecked :
    logs_of (feed_watchdog_callback .LEDPatternEvolution fourteen_feeds false).2
        = [(.W, .simulate_hang)]
    ∧ logs_of (feed_watchdog_callback .LEDPatternEvolution fourteen_feeds true).2
        = [(.W, .simulate_hang)]
    ∧ TimerLoad.logs_of
        (TimerLoad.oneshot_timer_callback TimerLoad.State.init 0 Option.none true).2
        = [(.I, .oneshot_event), (.I, .creating_dynamic 1000)]
    ∧ Effect.xTimerCreate .pattern_timer 500 true false
        ∈ create_timers .LEDPatternEvolution pattern_timer_missing
    ∧ TimerId.pattern_timer
        ∈ started_timers (start_system .LEDPatternEvolution State.init).2
    ∧ TimerId.pattern_timer
        ∈ started_timers (app_main .SensorAdaptiveSampling State.init pattern_timer_missing).2 := by
  decide

/-- C24, amended: the callers of `xTimerCreate` check the result and the two
callbacks do not use a missing handle.  On its fifteenth firing
`feed_watchdog_callback` makes three calls when the creation of the recovery
timer fails: the log line of the hang, the stop of the feed timer and the
creation; it names the recovery timer in no other call and starts nothing.
When the creation of the dynamic timer fails, `oneshot_timer_callback` ends
with the creation, whatever the other inputs, and leaves `xDynamicTimer`
empty.  Neither callback logs the failure.  `create_timers` logs the error
line exactly when one of the five creations fails. -/
theorem creation_failure_checked (lab : Lab) (s : State) (created : TimerId → Bool)
    (ts : TimerLoad.State) (r : Nat) (passed : Bool) :
    (s.feed_count + 1 = 15 →
      (feed_watchdog_callback lab s false).2
          = [.log .W .simulate_hang, .timer (.xTimerStop .feed_timer),
             .xTimerCreate .recovery 8000 false false]
        ∧ calls_on .recovery (feed_watchdog_callback lab s false).2
          = [.xTimerCreate .recovery 8000 false false]
        ∧ started_timers (feed_watchdog_callback lab s false).2 = []
        ∧ logs_of (feed_watchdog_callback lab s false).2
          = logs_of (feed_watchdog_callback lab s true).2)
    ∧ (TimerLoad.oneshot_timer_callback ts r Option.none passed).2
        = [TimerLoad.Call.log .I .oneshot_event] ++ TimerLoad.flash .LED_ONESHOT 50 5
          ++ [TimerLoad.Call.log .I (.creating_dynamic (1000 + r % 3000)),
              TimerLoad.Call.xTimerCreate (1000 + r % 3000) false Option.none]
    ∧ (TimerLoad.oneshot_timer_callback ts r Option.none passed).1.xDynamicTimer = Option.none
    ∧ ((LogLevel.E, LogMsg.create_timer_failed) ∈ logs_of (create_timers lab created)
        ↔ (created .watchdog_timer && created .feed_timer && created .pattern_timer
          && created .sensor_timer && created .status_timer) = false) := by
  have hm : (1000 + r % 3000) % 2 ^ 32 = 1000 + r % 3000 := Nat.mod_eq_of_lt (by omega)
  refine ⟨?_, ?_, ?_, ?_⟩
  · intro h
    simp [feed_watchdog_callback, h, calls_on, Effect.target, started_timers, logs_of]
  · simp only [TimerLoad.oneshot_timer_callback, hm, List.append_assoc, List.cons_append,
      List.nil_append]
  · simp only [TimerLoad.oneshot_timer_callback]
  · cases h1 : created .watchdog_timer <;> cases h2 : created .feed_timer <;>
      cases h3 : created .pattern_timer <;> cases h4 : created .sensor_timer <;>
      cases h5 : created .status_timer <;> cases lab <;>
      simp [create_timers, logs_of, h1, h2, h3, h4, h5]

theorem creation_failure_checked_witness :
    fourteen_feeds.feed_count + 1 = 15
    ∧ calls_on .recovery (feed_watchdog_callback .LEDPatternEvolution fourteen_feeds false).2
        = [.xTimerCreate .recovery 8000 false false]
    ∧ (LogLevel.E, LogMsg.create_timer_failed)
        ∈ logs_of (create_timers .LEDPatternEvolution pattern_timer_missing) :=
  have h := creation_failure_checked .LEDPatternEvolution fourteen_feeds pattern_timer_missing
    TimerLoad.State.init 0 true
  ⟨by decide, (h.1 (by decide)).2.1, h.2.2.2.mpr (by decide)⟩

/-- C25, as stated, fails for the dynamic timer.  When the timer service
refuses the request to delete it, `dynamic_timer_callback` logs a warning and
clears `xDynamicTimer` all the same: the timer still exists after the
callback and no variable holds its handle. -/
theorem refused_delete_leaves_dynamic_timer :
    TimerLoad.only_dynamic (.dynamic 0) = true
    ∧ TimerLoad.exists_after TimerLoad.only_dynamic
        (TimerLoad.dynamic_timer_callback TimerLoad.dynamic_pending (.dynamic 0) false).2
        (.dynamic 0) = true
    ∧ (TimerLoad.dynamic_timer_callback TimerLoad.dynamic_pending (.dynamic 0) false).1.xDynamicTimer
        = Option.none
    ∧ (LogLevel.W, TimerLoad.Msg.delete_dynamic_failed)
        ∈ TimerLoad.logs_of
          (TimerLoad.dynamic_timer_callback TimerLoad.dynamic_pending (.dynamic 0) false).2 := by
  decide

/-- C25, amended: the callback of a dynamically created one-shot timer asks
to delete the handle it is invoked with, and no other.  `recovery_callback`
logs, asks to start the feed timer and then asks to delete its own timer,
which the timer service no longer holds afterwards.
`dynamic_timer_callback` asks once to delete its own timer, waiting up to 100
ticks, and leaves `xDynamicTimer` empty whatever the answer; afterwards the
timer exists only if the request was refused and the timer existed before,
and a refused request is logged as a warning. -/
theorem one_shot_callbacks_delete_own_handle (s : State) (timer : TimerId) (timers : Timers)
    (ts : TimerLoad.State) (xTimer : TimerLoad.Handle) (passed : Bool)
    (alive : TimerLoad.Handle → Bool) :
    recovery_callback s timer
        = (s, [.log .I .recovered, .timer (.xTimerStart .feed_timer),
            .timer (.xTimerDelete timer)])
    ∧ (timers.requests (recovery_callback s timer).2) timer = ⟨false, false, 0, false⟩
    ∧ TimerLoad.Call.xTimerDelete xTimer 100 passed
        ∈ (TimerLoad.dynamic_timer_callback ts xTimer passed).2
    ∧ TimerLoad.deletes_of (TimerLoad.dynamic_timer_callback ts xTimer passed).2 = [xTimer]
    ∧ (TimerLoad.dynamic_timer_callback ts xTimer passed).1.xDynamicTimer = Option.none
    ∧ TimerLoad.exists_after alive (TimerLoad.dynamic_timer_callback ts xTimer passed).2 xTimer
        = (!passed && alive xTimer)
    ∧ ((LogLevel.W, TimerLoad.Msg.delete_dynamic_failed)
        ∈ TimerLoad.logs_of (TimerLoad.dynamic_timer_callback ts xTimer passed).2
        ↔ passed = false) := by
  refine ⟨rfl, ?_, ?_, ?_, rfl, ?_, ?_⟩
  · simp [recovery_callback, Timers.requests, Timers.request, Timers.set]
  · simp [TimerLoad.dynamic_timer_callback]
  · cases passed <;> simp [TimerLoad.dynamic_timer_callback, TimerLoad.deletes_of]
  · cases passed <;> simp [TimerLoad.dynamic_timer_callback, TimerLoad.exists_after]
  · cases passed <;> simp [TimerLoad.dynamic_timer_callback, TimerLoad.logs_of]

/-! ## Periodic timers stay active -/

theorem quiet_nil (t : TimerId) : quiet t [] := by
  intro e he
  simp at he

theorem quiet_cons (t : TimerId) (e : Effect) (out : List Effect) :
    quiet t (e :: out) ↔ e.disarms t = false ∧ quiet t out := by
  simp [quiet]

theorem quiet_append_iff (t : TimerId) (xs ys : List Effect) :
    quiet t (xs ++ ys) ↔ quiet t xs ∧ quiet t ys := by
  simp only [quiet, List.mem_append]
  constructor
  · intro h
    exact ⟨fun e he => h e (Or.inl he), fun e he => h e (Or.inr he)⟩
  · rintro ⟨h1, h2⟩ e (he | he)
    · exact h1 e he
    · exact h2 e he

theorem quiet_ite (t : TimerId) (c : Prop) [Decidable c] (xs ys : List Effect) :
    quiet t (if c then xs else ys) ↔ (c → quiet t xs) ∧ (¬ c → quiet t ys) := by
  by_cases h : c <;> simp [h]

theorem quiet_of_only_targets {t u : TimerId} {out : List Effect} (h : only_targets u out)
    (hu : t ≠ u) : quiet t out := by
  intro e he
  have h1 := only_targets_other h hu e he
  cases e with
  | timer c => cases c <;> simp_all [Effect.disarms, Effect.target]
  | xTimerCreate v ms a c => simp_all [Effect.disarms, Effect.target]
  | _ => rfl

theorem quiet_change_led_pattern (t : TimerId) (s : State) (p : led_pattern_t) :
    quiet t (change_led_pattern s p).2 := by
  simp [change_led_pattern, quiet_cons, quiet_nil, Effect.disarms]

theorem quiet_pattern_switch (lab : Lab) (s : State) (t u : TimerId) :
    quiet t (pattern_switch lab s u).2 := by
  obtain ⟨cp, ps, hs, pst, fc, pc, sp, q, sm, cn, lc⟩ := s
  cases cp <;> cases lab <;>
    simp [pattern_switch, set_pattern_leds, quiet_cons, quiet_append_iff, quiet_ite,
      quiet_nil, Effect.disarms]

theorem quiet_pattern_timer (lab : Lab) (s : State) (t u : TimerId) :
    quiet t (pattern_timer_callback lab s u).2 := by
  simp only [pattern_timer_callback]
  split
  · exact (quiet_append_iff _ _ _).mpr ⟨quiet_pattern_switch _ _ _ _,
      quiet_change_led_pattern _ _ _⟩
  · exact quiet_pattern_switch _ _ _ _

theorem quiet_sensor_timer (s : State) (reading : ℚ) (now : Nat) (t u : TimerId) :
    quiet t (sensor_timer_callback s reading now u).2 := by
  simp [sensor_timer_callback, read_sensor_value, quiet_cons, quiet_append_iff, quiet_ite,
    quiet_nil, Effect.disarms]

theorem quiet_sensor_processing (s : State) (d : sensor_data_t) (t : TimerId) :
    quiet t (sensor_processing_task s d).2 := by
  simp only [sensor_processing_task]
  split
  · split
    · split
      · simp [change_led_pattern, quiet_cons, quiet_append_iff, quiet_nil, Effect.disarms]
      · split <;>
          simp [change_led_pattern, quiet_cons, quiet_append_iff, quiet_nil, Effect.disarms]
    · simp [quiet_cons, quiet_nil, Effect.disarms]
  · simp [quiet_cons, quiet_nil, Effect.disarms]

theorem quiet_recovery (s : State) (t : TimerId) (h : t ≠ .recovery) :
    quiet t (recovery_callback s .recovery).2 := by
  cases t <;> simp_all [recovery_callback, quiet_cons, quiet_nil, Effect.disarms]

theorem quiet_feed (lab : Lab) (s : State) (created : Bool) (t : TimerId)
    (h : t.free_running = true) : quiet t (feed_watchdog_callback lab s created).2 := by
  simp only [feed_watchdog_callback]
  split
  · cases t <;> cases created <;>
      simp_all [TimerId.free_running, quiet_cons, quiet_nil, Effect.disarms]
  · cases lab <;> simp [quiet_cons, quiet_nil, Effect.disarms]

theorem Timers.request_running (ts : Timers) (e : Effect) (t : TimerId)
    (h : (ts t).running) (he : e.disarms t = false) : ((ts.request e) t).running := by
  by_cases hu : e.target = some t
  · obtain ⟨h1, h2, h3⟩ := h
    cases e with
    | timer c =>
      cases c <;> simp only [Effect.target, Option.some.injEq] at hu <;> subst hu <;>
        simp_all [Effect.disarms, Timers.request, Timers.set, TimerSlot.running]
    | xTimerCreate v ms a c =>
      simp only [Effect.target, Option.some.injEq] at hu
      simp [Effect.disarms, hu] at he
    | _ => simp [Effect.target] at hu
  · rw [Timers.request_other ts e t hu]
    exact h

theorem Timers.requests_running (ts : Timers) (out : List Effect) (t : TimerId)
    (h : (ts t).running) (hq : quiet t out) : ((ts.requests out) t).running := by
  induction out generalizing ts with
  | nil => exact h
  | cons e es ih =>
    show ((Timers.requests (ts.request e) es) t).running
    exact ih (ts.request e)
      (Timers.request_running ts e t h (hq e (List.mem_cons_self e es)))
      (fun x hx => hq x (List.mem_cons_of_mem e hx))

theorem System.fire_running (sys : System) (u t : TimerId)
    (callback : State → State × List Effect) (h : (sys.timers t).running)
    (hq : quiet t (callback sys.prog).2) : ((sys.fire u callback).timers t).running := by
  unfold System.fire
  split
  · simp only
    refine Timers.requests_running _ _ t ?_ hq
    split
    · exact h
    · rename_i hna
      by_cases htu : t = u
      · subst htu
        exact absurd h.2.2 hna
      · rw [Timers.set_other _ _ _ _ htu]
        exact h
  · exact h

theorem quiet_status_timer (lab : Lab) (s : State) (now_ms : Nat) (t : TimerId) :
    quiet t (status_timer_callback lab s now_ms).2 := by
  by_cases h : t = .watchdog_timer
  · subst h
    exact quiet_of_only_targets (only_targets_status_timer lab s now_ms .feed_timer) (by decide)
  · exact quiet_of_only_targets (only_targets_status_timer lab s now_ms .watchdog_timer) h

theorem quiet_system_monitor (lab : Lab) (s : State) (heap : Nat) (t : TimerId) :
    quiet t (system_monitor_task lab s heap).2 := by
  by_cases h : t = .watchdog_timer
  · subst h
    exact quiet_of_only_targets (only_targets_system_monitor lab s heap .feed_timer) (by decide)
  · exact quiet_of_only_targets (only_targets_system_monitor lab s heap .watchdog_timer) h

/-- No event ends the run of the pattern, the sensor or the status timer. -/
theorem System.step_running (lab : Lab) (sys : System) (e : Event) (t : TimerId)
    (ht : t.free_running = true) (h : (sys.timers t).running) :
    ((sys.step lab e).timers t).running := by
  cases e with
  | watchdog_expired =>
    exact System.fire_running sys _ t _ h
      (quiet_of_only_targets (only_targets_watchdog_timeout lab sys.prog)
        (by cases t <;> simp_all [TimerId.free_running]))
  | feed_expired created =>
    exact System.fire_running sys _ t _ h (quiet_feed lab sys.prog created t ht)
  | recovery_expired =>
    exact System.fire_running sys _ t _ h
      (quiet_recovery sys.prog t (by cases t <;> simp_all [TimerId.free_running]))
  | pattern_expired =>
    exact System.fire_running sys _ t _ h (quiet_pattern_timer lab sys.prog t .pattern_timer)
  | sensor_expired reading now =>
    exact System.fire_running sys _ t _ h
      (quiet_sensor_timer sys.prog reading now t .sensor_timer)
  | status_expired now_ms =>
    exact System.fire_running sys _ t _ h (quiet_status_timer lab sys.prog now_ms t)
  | worker =>
    simp only [System.step]
    split
    · exact h
    · exact Timers.requests_running _ _ t h (quiet_sensor_processing _ _ t)
  | monitor heap =>
    exact Timers.requests_running _ _ t h (quiet_system_monitor lab sys.prog heap t)

theorem System.run_running (lab : Lab) (es : List Event) (sys : System) (t : TimerId)
    (ht : t.free_running = true) (h : (sys.timers t).running) :
    ((sys.run lab es).timers t).running := by
  induction es generalizing sys with
  | nil => exact h
  | cons e es ih =>
    rw [System.run_cons]
    exact ih (sys.step lab e) (System.step_running lab sys e t ht h)

theorem boot_running (lab : Lab) (t : TimerId) (ht : t.free_running = true) :
    ((System.boot lab (fun _ => true)).timers t).running := by
  cases lab <;> cases t <;> simp only [TimerId.free_running] at ht <;>
    first
    | exact ⟨rfl, rfl, rfl⟩
    | exact absurd ht (by decide)

theorem quiet_change_periods (t : TimerId) (periods : List Nat) :
    quiet t (periods.map (fun ms => Effect.timer (.xTimerChangePeriod t ms))) := by
  intro e he
  obtain ⟨ms, -, rfl⟩ := List.mem_map.mp he
  rfl

theorem own_period_pattern_switch (lab : Lab) (s : State) (t : TimerId) :
    (requested_periods (pattern_switch lab s t).2).map Prod.fst = [t] := by
  obtain ⟨cp, ps, hs, pst, fc, pc, sp, q, sm, cn, lc⟩ := s
  cases cp <;> cases lab <;>
    simp only [pattern_switch, set_pattern_leds, requested_periods_append,
      apply_ite requested_periods] <;>
    simp [requested_periods]

/-- C26: a periodic timer is active right after its start and stays active
under any requests that neither stop nor delete it, whatever periods are
installed in between.  In the running system, after a start-up in which the
five timers are created, the pattern, the sensor and the status timer are
active after every sequence of events, and the feed timer is active as long
as it has fired at most fourteen times, that is until the callback stops it.
On every firing the pattern timer and the sensor timer send one request to
change a period, for their own handle. -/
theorem periodic_timers_stay_active (lab : Lab) (es : List Event) (ts : Timers) (t : TimerId)
    (out : List Effect) (periods : List Nat) (s : State) (reading : ℚ) (now : Nat) :
    ((ts t).created = true → ((ts.request (.timer (.xTimerStart t))) t).active = true)
    ∧ ((ts t).running → quiet t out → ((ts.requests out) t).active = true)
    ∧ ((ts t).running →
        ((ts.requests (periods.map (fun ms => Effect.timer (.xTimerChangePeriod t ms)))) t).active
          = true)
    ∧ (t.free_running = true →
        (((System.boot lab (fun _ => true)).run lab es).timers t).active = true)
    ∧ ((es.filter Event.isFeed).length ≤ 14 →
        (((System.boot lab (fun _ => true)).run lab es).timers .feed_timer).active = true)
    ∧ (requested_periods (pattern_timer_callback lab s t).2).map Prod.fst = [t]
    ∧ (requested_periods (sensor_timer_callback s reading now t).2).map Prod.fst = [t] := by
  refine ⟨?_, ?_, ?_, ?_, ?_, ?_, ?_⟩
  · intro h
    simp [Timers.request, h, Timers.set]
  · intro h hq
    exact (Timers.requests_running ts out t h hq).2.1
  · intro h
    exact (Timers.requests_running ts _ t h (quiet_change_periods t periods)).2.1
  · intro ht
    exact (System.run_running lab es _ t ht (boot_running lab t ht)).2.1
  · intro hk
    obtain ⟨b1, b2, b3⟩ := boot_feed_timer lab
    have h := (System.run_feeding lab es _ 0 b1 b2 b3 (by omega)).1
    rw [h]
  · rw [requested_periods_pattern_timer, own_period_pattern_switch]
  · simp [sensor_timer_callback, read_sensor_value, requested_periods_append,
      apply_ite requested_periods, requested_periods]

theorem periodic_timers_stay_active_witness :
    (((System.boot .LEDPatternEvolution (fun _ => true)).timers .pattern_timer).created = true
      ∧ ((System.boot .LEDPatternEvolution (fun _ => true)).timers .pattern_timer).running
      ∧ quiet .pattern_timer
          [.timer (.xTimerChangePeriod .pattern_timer 200), .timer (.xTimerStop .feed_timer)]
      ∧ TimerId.pattern_timer.free_running = true
      ∧ ([Event.pattern_expired, .feed_expired true, .status_expired 5000].filter
          Event.isFeed).length ≤ 14)
    ∧ (((System.boot .LEDPatternEvolution (fun _ => true)).timers.requests
          [.timer (.xTimerChangePeriod .pattern_timer 200),
           .timer (.xTimerStop .feed_timer)]) .pattern_timer).active = true
    ∧ (((System.boot .LEDPatternEvolution (fun _ => true)).run .LEDPatternEvolution
          [.pattern_expired, .feed_expired true, .status_expired 5000]).timers
          .pattern_timer).active = true :=
  have hq : quiet .pattern_timer
      [.timer (.xTimerChangePeriod .pattern_timer 200), .timer (.xTimerStop .feed_timer)] := by
    simp [quiet_cons, quiet_nil, Effect.disarms]
  have h := periodic_timers_stay_active .LEDPatternEvolution
    [.pattern_expired, .feed_expired true, .status_expired 5000]
    (System.boot .LEDPatternEvolution (fun _ => true)).timers .pattern_timer
    [.timer (.xTimerChangePeriod .pattern_timer 200), .timer (.xTimerStop .feed_timer)]
    [200, 1000] State.init 20 0
  ⟨⟨rfl, ⟨rfl, rfl, rfl⟩, hq, rfl, by decide⟩, h.2.1 ⟨rfl, rfl, rfl⟩ hq, h.2.2.2.1 rfl⟩

/-! ## The rendering of SOS, HEARTBEAT and RAINBOW -/

/-- The `switch` in the SOS variant, at a position inside the string. -/
theorem pattern_switch_sos (lab : Lab) (s : State) (t : TimerId)
    (h : s.current_pattern = .PATTERN_SOS) (hp : s.sos_pos < 9) :
    pattern_switch lab s t
      = ({ s with sos_pos := (s.sos_pos + 1) % 9 },
          set_pattern_leds true true true
            ++ [.vTaskDelay (if 3 ≤ s.sos_pos ∧ s.sos_pos ≤ 5 then 600 else 200)]
            ++ set_pattern_leds false false false
            ++ (if lab = .LEDPatternEvolution ∧ s.sos_pos = 8
                then [.log .I .sos_complete, .vTaskDelay 1000] else [])
            ++ [.timer (.xTimerChangePeriod t
                (match lab with
                  | .LEDPatternEvolution => 500
                  | .SensorAdaptiveSampling => 200))]) := by
  obtain ⟨cp, ps, hs, pst, fc, pc, sp, q, sm, cn, lc⟩ := s
  simp only at h hp
  subst h
  interval_cases sp <;> cases lab <;>
    simp [pattern_switch, sos, set_pattern_leds, PATTERN_BASE_MS]

/-- One invocation in the SOS variant: the calls start with the symbol, the
pins are written six times, and the position advances whether or not the
invocation ends with the auto-rotation. -/
theorem sos_invocation (lab : Lab) (s : State) (t : TimerId)
    (h : s.current_pattern = .PATTERN_SOS) (hp : s.sos_pos < 9) :
    (pattern_timer_callback lab s t).2.take 7
        = set_pattern_leds true true true
          ++ [.vTaskDelay (if 3 ≤ s.sos_pos ∧ s.sos_pos ≤ 5 then 600 else 200)]
          ++ set_pattern_leds false false false
    ∧ pin_writes (pattern_timer_callback lab s t).2
        = [(.PATTERN_LED_1, true), (.PATTERN_LED_2, true), (.PATTERN_LED_3, true),
           (.PATTERN_LED_1, false), (.PATTERN_LED_2, false), (.PATTERN_LED_3, false)]
    ∧ delays (pattern_timer_callback lab s t).2
        = (if 3 ≤ s.sos_pos ∧ s.sos_pos ≤ 5 then 600 else 200)
          :: (if lab = .LEDPatternEvolution ∧ s.sos_pos = 8 then [1000] else [])
    ∧ (pattern_timer_callback lab s t).1.sos_pos = (s.sos_pos + 1) % 9 := by
  have hsw := pattern_switch_sos lab { s with pattern_cycle := incr32 s.pattern_cycle } t h hp
  have hpin := pin_writes_pattern_timer lab s t
  rw [hsw] at hpin
  refine ⟨?_, ?_, ?_, ?_⟩
  · by_cases hr : incr32 s.pattern_cycle % 50 = 0
    · rw [pattern_timer_callback_rotate lab s t hr, hsw]
      simp [set_pattern_leds]
    · rw [pattern_timer_callback_plain lab s t hr, hsw]
      simp [set_pattern_leds]
  · rw [hpin]
    simp only [pin_writes_append, apply_ite pin_writes]
    simp [pin_writes, set_pattern_leds]
  · by_cases hr : incr32 s.pattern_cycle % 50 = 0
    · rw [pattern_timer_callback_rotate lab s t hr, hsw]
      simp only [delays_append, apply_ite delays, change_led_pattern_out]
      simp [delays, set_pattern_leds]
    · rw [pattern_timer_callback_plain lab s t hr, hsw]
      simp only [delays_append, apply_ite delays]
      simp [delays, set_pattern_leds]
  · by_cases hr : incr32 s.pattern_cycle % 50 = 0
    · rw [pattern_timer_callback_rotate lab s t hr, hsw]
      rfl
    · rw [pattern_timer_callback_plain lab s t hr, hsw]

/-- The position after `k` invocations that all find the SOS variant. -/
theorem sos_run_position (lab : Lab) (t : TimerId) (s : State) (h0 : s.sos_pos < 9) (k : Nat)
    (hsos : ∀ j < k, (pattern_run lab t j s).1.current_pattern = .PATTERN_SOS) :
    (pattern_run lab t k s).1.sos_pos = (s.sos_pos + k) % 9 := by
  induction k with
  | zero => exact (Nat.mod_eq_of_lt h0).symm
  | succ k ih =>
    have ihk := ih (fun j hj => hsos j (by omega))
    rw [pattern_run_succ]
    have hp : (pattern_run lab t k s).1.sos_pos < 9 := by
      rw [ihk]
      exact Nat.mod_lt _ (by decide)
    rw [(sos_invocation lab _ t (hsos k (by omega)) hp).2.2.2, ihk]
    omega

/-- The delays of the first `k` of nine invocations that start at position 0
and all find the SOS variant. -/
theorem sos_run_delays (lab : Lab) (t : TimerId) (s : State) (h0 : s.sos_pos = 0) (k : Nat)
    (hk : k ≤ 9)
    (hsos : ∀ j < k, (pattern_run lab t j s).1.current_pattern = .PATTERN_SOS) :
    delays (pattern_run lab t k s).2
      = [200, 200, 200, 600, 600, 600, 200, 200, 200].take k
        ++ (if lab = .LEDPatternEvolution ∧ k = 9 then [1000] else []) := by
  induction k with
  | zero => simp [pattern_run, delays]
  | succ k ih =>
    have ihk := ih (by omega) (fun j hj => hsos j (by omega))
    have hpos := sos_run_position lab t s (by omega) k (fun j hj => hsos j (by omega))
    rw [h0, Nat.zero_add, Nat.mod_eq_of_lt (by omega : k < 9)] at hpos
    rw [pattern_run_succ]
    simp only [delays_append]
    rw [ihk, (sos_invocation lab _ t (hsos k (by omega)) (by omega)).2.2.1, hpos]
    have hk9 : k < 9 := by omega
    interval_cases k <;> cases lab <;> simp

/-- C27: in both programs an invocation of `pattern_timer_callback` in the
SOS variant, at a position below 9, renders one symbol: it switches the three
outputs on, waits 600 ms at the positions 3, 4 and 5 and 200 ms at the others,
switches the three outputs off, writes no other pin, and leaves the position
advanced by one modulo 9.  Nine invocations in a row that start at position 0
and all find the SOS variant stand at position `k` after `k` of them, wait
200, 200, 200, 600, 600, 600, 200, 200 and 200 ms in this order, and end at
position 0; LEDPatternEvolution adds a pause of 1000 ms after the ninth
symbol. -/
theorem sos_rendering (lab : Lab) (s : State) (t : TimerId) (k : Nat) :
    (s.current_pattern = .PATTERN_SOS → s.sos_pos < 9 →
      (pattern_timer_callback lab s t).2.take 7
          = set_pattern_leds true true true
            ++ [.vTaskDelay (if 3 ≤ s.sos_pos ∧ s.sos_pos ≤ 5 then 600 else 200)]
            ++ set_pattern_leds false false false
      ∧ pin_writes (pattern_timer_callback lab s t).2
          = [(.PATTERN_LED_1, true), (.PATTERN_LED_2, true), (.PATTERN_LED_3, true),
             (.PATTERN_LED_1, false), (.PATTERN_LED_2, false), (.PATTERN_LED_3, false)]
      ∧ delays (pattern_timer_callback lab s t).2
          = (if 3 ≤ s.sos_pos ∧ s.sos_pos ≤ 5 then 600 else 200)
            :: (if lab = .LEDPatternEvolution ∧ s.sos_pos = 8 then [1000] else [])
      ∧ (pattern_timer_callback lab s t).1.sos_pos = (s.sos_pos + 1) % 9)
    ∧ (s.sos_pos = 0 →
        (∀ j < 9, (pattern_run lab t j s).1.current_pattern = .PATTERN_SOS) →
        (k < 9 → (pattern_run lab t k s).1.sos_pos = k)
        ∧ delays (pattern_run lab t 9 s).2
            = [200, 200, 200, 600, 600, 600, 200, 200, 200]
              ++ (if lab = .LEDPatternEvolution then [1000] else [])
        ∧ (pattern_run lab t 9 s).1.sos_pos = 0) := by
  refine ⟨fun h hp => sos_invocation lab s t h hp, fun h0 hsos => ⟨fun hk => ?_, ?_, ?_⟩⟩
  · rw [sos_run_position lab t s (by omega) k (fun j hj => hsos j (by omega)), h0,
      Nat.zero_add, Nat.mod_eq_of_lt hk]
  · rw [sos_run_delays lab t s h0 9 (by omega) hsos]
    simp
  · rw [sos_run_position lab t s (by omega) 9 hsos, h0]

theorem sos_rendering_witness :
    ((change_led_pattern State.init .PATTERN_SOS).1.current_pattern = .PATTERN_SOS
      ∧ (change_led_pattern State.init .PATTERN_SOS).1.sos_pos < 9
      ∧ (change_led_pattern State.init .PATTERN_SOS).1.sos_pos = 0
      ∧ (∀ j < 9, (pattern_run .LEDPatternEvolution .pattern_timer j
          (change_led_pattern State.init .PATTERN_SOS).1).1.current_pattern = .PATTERN_SOS)
      ∧ 4 < 9)
    ∧ delays (pattern_timer_callback .LEDPatternEvolution
        (change_led_pattern State.init .PATTERN_SOS).1 .pattern_timer).2 = [200]
    ∧ (pattern_run .LEDPatternEvolution .pattern_timer 4
        (change_led_pattern State.init .PATTERN_SOS).1).1.sos_pos = 4
    ∧ delays (pattern_run .LEDPatternEvolution .pattern_timer 9
        (change_led_pattern State.init .PATTERN_SOS).1).2
        = [200, 200, 200, 600, 600, 600, 200, 200, 200, 1000] :=
  have hsos : ∀ j < 9, (pattern_run .LEDPatternEvolution .pattern_timer j
      (change_led_pattern State.init .PATTERN_SOS).1).1.current_pattern = .PATTERN_SOS := by
    decide
  have h := sos_rendering .LEDPatternEvolution (change_led_pattern State.init .PATTERN_SOS).1
    .pattern_timer 4
  ⟨⟨rfl, by decide, rfl, hsos, by decide⟩, (h.1 rfl (by decide)).2.2.1,
    (h.2 rfl hsos).1 (by decide), (h.2 rfl hsos).2.1⟩

/-- An invocation that leaves the variant as it found it has not rotated. -/
theorem pattern_timer_callback_same (lab : Lab) (s : State) (t : TimerId)
    (h : (pattern_timer_callback lab s t).1.current_pattern = s.current_pattern) :
    incr32 s.pattern_cycle % 50 ≠ 0 := by
  intro hr
  rw [pattern_timer_callback_rotate lab s t hr] at h
  simp only [change_led_pattern_current] at h
  revert h
  cases s.current_pattern <;> decide

/-- The expression `pulse` of the HEARTBEAT case. -/
theorem pulse_steps (n : Nat) :
    (decide (n % 10 < 2) || (decide (n % 10 ≥ 3) && decide (n % 10 < 5)))
      = decide (n % 10 = 0 ∨ n % 10 = 1 ∨ n % 10 = 3 ∨ n % 10 = 4) := by
  have h : n % 10 < 10 := Nat.mod_lt _ (by decide)
  generalize n % 10 = x at h
  interval_cases x <;> rfl

/-- The `switch` in the HEARTBEAT variant. -/
theorem pattern_switch_heartbeat (lab : Lab) (s : State) (t : TimerId)
    (h : s.current_pattern = .PATTERN_HEARTBEAT) :
    (pattern_switch lab s t).1 = { s with pattern_step := s.pattern_step + 1 }
    ∧ pin_writes (pattern_switch lab s t).2
        = [(.PATTERN_LED_1, false), (.PATTERN_LED_2, false),
           (.PATTERN_LED_3, decide (s.pattern_step % 10 = 0 ∨ s.pattern_step % 10 = 1
              ∨ s.pattern_step % 10 = 3 ∨ s.pattern_step % 10 = 4))] := by
  obtain ⟨cp, ps, hs, pst, fc, pc, sp, q, sm, cn, lc⟩ := s
  simp only at h
  subst h
  refine ⟨by cases lab <;> rfl, ?_⟩
  rw [← pulse_steps]
  cases lab <;>
    simp only [pattern_switch, set_pattern_leds, pin_writes_append, apply_ite pin_writes] <;>
    simp [pin_writes]

/-- The bits of the step in the RAINBOW case. -/
theorem rainbow_bits (n : Nat) :
    (n % 8 &&& 1 != 0).toNat + 2 * (n % 8 &&& 2 != 0).toNat + 4 * (n % 8 &&& 4 != 0).toNat
      = n % 8 := by
  have h : n % 8 < 8 := Nat.mod_lt _ (by decide)
  generalize n % 8 = x at h
  interval_cases x <;> rfl

/-- The `switch` in the RAINBOW variant. -/
theorem pattern_switch_rainbow (lab : Lab) (s : State) (t : TimerId)
    (h : s.current_pattern = .PATTERN_RAINBOW) :
    (pattern_switch lab s t).1 = { s with pattern_step := s.pattern_step + 1 }
    ∧ pin_writes (pattern_switch lab s t).2
        = [(.PATTERN_LED_1, s.pattern_step % 8 &&& 1 != 0),
           (.PATTERN_LED_2, s.pattern_step % 8 &&& 2 != 0),
           (.PATTERN_LED_3, s.pattern_step % 8 &&& 4 != 0)] := by
  obtain ⟨cp, ps, hs, pst, fc, pc, sp, q, sm, cn, lc⟩ := s
  simp only at h
  subst h
  refine ⟨by cases lab <;> rfl, ?_⟩
  cases lab <;>
    simp only [pattern_switch, set_pattern_leds, pin_writes_append, apply_ite pin_writes] <;>
    simp [pin_writes]

/-- The step counter after an invocation in HEARTBEAT or RAINBOW: one more,
or 0 when the invocation ends with the auto-rotation. -/
theorem counting_invocation_step (lab : Lab) (s : State) (t : TimerId)
    (h : s.current_pattern = .PATTERN_HEARTBEAT ∨ s.current_pattern = .PATTERN_RAINBOW) :
    (pattern_timer_callback lab s t).1.pattern_step
      = if incr32 s.pattern_cycle % 50 = 0 then 0 else s.pattern_step + 1 := by
  by_cases hr : incr32 s.pattern_cycle % 50 = 0
  · rw [pattern_timer_callback_rotate lab s t hr, if_pos hr]
    rfl
  · rw [pattern_timer_callback_plain lab s t hr, if_neg hr]
    rcases h with h | h
    · exact congrArg State.pattern_step
        (pattern_switch_heartbeat lab { s with pattern_cycle := incr32 s.pattern_cycle } t h).1
    · exact congrArg State.pattern_step
        (pattern_switch_rainbow lab { s with pattern_cycle := incr32 s.pattern_cycle } t h).1

/-- The step counter after `k` invocations that all leave the variant in
place, HEARTBEAT or RAINBOW. -/
theorem counting_run_step (lab : Lab) (t : TimerId) (s : State) (p : led_pattern_t)
    (hp : p = .PATTERN_HEARTBEAT ∨ p = .PATTERN_RAINBOW) (k : Nat)
    (hrun : ∀ j ≤ k, (pattern_run lab t j s).1.current_pattern = p) :
    (pattern_run lab t k s).1.pattern_step = s.pattern_step + k := by
  induction k with
  | zero => rfl
  | succ k ih =>
    have ihk := ih (fun j hj => hrun j (by omega))
    have hk := hrun k (by omega)
    have hk1 := hrun (k + 1) (by omega)
    rw [pattern_run_succ] at hk1 ⊢
    simp only at hk1 ⊢
    have hnr := pattern_timer_callback_same lab _ t (hk1.trans hk.symm)
    rw [counting_invocation_step lab _ t (by rw [hk]; exact hp), if_neg hnr, ihk]
    omega

/-- C28: in both programs an invocation of `pattern_timer_callback` in the
HEARTBEAT variant writes `false` to the outputs 1 and 2 and writes to output 3
whether `pattern_step` modulo 10 is 0, 1, 3 or 4; it leaves `pattern_step`
one greater, or at 0 when the invocation ends with the auto-rotation, whose
transition clears the counter.  From `pattern_step = 0`, as long as the
invocations find the HEARTBEAT variant, `pattern_step` is `k` before the
`k`-th invocation, counted from 0, which switches output 3 on exactly when
`k` modulo 10 is 0, 1, 3 or 4: four steps of every ten. -/
theorem heartbeat_rendering (lab : Lab) (s : State) (t : TimerId) (k : Nat) :
    (s.current_pattern = .PATTERN_HEARTBEAT →
      pin_writes (pattern_timer_callback lab s t).2
          = [(.PATTERN_LED_1, false), (.PATTERN_LED_2, false),
             (.PATTERN_LED_3, decide (s.pattern_step % 10 = 0 ∨ s.pattern_step % 10 = 1
                ∨ s.pattern_step % 10 = 3 ∨ s.pattern_step % 10 = 4))]
      ∧ (pattern_timer_callback lab s t).1.pattern_step
          = if incr32 s.pattern_cycle % 50 = 0 then 0 else s.pattern_step + 1)
    ∧ (s.pattern_step = 0 →
        (∀ j ≤ k, (pattern_run lab t j s).1.current_pattern = .PATTERN_HEARTBEAT) →
        (pattern_run lab t k s).1.pattern_step = k
        ∧ pin_writes (pattern_timer_callback lab (pattern_run lab t k s).1 t).2
            = [(.PATTERN_LED_1, false), (.PATTERN_LED_2, false),
               (.PATTERN_LED_3, decide (k % 10 = 0 ∨ k % 10 = 1 ∨ k % 10 = 3 ∨ k % 10 = 4))])
    ∧ ((List.range 10).filter
        (fun i => decide (i % 10 = 0 ∨ i % 10 = 1 ∨ i % 10 = 3 ∨ i % 10 = 4))).length = 4 := by
  have hinv : ∀ s : State, s.current_pattern = .PATTERN_HEARTBEAT →
      pin_writes (pattern_timer_callback lab s t).2
        = [(.PATTERN_LED_1, false), (.PATTERN_LED_2, false),
           (.PATTERN_LED_3, decide (s.pattern_step % 10 = 0 ∨ s.pattern_step % 10 = 1
              ∨ s.pattern_step % 10 = 3 ∨ s.pattern_step % 10 = 4))] := by
    intro s h
    rw [pin_writes_pattern_timer]
    exact (pattern_switch_heartbeat lab { s with pattern_cycle := incr32 s.pattern_cycle }
      t h).2
  refine ⟨fun h => ⟨hinv s h, counting_invocation_step lab s t (Or.inl h)⟩,
    fun h0 hrun => ?_, by decide⟩
  have hstep := counting_run_step lab t s _ (Or.inl rfl) k hrun
  rw [h0, Nat.zero_add] at hstep
  refine ⟨hstep, ?_⟩
  rw [hinv _ (hrun k (Nat.le_refl k)), hstep]

theorem heartbeat_rendering_witness :
    ((change_led_pattern State.init .PATTERN_HEARTBEAT).1.current_pattern = .PATTERN_HEARTBEAT
      ∧ (change_led_pattern State.init .PATTERN_HEARTBEAT).1.pattern_step = 0
      ∧ (∀ j ≤ 13, (pattern_run .SensorAdaptiveSampling .pattern_timer j
          (change_led_pattern State.init .PATTERN_HEARTBEAT).1).1.current_pattern
            = .PATTERN_HEARTBEAT))
    ∧ (pattern_timer_callback .SensorAdaptiveSampling
        (change_led_pattern State.init .PATTERN_HEARTBEAT).1 .pattern_timer).1.pattern_step = 1
    ∧ pin_writes (pattern_timer_callback .SensorAdaptiveSampling
        (pattern_run .SensorAdaptiveSampling .pattern_timer 13
          (change_led_pattern State.init .PATTERN_HEARTBEAT).1).1 .pattern_timer).2
        = [(.PATTERN_LED_1, false), (.PATTERN_LED_2, false), (.PATTERN_LED_3, true)] :=
  have hrun : ∀ j ≤ 13, (pattern_run .SensorAdaptiveSampling .pattern_timer j
      (change_led_pattern State.init .PATTERN_HEARTBEAT).1).1.current_pattern
        = .PATTERN_HEARTBEAT := by
    decide
  have h := heartbeat_rendering .SensorAdaptiveSampling
    (change_led_pattern State.init .PATTERN_HEARTBEAT).1 .pattern_timer 13
  ⟨⟨rfl, rfl, hrun⟩, (h.1 rfl).2, (h.2.1 rfl hrun).2⟩

/-- C29: in both programs an invocation of `pattern_timer_callback` in the
RAINBOW variant writes the three outputs once each, with levels whose value
`l1 + 2 * l2 + 4 * l3` is `pattern_step` modulo 8 as it stood before; it
leaves `pattern_step` one greater, or at 0 when the invocation ends with the
auto-rotation.  From `pattern_step = 0`, as long as the invocations find the
RAINBOW variant, `pattern_step` is `k` before the `k`-th invocation, counted
from 0, whose outputs have the value `k` modulo 8: the eight combinations in
counting order, repeating with period 8. -/
theorem rainbow_rendering (lab : Lab) (s : State) (t : TimerId) (k : Nat) :
    (s.current_pattern = .PATTERN_RAINBOW →
      (∃ l1 l2 l3 : Bool,
        pin_writes (pattern_timer_callback lab s t).2
          = [(.PATTERN_LED_1, l1), (.PATTERN_LED_2, l2), (.PATTERN_LED_3, l3)]
        ∧ l1.toNat + 2 * l2.toNat + 4 * l3.toNat = s.pattern_step % 8)
      ∧ (pattern_timer_callback lab s t).1.pattern_step
          = if incr32 s.pattern_cycle % 50 = 0 then 0 else s.pattern_step + 1)
    ∧ (s.pattern_step = 0 →
        (∀ j ≤ k, (pattern_run lab t j s).1.current_pattern = .PATTERN_RAINBOW) →
        (pattern_run lab t k s).1.pattern_step = k
        ∧ ∃ l1 l2 l3 : Bool,
            pin_writes (pattern_timer_callback lab (pattern_run lab t k s).1 t).2
              = [(.PATTERN_LED_1, l1), (.PATTERN_LED_2, l2), (.PATTERN_LED_3, l3)]
            ∧ l1.toNat + 2 * l2.toNat + 4 * l3.toNat = k % 8) := by
  have hinv : ∀ s : State, s.current_pattern = .PATTERN_RAINBOW →
      ∃ l1 l2 l3 : Bool,
        pin_writes (pattern_timer_callback lab s t).2
          = [(.PATTERN_LED_1, l1), (.PATTERN_LED_2, l2), (.PATTERN_LED_3, l3)]
        ∧ l1.toNat + 2 * l2.toNat + 4 * l3.toNat = s.pattern_step % 8 := by
    intro s h
    refine ⟨_, _, _, ?_, rainbow_bits s.pattern_step⟩
    rw [pin_writes_pattern_timer]
    exact (pattern_switch_rainbow lab { s with pattern_cycle := incr32 s.pattern_cycle }
      t h).2
  refine ⟨fun h => ⟨hinv s h, counting_invocation_step lab s t (Or.inr h)⟩,
    fun h0 hrun => ?_⟩
  have hstep := counting_run_step lab t s _ (Or.inr rfl) k hrun
  rw [h0, Nat.zero_add] at hstep
  refine ⟨hstep, ?_⟩
  have h := hinv _ (hrun k (Nat.le_refl k))
  rw [hstep] at h
  exact h

theorem rainbow_rendering_witness :
    ((change_led_pattern State.init .PATTERN_RAINBOW).1.current_pattern = .PATTERN_RAINBOW
      ∧ (change_led_pattern State.init .PATTERN_RAINBOW).1.pattern_step = 0
      ∧ (∀ j ≤ 13, (pattern_run .LEDPatternEvolution .pattern_timer j
          (change_led_pattern State.init .PATTERN_RAINBOW).1).1.current_pattern
            = .PATTERN_RAINBOW))
    ∧ (pattern_timer_callback .LEDPatternEvolution
        (change_led_pattern State.init .PATTERN_RAINBOW).1 .pattern_timer).1.pattern_step = 1
    ∧ (pattern_run .LEDPatternEvolution .pattern_timer 13
        (change_led_pattern State.init .PATTERN_RAINBOW).1).1.pattern_step = 13
    ∧ pin_writes (pattern_timer_callback .LEDPatternEvolution
        (pattern_run .LEDPatternEvolution .pattern_timer 13
          (change_led_pattern State.init .PATTERN_RAINBOW).1).1 .pattern_timer).2
        = [(.PATTERN_LED_1, true), (.PATTERN_LED_2, false), (.PATTERN_LED_3, true)] :=
  have hrun : ∀ j ≤ 13, (pattern_run .LEDPatternEvolution .pattern_timer j
      (change_led_pattern State.init .PATTERN_RAINBOW).1).1.current_pattern
        = .PATTERN_RAINBOW := by
    decide
  have h := rainbow_rendering .LEDPatternEvolution
    (change_led_pattern State.init .PATTERN_RAINBOW).1 .pattern_timer 13
  ⟨⟨rfl, rfl, hrun⟩, (h.1 rfl).2, (h.2 rfl hrun).1, by decide⟩

/-! ## The hang without a recovery timer -/

/-- With the feed timer stopped and no recovery timer, no event changes the
records of the two timers or the counts of the feed callback. -/
theorem System.run_stuck (lab : Lab) (es : List Event) (sys : System)
    (hfeed : sys.timers .feed_timer = ⟨true, false, 2000, true⟩)
    (hrec : sys.timers .recovery = ⟨false, false, 0, false⟩) :
    (sys.run lab es).timers .feed_timer = ⟨true, false, 2000, true⟩
    ∧ (sys.run lab es).timers .recovery = ⟨false, false, 0, false⟩
    ∧ feed_view (sys.run lab es).prog = feed_view sys.prog := by
  induction es generalizing sys with
  | nil => exact ⟨hfeed, hrec, rfl⟩
  | cons e es ih =>
    rw [System.run_cons]
    cases hf : e.isFeed with
    | true =>
      cases e with
      | feed_expired created =>
        have hstep : sys.step lab (.feed_expired created) = sys :=
          System.fire_dormant sys .feed_timer
            (fun s => feed_watchdog_callback lab s created) (by rw [hfeed])
        rw [hstep]
        exact ih sys hfeed hrec
      | _ => simp [Event.isFeed] at hf
    | false =>
      cases hr : e.isRecovery with
      | true =>
        cases e with
        | recovery_expired =>
          have hstep : sys.step lab .recovery_expired = sys :=
            System.fire_dormant sys .recovery (fun s => recovery_callback s .recovery)
              (by rw [hrec])
          rw [hstep]
          exact ih sys hfeed hrec
        | _ => simp [Event.isRecovery] at hr
      | false =>
        obtain ⟨f1, f2, f3⟩ := System.step_frame lab sys e hf hr
        obtain ⟨g1, g2, g3⟩ := ih (sys.step lab e) (f1.trans hfeed) (f2.trans hrec)
        exact ⟨g1, g2, g3.trans f3⟩

/-- C30: the hang when the recovery timer cannot be created, in both programs
and from a boot in which the five timers are created.  `es1` is any sequence
of events with 14 expiries of the feed timer and `es2` any sequence of events
at all.  On the fifteenth firing `feed_watchdog_callback` logs, asks to stop
the feed timer and asks for the recovery timer; when that creation fails it
makes no further call and starts no timer.  Right after it the feed timer is
inactive, no recovery timer exists and `watchdog_feeds` is 14; after `es2`,
whatever callbacks and tasks run, the feed timer is still inactive and
`watchdog_feeds` still 14. -/
theorem failed_recovery_creation_is_permanent (lab : Lab) (es1 es2 : List Event)
    (h14 : (es1.filter Event.isFeed).length = 14) :
    (feed_watchdog_callback lab (before_hang lab es1).prog false).2
        = [.log .W .simulate_hang, .timer (.xTimerStop .feed_timer),
            .xTimerCreate .recovery 8000 false false]
    ∧ started_timers (feed_watchdog_callback lab (before_hang lab es1).prog false).2 = []
    ∧ ((before_hang lab es1).timers .feed_timer).active = true
    ∧ ((stuck lab es1).timers .feed_timer).active = false
    ∧ ((stuck lab es1).timers .recovery).created = false
    ∧ (stuck lab es1).prog.health_stats.watchdog_feeds = 14
    ∧ ((after_stuck lab es1 es2).timers .feed_timer).active = false
    ∧ ((after_stuck lab es1 es2).timers .recovery).created = false
    ∧ (after_stuck lab es1 es2).prog.health_stats.watchdog_feeds = 14 := by
  obtain ⟨b1, b2, b3⟩ := boot_feed_timer lab
  obtain ⟨p1, p2, p3⟩ := System.run_feeding lab es1 (System.boot lab (fun _ => true)) 0
    b1 b2 b3 (by omega)
  rw [h14] at p3
  change (before_hang lab es1).timers .feed_timer = _ at p1
  change (before_hang lab es1).timers .recovery = _ at p2
  change feed_view (before_hang lab es1).prog = _ at p3
  have hfc : (before_hang lab es1).prog.feed_count = 14 := congrArg Prod.fst p3
  have hwf : (before_hang lab es1).prog.health_stats.watchdog_feeds = 14 :=
    congrArg Prod.snd p3
  have hcb := feed_watchdog_callback_hang lab (before_hang lab es1).prog false
    (by rw [hfc])
  have hh : stuck lab es1
      = ⟨(feed_watchdog_callback lab (before_hang lab es1).prog false).1,
          (before_hang lab es1).timers.requests
            (feed_watchdog_callback lab (before_hang lab es1).prog false).2⟩ := by
    simp [stuck, System.step, System.fire, p1]
  have q1 : (stuck lab es1).timers .feed_timer = ⟨true, false, 2000, true⟩ := by
    rw [hh, hcb]
    simp [Timers.requests, Timers.request, Timers.set, p1, p2]
  have q2 : (stuck lab es1).timers .recovery = ⟨false, false, 0, false⟩ := by
    rw [hh, hcb]
    simp [Timers.requests, Timers.request, Timers.set, p1, p2]
  have q3 : (stuck lab es1).prog.health_stats.watchdog_feeds = 14 := by
    rw [hh, hcb]
    exact hwf
  obtain ⟨r1, r2, r3⟩ := System.run_stuck lab es2 (stuck lab es1) q1 q2
  change (after_stuck lab es1 es2).timers .feed_timer = _ at r1
  change (after_stuck lab es1 es2).timers .recovery = _ at r2
  change feed_view (after_stuck lab es1 es2).prog = _ at r3
  have r4 : (after_stuck lab es1 es2).prog.health_stats.watchdog_feeds = 14 :=
    (congrArg Prod.snd r3).trans q3
  refine ⟨?_, ?_, ?_, ?_, ?_, q3, ?_, ?_, r4⟩
  · rw [hcb]
    rfl
  · rw [hcb]
    rfl
  · rw [p1]
  · rw [q1]
  · rw [q2]
  · rw [r1]
  · rw [r2]

theorem failed_recovery_creation_is_permanent_witness :
    (scenario3_before.filter Event.isFeed).length = 14
    ∧ ((stuck .SensorAdaptiveSampling scenario3_before).timers .feed_timer).active = false
    ∧ ((after_stuck .SensorAdaptiveSampling scenario3_before scenario_stuck).timers
        .feed_timer).active = false
    ∧ (after_stuck .SensorAdaptiveSampling scenario3_before
        scenario_stuck).prog.health_stats.watchdog_feeds = 14 :=
  have h14 : (scenario3_before.filter Event.isFeed).length = 14 := by decide
  have h := failed_recovery_creation_is_permanent .SensorAdaptiveSampling scenario3_before
    scenario_stuck h14
  ⟨h14, h.2.2.2.1, h.2.2.2.2.2.2.1, h.2.2.2.2.2.2.2.2⟩

/-! ## Instances of the counter, writer and period properties -/

theorem counters_never_decrease_below_max_witness :
    State.init.health_stats.watchdog_timeouts + 1 < 2 ^ 32
    ∧ State.init.health_stats.watchdog_timeouts
        ≤ (Op.watchdog_timeout.run .LEDPatternEvolution
            State.init).1.health_stats.watchdog_timeouts :=
  ⟨by decide,
    (counters_never_decrease_below_max .LEDPatternEvolution .watchdog_timeout
      State.init).2.2.2.2.2.1 (by decide)⟩

theorem health_field_writers_witness :
    ((Op.monitor 200000).run .LEDPatternEvolution
        (timeout_run .LEDPatternEvolution 6 State.init)).1.health_stats.system_healthy
      ≠ (timeout_run .LEDPatternEvolution 6 State.init).health_stats.system_healthy
    ∧ (Op.monitor 200000 = .watchdog_timeout ∨ ∃ h, Op.monitor 200000 = .monitor h) :=
  ⟨by decide,
    (health_field_writers .LEDPatternEvolution (.monitor 200000)
      (timeout_run .LEDPatternEvolution 6 State.init)).2.2.2.2.2 (by decide)⟩

theorem periods_are_positive_witness :
    8 % 4 = 0 ∧ 5 % 3 = 2
    ∧ TimerLoad.periods_of
        (TimerLoad.heartbeat_timer_callback TimerLoad.State.init 8 1234 true).2
        = [300 + 1234 % 400]
    ∧ TimerLoad.periods_of
        (TimerLoad.timer_control_task TimerLoad.State.init 5 1234 true true).2
        = [200 + 1234 % 600] :=
  have h := periods_are_positive .LEDPatternEvolution .watchdog_timeout State.init
    (fun _ => true) .status TimerLoad.State.init (fun _ => true) (fun _ => true) 5 8 1234
    Option.none true true
  ⟨by decide, by decide, h.2.2.2.2.2.1 (by decide), h.2.2.2.2.2.2.2.2.2.1 (by decide)⟩

end TimerLabs
